import Mathlib

/-!
# ext/ffi_c/Struct.c

A shallow embedding of the struct facility of the ffi C extension
(`FFI::Struct`, `FFI::StructLayout`, `FFI::StructLayoutBuilder::Field`) and
theorems about it.

Ruby objects live in an explicit heap, raw memory is a byte map, and every C
function becomes a function from a `World` to a result paired with the
`World` it leaves behind; `rb_raise` is an `Except.error` result, so the state
a raising call leaves behind stays visible.  A C pointer to the payload of a
`T_DATA` object is represented by the reference of that object.
-/

namespace FFI

/-! ## Values, errors, events -/

/-- A reference into the object heap. -/
abbrev Ref := Nat

/-- An interned identifier (method, constant or variable name). -/
abbrev ID := String

/-- Ruby `VALUE`: the immediates the facility looks at, immutable strings, and
references to heap objects. -/
inductive VALUE where
  | Qnil
  | Qtrue
  | Qfalse
  | int (n : Int)
  | sym (s : String)
  | str (s : String)
  | obj (r : Ref)
  deriving DecidableEq, Repr

/-- Exception classes raised by the code or by the interpreter services it
calls. -/
inductive ExcClass where
  | rb_eArgError
  | rb_eRuntimeError
  | rb_eNoMemError
  | rb_eTypeError
  | rb_eRangeError
  | rb_eIndexError
  | rb_eOther (name : String)
  deriving DecidableEq, Repr

/-- How a call can fail: a Ruby exception (`rb_raise`), or C undefined
behaviour (a NULL or wrongly typed payload pointer is dereferenced). -/
inductive RbError where
  | raised (exc : ExcClass) (msg : String)
  | undefined
  deriving DecidableEq, Repr

/-- Calls that leave this file, in the order they are made. -/
inductive Event where
  | opGet (ptr : Ref) (offset : Nat)
  | opPut (ptr : Ref) (offset : Nat) (value : VALUE)
  | funcall (recv : VALUE) (mid : ID) (args : List VALUE)
  | newMemoryPointer (size : Int) (count : Int) (clear : Bool)
  deriving DecidableEq, Repr

/-! ## Types.h, AbstractMemory.h, Struct.h -/

/-- Modelled from the spec: the `NativeType` enumeration of Types.h, which is
not among the sources.  The twelve primitive tags of the spec keep the names
the switch in `ptr_get_op` uses; every other enumerator is `NATIVE_OTHER`. -/
inductive NativeType where
  | NATIVE_INT8
  | NATIVE_UINT8
  | NATIVE_INT16
  | NATIVE_UINT16
  | NATIVE_INT32
  | NATIVE_UINT32
  | NATIVE_INT64
  | NATIVE_UINT64
  | NATIVE_FLOAT32
  | NATIVE_FLOAT64
  | NATIVE_POINTER
  | NATIVE_STRING
  | NATIVE_OTHER (code : Nat)
  deriving DecidableEq, Repr

/-- Modelled from the spec: the `Type` struct of Types.h (not among the
sources); only `nativeType` is read here. -/
structure FfiType where
  nativeType : NativeType
  deriving DecidableEq, Repr

/-- Raw memory: a byte for every address. -/
abbrev Ram := Nat → Nat

/-- The part of an `AbstractMemory` a marshalling function works on: the base
address and the size of the region. -/
structure Region where
  address : Nat
  size : Int
  deriving DecidableEq, Repr

/-- Modelled from the spec: `MemoryOp` of AbstractMemory.h (not among the
sources), a `get(buffer, offset) -> value` and `put(buffer, offset, value)`
pair.  Both may raise; `get` reads raw memory, `put` returns the raw memory it
leaves behind. -/
structure MemoryOp where
  get : Ram → Region → Nat → Except RbError VALUE
  put : Ram → Region → Nat → VALUE → Except RbError Unit × Ram

/-- Modelled from the spec: `MemoryOps` of AbstractMemory.h (not among the
sources), one nullable slot per primitive type; the slot names are the ones
`ptr_get_op` reads. -/
structure MemoryOps where
  int8 : Option MemoryOp
  uint8 : Option MemoryOp
  int16 : Option MemoryOp
  uint16 : Option MemoryOp
  int32 : Option MemoryOp
  uint32 : Option MemoryOp
  int64 : Option MemoryOp
  uint64 : Option MemoryOp
  float32 : Option MemoryOp
  float64 : Option MemoryOp
  pointer : Option MemoryOp
  strptr : Option MemoryOp

/-- Modelled from the spec: `AbstractMemory` of AbstractMemory.h (not among the
sources): `address`, `size` and the nullable operations table `ops`. -/
structure AbstractMemory where
  address : Nat
  size : Int
  ops : Option MemoryOps

/-- The region a marshalling function is handed for a memory object. -/
def AbstractMemory.region (m : AbstractMemory) : Region :=
  ⟨m.address, m.size⟩

/-- `StructField` of Struct.h as Struct.c uses it: `offset` (unsigned int),
`rbType` and the nullable `type`. -/
structure StructField where
  offset : Nat
  rbType : VALUE
  type : Option FfiType
  deriving DecidableEq, Repr

/-- `StructLayout` of Struct.h as Struct.c uses it.  `fields` is the C array
of `StructField*`: an entry is the reference of the field object it points
into, or `none` while it has not been assigned; `fieldCount` is its declared
length. -/
structure StructLayout where
  rbFieldMap : VALUE
  size : Int
  align : Int
  fieldCount : Nat
  fields : List (Option Ref)
  deriving DecidableEq, Repr

/-- `Struct` of Struct.h as Struct.c uses it.  `pointer` and `layout` are the
C pointers (NULL is `none`). -/
structure Struct where
  rbPointer : VALUE
  rbLayout : VALUE
  pointer : Option Ref
  layout : Option Ref
  deriving DecidableEq, Repr

/-! ## The object heap -/

/-- What an object is besides its class and instance variables. -/
inductive RBody where
  | object
  | klass (name : String) (ancestors : List Ref)
  | array (elems : List VALUE)
  | hash (entries : List (VALUE × VALUE))
  | dataField (f : StructField)
  | dataLayout (l : StructLayout)
  | dataStruct (s : Struct)
  | dataMemory (m : AbstractMemory)
  | dataOther

/-- A heap object: its class, its instance (or class) variable table, its
body. -/
structure RObject where
  klass : Ref
  ivars : List (ID × VALUE)
  body : RBody

/-- The state the code runs in.  A reference is an index into `heap`, so a
newly allocated object never collides with a live one; `brk` is the first
raw address not yet handed out. -/
structure World where
  heap : List RObject
  ram : Ram
  brk : Nat
  trace : List Event

/-- A result together with the state left behind. -/
abbrev Res (α : Type) := Except RbError α × World

/-- Interpreter services whose behaviour is not fixed by this file: dynamic
method dispatch (`rb_funcall2`), and the operations table that
MemoryPointer.c installs on the regions it allocates. -/
structure Ruby where
  funcall : World → VALUE → ID → List VALUE → Res VALUE
  memoryPointerOps : Option MemoryOps

/-- The class objects Init registers, at fixed references. -/
def rbffi_AbstractMemoryClass : Ref := 1
def rbffi_StructLayoutClass : Ref := 2
def StructFieldClass : Ref := 3
def rbffi_StructClass : Ref := 4
def rbffi_MemoryPointerClass : Ref := 5
def rb_cHash : Ref := 6

def id_pointer_ivar : ID := "@pointer"
def id_layout_ivar : ID := "@layout"
def id_get : ID := "get"
def id_put : ID := "put"
def id_to_s : ID := "to_s"
def id_layout : ID := "layout"

/-! ## Interpreter services (ruby.h) -/

/-- Append an outgoing call to the trace. -/
def World.log (w : World) (e : Event) : World :=
  { w with trace := w.trace ++ [e] }

/-- The object a value refers to, if it is a heap reference. -/
def World.deref (w : World) (v : VALUE) : Option RObject :=
  match v with
  | .obj r => w.heap[r]?
  | _ => none

/-- Store through a payload pointer: replace the body of the object at `r`. -/
def World.setBody (w : World) (r : Ref) (b : RBody) : World :=
  match w.heap[r]? with
  | some o => { w with heap := w.heap.set r { o with body := b } }
  | none => w

/-- Allocate a new object; its reference is the old heap length. -/
def World.alloc (w : World) (o : RObject) : VALUE × World :=
  (.obj w.heap.length, { w with heap := w.heap ++ [o] })

/-- Read `*p` for `StructField* p`. -/
def World.getField (w : World) (r : Ref) : Option StructField :=
  match w.heap[r]? with
  | some ⟨_, _, .dataField f⟩ => some f
  | _ => none

/-- Read `*p` for `StructLayout* p`. -/
def World.getLayout (w : World) (r : Ref) : Option StructLayout :=
  match w.heap[r]? with
  | some ⟨_, _, .dataLayout l⟩ => some l
  | _ => none

/-- Read `*p` for `Struct* p`. -/
def World.getStruct (w : World) (r : Ref) : Option Struct :=
  match w.heap[r]? with
  | some ⟨_, _, .dataStruct s⟩ => some s
  | _ => none

/-- Read `*p` for `AbstractMemory* p`. -/
def World.getMemory (w : World) (r : Ref) : Option AbstractMemory :=
  match w.heap[r]? with
  | some ⟨_, _, .dataMemory m⟩ => some m
  | _ => none

/-- Assign through a `Struct*`: `s->x = v`. -/
def World.modStruct (w : World) (r : Ref) (f : Struct → Struct) : World :=
  match w.getStruct r with
  | some st => w.setBody r (.dataStruct (f st))
  | none => w

/-- Assign through a `StructLayout*`: `layout->x = v`. -/
def World.modLayout (w : World) (r : Ref) (f : StructLayout → StructLayout) : World :=
  match w.getLayout r with
  | some l => w.setBody r (.dataLayout (f l))
  | none => w

/-- `rb_raise`: the call does not return; the state is kept.  The message
is passed already formatted, a `%s` directive being the insertion of the whole
string. -/
def rb_raise {α : Type} (w : World) (exc : ExcClass) (msg : String) : Res α :=
  (.error (.raised exc msg), w)

/-- Undefined behaviour of the C program. -/
def undefined {α : Type} (w : World) : Res α :=
  (.error .undefined, w)

/-- `CLASS_OF` for heap objects; the classes of immediates and strings are
interpreter built-ins outside the heap. -/
def CLASS_OF (w : World) (v : VALUE) : Option Ref :=
  match w.deref v with
  | some o => some o.klass
  | none => none

/-- `rb_class_name` of the class object at `k`. -/
def rb_class_name (w : World) (k : Ref) : Option String :=
  match w.heap[k]? with
  | some ⟨_, _, .klass name _⟩ => some name
  | _ => none

/-- The ancestor chain of the class object at `k`, the class itself first. -/
def ancestors (w : World) (k : Ref) : List Ref :=
  match w.heap[k]? with
  | some ⟨_, _, .klass _ anc⟩ => anc
  | _ => []

/-- `rb_obj_is_kind_of(v, c)`. -/
def rb_obj_is_kind_of (w : World) (v : VALUE) (c : Ref) : Bool :=
  match CLASS_OF w v with
  | some k => decide (c ∈ ancestors w k)
  | none => false

/-- `TYPE(v) == T_DATA`. -/
def isT_DATA (w : World) (v : VALUE) : Bool :=
  match w.deref v with
  | some ⟨_, _, .dataField _⟩ => true
  | some ⟨_, _, .dataLayout _⟩ => true
  | some ⟨_, _, .dataStruct _⟩ => true
  | some ⟨_, _, .dataMemory _⟩ => true
  | some ⟨_, _, .dataOther⟩ => true
  | _ => false

/-- `DATA_PTR(v)`: the payload pointer, read without any check. -/
def DATA_PTR (v : VALUE) : Option Ref :=
  match v with
  | .obj r => some r
  | _ => none

/-- `Data_Get_Struct`: `Check_Type(v, T_DATA)`, then the payload pointer. -/
def Data_Get_Struct (w : World) (v : VALUE) : Except RbError Ref :=
  match v with
  | .obj r => if isT_DATA w v then .ok r else .error (.raised .rb_eTypeError "wrong argument type (expected Data)")
  | _ => .error (.raised .rb_eTypeError "wrong argument type (expected Data)")

/-- `NUM2INT`: an Integer in the range of a C int converts, a larger one is a
RangeError, anything else a TypeError. -/
def NUM2INT (v : VALUE) : Except RbError Int :=
  match v with
  | .int n =>
    if -2147483648 ≤ n ∧ n < 2147483648 then .ok n
    else .error (.raised .rb_eRangeError "integer out of range of int")
  | _ => .error (.raised .rb_eTypeError "can not convert to Integer")

/-- `StringValuePtr`. -/
def StringValuePtr (v : VALUE) : Except RbError String :=
  match v with
  | .str s => .ok s
  | _ => .error (.raised .rb_eTypeError "can not convert to String")

/-- The text a `%s` conversion of a format prints for a `char*` to the bytes
of `s`: the characters before the first NUL. -/
def cstr (s : String) : String :=
  String.mk (s.toList.takeWhile (fun c => c ≠ Char.ofNat 0))

/-- Key lookup in a hash table; `Qnil` when the key is absent. -/
def st_lookup (k : VALUE) : List (VALUE × VALUE) → VALUE
  | [] => .Qnil
  | (k1, v1) :: rest => if k1 = k then v1 else st_lookup k rest

/-- Key insertion in a hash table: an existing key keeps its place and gets
the new value, a new key goes to the end. -/
def st_insert (k v : VALUE) : List (VALUE × VALUE) → List (VALUE × VALUE)
  | [] => [(k, v)]
  | (k1, v1) :: rest => if k1 = k then (k, v) :: rest else (k1, v1) :: st_insert k v rest

/-- `rb_hash_new`. -/
def rb_hash_new (w : World) : VALUE × World :=
  w.alloc ⟨rb_cHash, [], .hash []⟩

/-- `rb_hash_aref(h, k)`; `none` when `h` is not a hash (undefined in C). -/
def rb_hash_aref (w : World) (h k : VALUE) : Option VALUE :=
  match w.deref h with
  | some ⟨_, _, .hash es⟩ => some (st_lookup k es)
  | _ => none

/-- `rb_hash_aset(h, k, v)`; `none` when `h` is not a hash. -/
def rb_hash_aset (w : World) (h k v : VALUE) : Option World :=
  match h with
  | .obj r =>
    match w.heap[r]? with
    | some ⟨_, _, .hash es⟩ => some (w.setBody r (.hash (st_insert k v es)))
    | _ => none
  | _ => none

/-- `RARRAY_LEN(a)`; `none` when `a` is not an array. -/
def RARRAY_LEN (w : World) (a : VALUE) : Option Nat :=
  match w.deref a with
  | some ⟨_, _, .array xs⟩ => some xs.length
  | _ => none

/-- `RARRAY_PTR(a)` read as the element list. -/
def RARRAY_PTR (w : World) (a : VALUE) : Option (List VALUE) :=
  match w.deref a with
  | some ⟨_, _, .array xs⟩ => some xs
  | _ => none

/-- `rb_ary_entry(a, i)`: `Qnil` past the end. -/
def rb_ary_entry (w : World) (a : VALUE) (i : Nat) : Option VALUE :=
  match w.deref a with
  | some ⟨_, _, .array xs⟩ => some (xs.getD i .Qnil)
  | _ => none

/-- `rb_ivar_set(obj, id, val)` and `rb_iv_set`: the variable table of the
object at `r` gets `id := val`. -/
def rb_ivar_set (w : World) (r : Ref) (id : ID) (val : VALUE) : World :=
  match w.heap[r]? with
  | some o => { w with heap := w.heap.set r { o with ivars := (id, val) :: o.ivars.filter (fun p => p.1 ≠ id) } }
  | none => w

/-- The variable `id` in the table of the object at `r`. -/
def ivar_lookup (w : World) (r : Ref) (id : ID) : Option VALUE :=
  match w.heap[r]? with
  | some o => (o.ivars.find? (fun p => p.1 = id)).map (·.2)
  | none => none

/-- `rb_cvar_get(klass, id)`, `none` when `rb_cvar_defined` is false: the first
class along the ancestor chain of `klass` whose table has `id`. -/
def rb_cvar_get (w : World) (klass : Ref) (id : ID) : Option VALUE :=
  (ancestors w klass).findSome? (fun c => ivar_lookup w c id)

/-- Modelled from the spec: the `MEMORY` cast of AbstractMemory.h (not among
the sources): a buffer is "validated to be kind-compatible with the generic
memory-region capability; fails with ArgumentError otherwise".  On success it
yields the payload pointer. -/
def MEMORY (w : World) (obj : VALUE) : Except RbError Ref :=
  if rb_obj_is_kind_of w obj rbffi_AbstractMemoryClass then Data_Get_Struct w obj
  else .error (.raised .rb_eArgError "Invalid Memory object")

/-- Modelled from the spec: `rbffi_MemoryPointer_NewInstance` of
MemoryPointer.c (not among the sources): "allocate a zero-filled region of
exactly `layout.size` bytes, alignment 1, and take ownership".  The region is
`size * count` bytes at the first free address, zeroed when `clear` is set,
wrapped in a new MemoryPointer object carrying the provider operations table;
a negative size cannot be allocated. -/
def rbffi_MemoryPointer_NewInstance (rb : Ruby) (w : World) (size count : Int) (clear : Bool) :
    Res VALUE :=
  let w1 := w.log (.newMemoryPointer size count clear)
  if size * count < 0 then rb_raise w1 .rb_eNoMemError "Failed to allocate memory"
  else
    let n := (size * count).toNat
    let ram1 : Ram := fun a => if clear ∧ w1.brk ≤ a ∧ a < w1.brk + n then 0 else w1.ram a
    let m : AbstractMemory := ⟨w1.brk, size * count, rb.memoryPointerOps⟩
    let (v, w2) := World.alloc { w1 with ram := ram1, brk := w1.brk + n }
      ⟨rbffi_MemoryPointerClass, [], .dataMemory m⟩
    (.ok v, w2)

/-! ## Struct.c: the dispatch helper -/

/-- Source `ptr_get_op` (Struct.c 234-268). -/
def ptr_get_op (ptr : Option AbstractMemory) (type : Option FfiType) : Option MemoryOp :=
  match ptr with
  | none => none
  | some p =>
    match p.ops with
    | none => none
    | some ops =>
      match type with
      | none => none
      | some t =>
        match t.nativeType with
        | .NATIVE_INT8 => ops.int8
        | .NATIVE_UINT8 => ops.uint8
        | .NATIVE_INT16 => ops.int16
        | .NATIVE_UINT16 => ops.uint16
        | .NATIVE_INT32 => ops.int32
        | .NATIVE_UINT32 => ops.uint32
        | .NATIVE_INT64 => ops.int64
        | .NATIVE_UINT64 => ops.uint64
        | .NATIVE_FLOAT32 => ops.float32
        | .NATIVE_FLOAT64 => ops.float64
        | .NATIVE_POINTER => ops.pointer
        | .NATIVE_STRING => ops.strptr
        | .NATIVE_OTHER _ => none

/-- Dereference an `AbstractMemory*` that may be NULL: `ok none` for NULL,
undefined when the pointer is not that of a memory payload. -/
def loadMemory (w : World) (p : Option Ref) : Except RbError (Option AbstractMemory) :=
  match p with
  | none => .ok none
  | some r =>
    match w.getMemory r with
    | some m => .ok (some m)
    | none => .error .undefined

/-! ## Struct.c: StructLayoutBuilder::Field -/

/-- Source `struct_field_allocate` (Struct.c 59-69). -/
def struct_field_allocate (w : World) (klass : Ref) : VALUE × World :=
  w.alloc ⟨klass, [], .dataField ⟨0, .Qnil, none⟩⟩

/-- The raise of `struct_field_get` and `struct_field_put` when no op matches:
`rb_raise(rb_eArgError, "<what> not supported for %s", rb_class_name(CLASS_OF(self)))`. -/
def not_supported {α : Type} (w : World) (what : String) (self : VALUE) : Res α :=
  match (CLASS_OF w self).bind (rb_class_name w) with
  | some name => rb_raise w .rb_eArgError (what ++ " not supported for " ++ name)
  | none => undefined w

/-- Source `struct_field_get` (Struct.c 111-127). -/
def struct_field_get (w : World) (self pointer : VALUE) : Res VALUE :=
  match MEMORY w pointer with
  | .error e => (.error e, w)
  | .ok memory =>
    match Data_Get_Struct w self with
    | .error e => (.error e, w)
    | .ok fp =>
      match w.getField fp, w.getMemory memory with
      | some f, some m =>
        match ptr_get_op (some m) f.type with
        | none => not_supported w "get" self
        | some op =>
          let w1 := w.log (.opGet memory f.offset)
          (op.get w1.ram m.region f.offset, w1)
      | _, _ => undefined w

/-- Source `struct_field_put` (Struct.c 129-147). -/
def struct_field_put (w : World) (self pointer value : VALUE) : Res VALUE :=
  match MEMORY w pointer with
  | .error e => (.error e, w)
  | .ok memory =>
    match Data_Get_Struct w self with
    | .error e => (.error e, w)
    | .ok fp =>
      match w.getField fp, w.getMemory memory with
      | some f, some m =>
        match ptr_get_op (some m) f.type with
        | none => not_supported w "put" self
        | some op =>
          let w1 := w.log (.opPut memory f.offset value)
          match op.put w1.ram m.region f.offset value with
          | (.error e, ram1) => (.error e, { w1 with ram := ram1 })
          | (.ok _, ram1) => (.ok self, { w1 with ram := ram1 })
      | _, _ => undefined w

/-! ## Struct.c: Struct -/

/-- Source `struct_allocate` (Struct.c 155-165). -/
def struct_allocate (w : World) (klass : Ref) : VALUE × World :=
  w.alloc ⟨klass, [], .dataStruct ⟨.Qnil, .Qnil, none, none⟩⟩

/-- Source `struct_initialize` (Struct.c 167-207).  `argv` is the argument
list; `rb_scan_args(argc, argv, "01*", &rbPointer, &rest)` returns `argc`,
puts the first argument (or `Qnil`) in `rbPointer` and the others in `rest`. -/
def struct_initialize (rb : Ruby) (w : World) (argv : List VALUE) (self : VALUE) : Res VALUE :=
  match CLASS_OF w self, Data_Get_Struct w self with
  | _, .error e => (.error e, w)
  | none, .ok _ => undefined w
  | some klass, .ok s =>
    let rbPointer := argv.headD .Qnil
    let rest := argv.tail
    let nargs := argv.length
    -- call up into ruby code to adjust the layout
    let r1 : Res Unit :=
      if nargs > 1 then
        let w1 := w.log (.funcall (.obj klass) id_layout rest)
        match rb.funcall w1 (.obj klass) id_layout rest with
        | (.error e, w2) => (.error e, w2)
        | (.ok l, w2) => (.ok (), w2.modStruct s (fun st => { st with rbLayout := l }))
      else
        match rb_cvar_get w klass id_layout_ivar with
        | some l => (.ok (), w.modStruct s (fun st => { st with rbLayout := l }))
        | none => rb_raise w .rb_eRuntimeError "No Struct layout configured"
    match r1 with
    | (.error e, w2) => (.error e, w2)
    | (.ok _, w2) =>
      match w2.getStruct s with
      | none => undefined w2
      | some st =>
        if !rb_obj_is_kind_of w2 st.rbLayout rbffi_StructLayoutClass then
          rb_raise w2 .rb_eRuntimeError "Invalid Struct layout"
        else
          match Data_Get_Struct w2 st.rbLayout with
          | .error e => (.error e, w2)
          | .ok lp =>
            let w3 := w2.modStruct s (fun st => { st with layout := some lp })
            let r2 : Res Unit :=
              if rbPointer ≠ .Qnil then
                match MEMORY w3 rbPointer with
                | .error e => (.error e, w3)
                | .ok mp =>
                  let w4 := w3.modStruct s (fun st => { st with pointer := some mp })
                  (.ok (), w4.modStruct s (fun st => { st with rbPointer := rbPointer }))
              else
                match w3.getLayout lp with
                | none => undefined w3
                | some layout =>
                  match rbffi_MemoryPointer_NewInstance rb w3 layout.size 1 true with
                  | (.error e, w4) => (.error e, w4)
                  | (.ok p, w4) =>
                    let w5 := w4.modStruct s (fun st => { st with rbPointer := p })
                    (.ok (), w5.modStruct s (fun st => { st with pointer := DATA_PTR p }))
            match r2 with
            | (.error e, w6) => (.error e, w6)
            | (.ok _, w6) =>
              match w6.getStruct s with
              | none => undefined w6
              | some st6 =>
                match loadMemory w6 st6.pointer with
                | .ok (some m) =>
                  if m.ops.isNone then
                    match (CLASS_OF w6 st6.rbPointer).bind (rb_class_name w6) with
                    | some name => rb_raise w6 .rb_eRuntimeError ("No memory ops set for " ++ name)
                    | none => undefined w6
                  else (.ok self, w6)
                | _ => undefined w6

/-- Source `struct_field` (Struct.c 216-232).  `s` is the `Struct*`.  The
message of the raise is formatted with `%s` from `StringValuePtr(str)`, so it
holds the string form of the name up to its first NUL (`cstr`). -/
def struct_field (rb : Ruby) (w : World) (s : Ref) (fieldName : VALUE) : Res VALUE :=
  match w.getStruct s with
  | none => undefined w
  | some st =>
    match st.layout with
    | none => rb_raise w .rb_eRuntimeError "layout not set for Struct"
    | some lp =>
      match w.getLayout lp with
      | none => undefined w
      | some layout =>
        match rb_hash_aref w layout.rbFieldMap fieldName with
        | none => undefined w
        | some rbField =>
          if rbField = .Qnil then
            let w1 := w.log (.funcall fieldName id_to_s [])
            match rb.funcall w1 fieldName id_to_s [] with
            | (.error e, w2) => (.error e, w2)
            | (.ok str, w2) =>
              match StringValuePtr str with
              | .error e => (.error e, w2)
              | .ok name => rb_raise w2 .rb_eArgError ("No such field '" ++ cstr name ++ "'")
          else (.ok rbField, w)

/-- Source `struct_get_field` (Struct.c 270-289), the method `[]`. -/
def struct_get_field (rb : Ruby) (w : World) (self fieldName : VALUE) : Res VALUE :=
  match Data_Get_Struct w self with
  | .error e => (.error e, w)
  | .ok s =>
    match struct_field rb w s fieldName with
    | (.error e, w1) => (.error e, w1)
    | (.ok rbField, w1) =>
      match w1.getStruct s, (DATA_PTR rbField).bind w1.getField with
      | some st, some f =>
        match loadMemory w1 st.pointer with
        | .error e => (.error e, w1)
        | .ok ptr =>
          match ptr_get_op ptr f.type, ptr, st.pointer with
          | some op, some m, some mp =>
            let w2 := w1.log (.opGet mp f.offset)
            (op.get w2.ram m.region f.offset, w2)
          | _, _, _ =>
            -- call up to the ruby code to fetch the value
            let w2 := w1.log (.funcall rbField id_get [st.rbPointer])
            rb.funcall w2 rbField id_get [st.rbPointer]
      | _, _ => undefined w1

/-- Source `struct_put_field` (Struct.c 291-316), the method `[]=`. -/
def struct_put_field (rb : Ruby) (w : World) (self fieldName value : VALUE) : Res VALUE :=
  match Data_Get_Struct w self with
  | .error e => (.error e, w)
  | .ok s =>
    match struct_field rb w s fieldName with
    | (.error e, w1) => (.error e, w1)
    | (.ok rbField, w1) =>
      match w1.getStruct s, (DATA_PTR rbField).bind w1.getField with
      | some st, some f =>
        match loadMemory w1 st.pointer with
        | .error e => (.error e, w1)
        | .ok ptr =>
          match ptr_get_op ptr f.type, ptr, st.pointer with
          | some op, some m, some mp =>
            let w2 := w1.log (.opPut mp f.offset value)
            match op.put w2.ram m.region f.offset value with
            | (.error e, ram1) => (.error e, { w2 with ram := ram1 })
            | (.ok _, ram1) => (.ok self, { w2 with ram := ram1 })
          | _, _, _ =>
            -- call up to the ruby code to set the value
            let w2 := w1.log (.funcall rbField id_put [st.rbPointer, value])
            match rb.funcall w2 rbField id_put [st.rbPointer, value] with
            | (.error e, w3) => (.error e, w3)
            | (.ok _, w3) => (.ok self, w3)
      | _, _ => undefined w1

/-- Source `struct_set_pointer` (Struct.c 318-333), the method `pointer=`. -/
def struct_set_pointer (w : World) (self pointer : VALUE) : Res VALUE :=
  if !rb_obj_is_kind_of w pointer rbffi_AbstractMemoryClass then
    rb_raise w .rb_eArgError "Invalid pointer"
  else
    match Data_Get_Struct w self with
    | .error e => (.error e, w)
    | .ok s =>
      match w.getStruct s, MEMORY w pointer with
      | none, _ => undefined w
      | some _, .error e => (.error e, w)
      | some _, .ok mp =>
        let w1 := w.modStruct s (fun st => { st with pointer := some mp })
        let w2 := w1.modStruct s (fun st => { st with rbPointer := pointer })
        (.ok self, rb_ivar_set w2 s id_pointer_ivar pointer)

/-- Source `struct_get_pointer` (Struct.c 335-343), the method `pointer`. -/
def struct_get_pointer (w : World) (self : VALUE) : Res VALUE :=
  match Data_Get_Struct w self with
  | .error e => (.error e, w)
  | .ok s =>
    match w.getStruct s with
    | some st => (.ok st.rbPointer, w)
    | none => undefined w

/-- Source `struct_set_layout` (Struct.c 345-359), the method `layout=`. -/
def struct_set_layout (w : World) (self layout : VALUE) : Res VALUE :=
  match Data_Get_Struct w self with
  | .error e => (.error e, w)
  | .ok s =>
    if !rb_obj_is_kind_of w layout rbffi_StructLayoutClass then
      rb_raise w .rb_eArgError "Invalid Struct layout"
    else
      match w.getStruct s, Data_Get_Struct w layout with
      | none, _ => undefined w
      | some _, .error e => (.error e, w)
      | some _, .ok lp =>
        let w1 := w.modStruct s (fun st => { st with layout := some lp })
        (.ok self, rb_ivar_set w1 s id_layout_ivar layout)

/-- Source `struct_get_layout` (Struct.c 361-369), the method `layout`. -/
def struct_get_layout (w : World) (self : VALUE) : Res VALUE :=
  match Data_Get_Struct w self with
  | .error e => (.error e, w)
  | .ok s =>
    match w.getStruct s with
    | some st => (.ok st.rbLayout, w)
    | none => undefined w

/-! ## Struct.c: StructLayout -/

/-- Source `struct_layout_allocate` (Struct.c 371-381). -/
def struct_layout_allocate (w : World) (klass : Ref) : VALUE × World :=
  w.alloc ⟨klass, [], .dataLayout ⟨.Qnil, 0, 0, 0, []⟩⟩

/-- The `for` loop of `struct_layout_initialize` (Struct.c 404-412), from
index `i` with `k` iterations to go. -/
def struct_layout_fields_loop (layout : Ref) (field_names fields : VALUE) :
    World → Nat → Nat → Res Unit
  | w, _, 0 => (.ok (), w)
  | w, i, k + 1 =>
    match rb_ary_entry w field_names i with
    | none => undefined w
    | some name =>
      match rb_hash_aref w fields name with
      | none => undefined w
      | some field =>
        if !isT_DATA w field || !rb_obj_is_kind_of w field StructFieldClass then
          rb_raise w .rb_eArgError "Invalid field"
        else
          match w.getLayout layout with
          | none => undefined w
          | some l =>
            match rb_hash_aset w l.rbFieldMap name field with
            | none => undefined w
            | some w1 =>
              match Data_Get_Struct w1 field with
              | .error e => (.error e, w1)
              | .ok fp =>
                struct_layout_fields_loop layout field_names fields
                  (w1.modLayout layout (fun l => { l with fields := l.fields.set i (some fp) }))
                  (i + 1) k

/-- Source `struct_layout_initialize` (Struct.c 383-415).  `ALLOC_N` raises
by itself when memory runs out, so the NULL test after it never fires; the
array it returns is unassigned. -/
def struct_layout_initialize (w : World) (self field_names fields size align : VALUE) : Res VALUE :=
  match Data_Get_Struct w self with
  | .error e => (.error e, w)
  | .ok layout =>
    match w.getLayout layout with
    | none => undefined w
    | some _ =>
      let (map, w1) := rb_hash_new w
      let w2 := w1.modLayout layout (fun l => { l with rbFieldMap := map })
      match NUM2INT size with
      | .error e => (.error e, w2)
      | .ok sz =>
        let w3 := w2.modLayout layout (fun l => { l with size := sz })
        match NUM2INT align with
        | .error e => (.error e, w3)
        | .ok al =>
          let w4 := w3.modLayout layout (fun l => { l with align := al })
          match RARRAY_LEN w4 field_names with
          | none => undefined w4
          | some n =>
            let w5 := w4.modLayout layout (fun l => { l with fieldCount := n })
            let w6 := w5.modLayout layout (fun l => { l with fields := List.replicate n none })
            let w7 := rb_ivar_set w6 layout "@field_names" field_names
            let w8 := rb_ivar_set w7 layout "@fields" fields
            let w9 := rb_ivar_set w8 layout "@size" size
            let w10 := rb_ivar_set w9 layout "@align" align
            match struct_layout_fields_loop layout field_names fields w10 0 n with
            | (.error e, w11) => (.error e, w11)
            | (.ok _, w11) => (.ok self, w11)

/-- Source `struct_layout_aref` (Struct.c 417-425), the method `[]`. -/
def struct_layout_aref (w : World) (self field : VALUE) : Res VALUE :=
  match Data_Get_Struct w self with
  | .error e => (.error e, w)
  | .ok lp =>
    match w.getLayout lp with
    | none => undefined w
    | some layout =>
      match rb_hash_aref w layout.rbFieldMap field with
      | none => undefined w
      | some v => (.ok v, w)

/-- `Class#new` as the interpreter runs it for `FFI::StructLayout`: allocate,
then `initialize`. -/
def struct_layout_new (w : World) (klass : Ref) (field_names fields size align : VALUE) : Res VALUE :=
  let (self, w1) := struct_layout_allocate w klass
  struct_layout_initialize w1 self field_names fields size align

/-- `Class#new` as the interpreter runs it for `FFI::Struct`: allocate, then
`initialize`. -/
def struct_new (rb : Ruby) (w : World) (klass : Ref) (argv : List VALUE) : Res VALUE :=
  let (self, w1) := struct_allocate w klass
  struct_initialize rb w1 argv self

/-! ## Observations on a state -/

/-- The test the layout constructor applies to a mapping value: it is a
valid field descriptor when `TYPE(field) == T_DATA` and
`rb_obj_is_kind_of(field, StructFieldClass)`. -/
def is_struct_field (w : World) (field : VALUE) : Bool :=
  isT_DATA w field && rb_obj_is_kind_of w field StructFieldClass

/-- The entries of the hash object `h` refers to. -/
def hash_entries (w : World) (h : VALUE) : Option (List (VALUE × VALUE)) :=
  match w.deref h with
  | some ⟨_, _, .hash es⟩ => some es
  | _ => none

/-- Whether a body is that of a `T_DATA` object. -/
def RBody.isData : RBody → Bool
  | .dataField _ => true
  | .dataLayout _ => true
  | .dataStruct _ => true
  | .dataMemory _ => true
  | .dataOther => true
  | _ => false

/-- The ancestor chain a body carries when it is a class. -/
def RBody.chain : RBody → List Ref
  | .klass _ anc => anc
  | _ => []

/-- What the type and kind tests can see of a heap slot: whether it holds a
`T_DATA` object, the ancestor chain it carries as a class, and the class of a
`T_DATA` object. -/
def slot_view (o : Option RObject) : Bool × List Ref × Option Ref :=
  match o with
  | none => (false, [], none)
  | some o => (o.body.isData, o.body.chain, if o.body.isData then some o.klass else none)

/-- Two states look the same to the type and kind tests. -/
def ViewEq (w w1 : World) : Prop :=
  ∀ r : Ref, slot_view w1.heap[r]? = slot_view w.heap[r]?

/-- The body of the object at `r`. -/
def body_at (w : World) (r : Ref) : Option RBody :=
  (w.heap[r]?).map (·.body)

/-- The field array the layout constructor fills from the names `ns`,
starting at index `i` of `fl`. -/
def fill_fields (M : List (VALUE × VALUE)) : List VALUE → Nat → List (Option Ref) → List (Option Ref)
  | [], _, fl => fl
  | n :: ns, i, fl => fill_fields M ns (i + 1) (fl.set i (DATA_PTR (st_lookup n M)))

/-- The map the layout constructor builds from the names `ns` and the mapping
`M`, starting from the entries `E`. -/
def build_map (M : List (VALUE × VALUE)) : List VALUE → List (VALUE × VALUE) → List (VALUE × VALUE)
  | [], E => E
  | n :: ns, E => build_map M ns (st_insert n (st_lookup n M) E)


/-- The operations table of a memory object, `MEMORY(v)->ops`. -/
def memory_ops (w : World) (v : VALUE) : Option MemoryOps :=
  (DATA_PTR v).bind (fun r => (w.getMemory r).bind (·.ops))

/-- The operations table of the buffer of a struct instance,
`s->pointer->ops`; `none` when it is NULL or a pointer on the way is. -/
def struct_buffer_ops (w : World) (self : VALUE) : Option MemoryOps :=
  (DATA_PTR self).bind (fun s => (w.getStruct s).bind (fun st =>
    st.pointer.bind (fun mp => (w.getMemory mp).bind (·.ops))))

/-- What holds each time the loop of the layout constructor is entered, in
terms of the state `w0` the constructor was called in: the name array `a`
holds `names`, the mapping `h` holds `M`, the map `m` under construction holds
`E`, and the layout `lp` points at `m` and has the field array `flds`. -/
structure LoopInv (w0 w : World) (lp a h m : Ref) (names : List VALUE)
    (M E : List (VALUE × VALUE)) (flds : List (Option Ref)) : Prop where
  view : ViewEq w0 w
  arr : body_at w a = some (.array names)
  hsh : body_at w h = some (.hash M)
  map : body_at w m = some (.hash E)
  lay : ∃ l, body_at w lp = some (.dataLayout l) ∧ l.rbFieldMap = .obj m ∧ l.fields = flds

/-- The layout a construction call resolves (Struct.c 179-185), with the
state it is resolved in: the answer of the layout factory of the class called
with the layout arguments when there are any, the default layout of the
class otherwise, `none` when the class has none. -/
def resolved_layout (rb : Ruby) (w : World) (klass : Ref) (argv : List VALUE) :
    Except RbError (Option VALUE) × World :=
  if argv.length > 1 then
    match rb.funcall (w.log (.funcall (.obj klass) id_layout argv.tail)) (.obj klass) id_layout
        argv.tail with
    | (.error e, w2) => (.error e, w2)
    | (.ok l, w2) => (.ok (some l), w2)
  else (.ok (rb_cvar_get w klass id_layout_ivar), w)

/-- The layout stage of `struct_initialize` (Struct.c 178-185): resolve the
layout and assign `s->rbLayout`. -/
def struct_initialize_layout (rb : Ruby) (w : World) (klass s : Ref) (argv : List VALUE) :
    Res Unit :=
  if argv.length > 1 then
    let w1 := w.log (.funcall (.obj klass) id_layout argv.tail)
    match rb.funcall w1 (.obj klass) id_layout argv.tail with
    | (.error e, w2) => (.error e, w2)
    | (.ok l, w2) => (.ok (), w2.modStruct s (fun st => { st with rbLayout := l }))
  else
    match rb_cvar_get w klass id_layout_ivar with
    | some l => (.ok (), w.modStruct s (fun st => { st with rbLayout := l }))
    | none => rb_raise w .rb_eRuntimeError "No Struct layout configured"

/-- The buffer stage of `struct_initialize` (Struct.c 193-199): take the
supplied buffer or allocate one of the size of the layout. -/
def struct_initialize_buffer (rb : Ruby) (w3 : World) (s lp : Ref) (rbPointer : VALUE) :
    Res Unit :=
  if rbPointer ≠ .Qnil then
    match MEMORY w3 rbPointer with
    | .error e => (.error e, w3)
    | .ok mp =>
      let w4 := w3.modStruct s (fun st => { st with pointer := some mp })
      (.ok (), w4.modStruct s (fun st => { st with rbPointer := rbPointer }))
  else
    match w3.getLayout lp with
    | none => undefined w3
    | some layout =>
      match rbffi_MemoryPointer_NewInstance rb w3 layout.size 1 true with
      | (.error e, w4) => (.error e, w4)
      | (.ok p, w4) =>
        let w5 := w4.modStruct s (fun st => { st with rbPointer := p })
        (.ok (), w5.modStruct s (fun st => { st with pointer := DATA_PTR p }))

/-- The final check of `struct_initialize` (Struct.c 201-206). -/
def struct_initialize_check (w6 : World) (s : Ref) (self : VALUE) : Res VALUE :=
  match w6.getStruct s with
  | none => undefined w6
  | some st6 =>
    match loadMemory w6 st6.pointer with
    | .ok (some m) =>
      if m.ops.isNone then
        match (CLASS_OF w6 st6.rbPointer).bind (rb_class_name w6) with
        | some name => rb_raise w6 .rb_eRuntimeError ("No memory ops set for " ++ name)
        | none => undefined w6
      else (.ok self, w6)
    | _ => undefined w6

/-- The buffer a construction call resolves exposes no operations table:
the supplied buffer `p` has none, or no buffer is supplied, the allocation
for the resolved layout `L` goes through and the provider installs none. -/
def resolved_buffer_no_ops (rb : Ruby) (wf : World) (L p : VALUE) : Prop :=
  (p ≠ .Qnil ∧ memory_ops wf p = none) ∨
  (p = .Qnil ∧ rb.memoryPointerOps = none ∧
    ∃ lp layout, Data_Get_Struct wf L = .ok lp ∧ wf.getLayout lp = some layout ∧ 0 ≤ layout.size)

/-- The buffer pointer of the instance `self` is the payload of its buffer
reference: `s->pointer == DATA_PTR(s->rbPointer)` and it is not NULL. -/
def buffer_coherent (w : World) (self : VALUE) : Bool :=
  match self with
  | .obj s =>
    match w.getStruct s with
    | some st => st.pointer.isSome && decide (DATA_PTR st.rbPointer = st.pointer)
    | none => false
  | _ => false

/-- The states an instance `self` goes through: the state a successful
`initialize` leaves, and from there the state any call of `pointer=`,
`layout=`, `[]` or `[]=` on the instance leaves, whether it returns or raises. -/
inductive Reachable (rb : Ruby) (self : VALUE) : World → Prop where
  | construct (w w1 : World) (argv : List VALUE) (v : VALUE) :
      struct_initialize rb w argv self = (.ok v, w1) → Reachable rb self w1
  | set_pointer (w : World) (pointer : VALUE) :
      Reachable rb self w → Reachable rb self (struct_set_pointer w self pointer).2
  | set_layout (w : World) (layout : VALUE) :
      Reachable rb self w → Reachable rb self (struct_set_layout w self layout).2
  | get (w : World) (fieldName : VALUE) :
      Reachable rb self w → Reachable rb self (struct_get_field rb w self fieldName).2
  | put (w : World) (fieldName value : VALUE) :
      Reachable rb self w → Reachable rb self (struct_put_field rb w self fieldName value).2

/-- The state `w1` differs from `w` at most in the payload and the variable
table of the struct object at `s`: every other object is the same, and `s`
holds a struct of the same class in both. -/
structure StructFrame (s : Ref) (w w1 : World) : Prop where
  other : ∀ r : Ref, r ≠ s → w1.heap[r]? = w.heap[r]?
  self : ∃ o o1 st st1, w.heap[s]? = some o ∧ w1.heap[s]? = some o1 ∧ o1.klass = o.klass ∧
    o.body = .dataStruct st ∧ o1.body = .dataStruct st1

/-! ## A small concrete world -/

/-- A marshalling pair that stores one byte at `address + offset`. -/
def byteOp : MemoryOp where
  get := fun ram reg off => .ok (.int (ram (reg.address + off)))
  put := fun ram reg off v =>
    match v with
    | .int n => (.ok (), fun a => if a = reg.address + off then n.toNat % 256 else ram a)
    | _ => (.error (.raised .rb_eTypeError "can not convert to Integer"), ram)

/-- An operations table with the 8-bit slots filled and the others empty. -/
def byteOps : MemoryOps :=
  ⟨some byteOp, some byteOp, none, none, none, none, none, none, none, none, none, none⟩

/-- A class object. -/
def mkClass (name : String) (anc : List Ref) (vars : List (ID × VALUE)) : RObject :=
  ⟨0, vars, .klass name anc⟩

/-- A handler-free interpreter: every dynamic call of `to_s` on a symbol or
string answers its text, every other dynamic call raises NoMethodError; new
memory pointers carry `byteOps`. -/
def rb0 : Ruby where
  funcall := fun w recv mid _ =>
    match recv, mid with
    | .sym s, "to_s" => (.ok (.str s), w)
    | .str s, "to_s" => (.ok (.str s), w)
    | _, _ => (.error (.raised (.rb_eOther "NoMethodError") mid), w)
  memoryPointerOps := some byteOps

/-- An interpreter in which every object answers `get` and `put` with the
built-in `Field#get` and `Field#put` of this file, and everything else as
`rb0` does. -/
def rb1 : Ruby where
  funcall := fun w recv mid args =>
    match mid, args with
    | "get", [p] => struct_field_get w recv p
    | "put", [p, v] => struct_field_put w recv p v
    | _, _ => rb0.funcall w recv mid args
  memoryPointerOps := some byteOps

/-- An interpreter whose layout factory answers layout 19 of the example
world for every class and every argument list, and everything else as `rb0`
does. -/
def rb2 : Ruby where
  funcall := fun w recv mid args =>
    match mid with
    | "layout" => (.ok (.obj 19), w)
    | _ => rb0.funcall w recv mid args
  memoryPointerOps := some byteOps

/-- An interpreter whose `to_s` answers "zz" for every receiver and, while it
runs, stores 99 in the byte at address 100 of raw memory; everything else as
`rb0` does. -/
def rb3 : Ruby where
  funcall := fun w recv mid args =>
    match mid with
    | "to_s" => (.ok (.str "zz"), { w with ram := fun a => if a = 100 then 99 else w.ram a })
    | _ => rb0.funcall w recv mid args
  memoryPointerOps := some byteOps

/-- A three-character name with a NUL in the middle: `a`, NUL, `b`. -/
def nul_name : String :=
  String.mk [Char.ofNat 97, Char.ofNat 0, Char.ofNat 98]

/-- The objects of the example world, by reference:
0-6 the classes Object, AbstractMemory, StructLayout, Field, Struct,
MemoryPointer, Hash; 7 the field class Signed8; 8 a struct class `Point` whose
default layout is 14; 9 a struct class without default layout;
10 a 16-byte memory pointer with `byteOps`; 11 a 16-byte memory object without
operations table; 12 the Signed8 field at offset 0; 13 an untyped field at
offset 4; 14 a layout over `x -> 12, y -> 13` with map 15; 16 the name array
`[:x, :y]`; 17 the mapping `x -> 12, y -> 13, z -> 12`; 18 a `Point` instance
over buffer 10 and layout 14; 19 a layout over `x -> 13` with map 20;
21 a layout object fresh from `allocate`; 22 the name array `[:x, :x]`;
23 the name array `[:x, :q]`. -/
def heap0 : List RObject :=
  [ mkClass "Object" [0] [],
    mkClass "FFI::AbstractMemory" [1, 0] [],
    mkClass "FFI::StructLayout" [2, 0] [],
    mkClass "FFI::StructLayoutBuilder::Field" [3, 0] [],
    mkClass "FFI::Struct" [4, 0] [],
    mkClass "FFI::MemoryPointer" [5, 1, 0] [],
    mkClass "Hash" [6, 0] [],
    mkClass "FFI::StructLayoutBuilder::Signed8" [7, 3, 0] [],
    mkClass "Point" [8, 4, 0] [("@layout", .obj 14)],
    mkClass "Bare" [9, 4, 0] [],
    ⟨5, [], .dataMemory ⟨100, 16, some byteOps⟩⟩,
    ⟨1, [], .dataMemory ⟨200, 16, none⟩⟩,
    ⟨7, [], .dataField ⟨0, .Qnil, some ⟨.NATIVE_INT8⟩⟩⟩,
    ⟨3, [], .dataField ⟨4, .Qnil, none⟩⟩,
    ⟨2, [], .dataLayout ⟨.obj 15, 8, 1, 2, [some 12, some 13]⟩⟩,
    ⟨6, [], .hash [(.sym "x", .obj 12), (.sym "y", .obj 13)]⟩,
    ⟨0, [], .array [.sym "x", .sym "y"]⟩,
    ⟨6, [], .hash [(.sym "x", .obj 12), (.sym "y", .obj 13), (.sym "z", .obj 12)]⟩,
    ⟨8, [], .dataStruct ⟨.obj 10, .obj 14, some 10, some 14⟩⟩,
    ⟨2, [], .dataLayout ⟨.obj 20, 8, 1, 1, [some 13]⟩⟩,
    ⟨6, [], .hash [(.sym "x", .obj 13)]⟩,
    ⟨2, [], .dataLayout ⟨.Qnil, 0, 0, 0, []⟩⟩,
    ⟨0, [], .array [.sym "x", .sym "x"]⟩,
    ⟨0, [], .array [.sym "x", .sym "q"]⟩ ]

/-- The example world: `heap0`, zeroed raw memory, free addresses from 1000,
nothing called yet. -/
def world0 : World :=
  ⟨heap0, fun _ => 0, 1000, []⟩

/-! ## Basic facts -/

theorem Data_Get_Struct_ok {w : World} {v : VALUE} {r : Ref}
    (h : Data_Get_Struct w v = .ok r) : v = .obj r ∧ isT_DATA w (.obj r) = true := by
  unfold Data_Get_Struct at h
  cases v with
  | obj r1 =>
    by_cases hd : isT_DATA w (.obj r1) = true
    · simp only [hd, if_true, Except.ok.injEq] at h
      subst h
      exact ⟨rfl, hd⟩
    · simp [hd] at h
  | _ => simp at h

theorem struct_layout_aref_ok {w w1 : World} {lp : Ref} {name v : VALUE}
    (h : struct_layout_aref w (.obj lp) name = (.ok v, w1)) :
    ∃ layout, w.getLayout lp = some layout ∧ rb_hash_aref w layout.rbFieldMap name = some v := by
  unfold struct_layout_aref at h
  cases hd : Data_Get_Struct w (.obj lp) with
  | error e => simp [hd] at h
  | ok r =>
    have hr : lp = r := by
      have := (Data_Get_Struct_ok hd).1
      simpa using this
    subst hr
    simp only [hd] at h
    cases hl : w.getLayout lp with
    | none => simp [hl, undefined] at h
    | some layout =>
      simp only [hl] at h
      cases ha : rb_hash_aref w layout.rbFieldMap name with
      | none => simp [ha, undefined] at h
      | some v1 =>
        simp only [ha, Prod.mk.injEq, Except.ok.injEq] at h
        exact ⟨layout, rfl, by rw [← h.1]; exact ha⟩

/-- What `struct_field` returns for a name the layout has. -/
theorem struct_field_present (rb : Ruby) {w : World} {s lp : Ref} {st : Struct}
    {fieldName rbField : VALUE}
    (hst : w.getStruct s = some st) (hl : st.layout = some lp)
    (hlook : struct_layout_aref w (.obj lp) fieldName = (.ok rbField, w))
    (hne : rbField ≠ .Qnil) :
    struct_field rb w s fieldName = (.ok rbField, w) := by
  obtain ⟨layout, hlay, href⟩ := struct_layout_aref_ok hlook
  simp [struct_field, hst, hl, hlay, href, hne]

/-- What `struct_field` does for a name the layout does not have. -/
theorem struct_field_absent (rb : Ruby) {w : World} {s lp : Ref} {st : Struct}
    {fieldName : VALUE}
    (hst : w.getStruct s = some st) (hl : st.layout = some lp)
    (hlook : struct_layout_aref w (.obj lp) fieldName = (.ok .Qnil, w)) :
    struct_field rb w s fieldName =
      match rb.funcall (w.log (.funcall fieldName id_to_s [])) fieldName id_to_s [] with
      | (.error e, w2) => (.error e, w2)
      | (.ok str, w2) =>
        match StringValuePtr str with
        | .error e => (.error e, w2)
        | .ok name => rb_raise w2 .rb_eArgError ("No such field '" ++ cstr name ++ "'") := by
  obtain ⟨layout, hlay, href⟩ := struct_layout_aref_ok hlook
  simp [struct_field, hst, hl, hlay, href]

/-! ## Heap updates -/

theorem heap_setBody (w : World) (r r1 : Ref) (b : RBody) :
    (w.setBody r b).heap[r1]? =
      if r1 = r then (w.heap[r]?).map (fun o => { o with body := b }) else w.heap[r1]? := by
  unfold World.setBody
  cases h : w.heap[r]? with
  | none =>
    by_cases hr : r1 = r
    · subst hr; simp [h]
    · simp [hr]
  | some o =>
    by_cases hr : r1 = r
    · subst hr
      obtain ⟨hlt, _⟩ := List.getElem?_eq_some.mp h
      simp [List.getElem?_set, hlt]
    · simp [List.getElem?_set, hr, Ne.symm hr]

theorem heap_ivar_set (w : World) (r r1 : Ref) (id : ID) (val : VALUE) :
    (rb_ivar_set w r id val).heap[r1]? =
      if r1 = r then
        (w.heap[r]?).map (fun o =>
          { o with ivars := (id, val) :: o.ivars.filter (fun p => p.1 ≠ id) })
      else w.heap[r1]? := by
  unfold rb_ivar_set
  cases h : w.heap[r]? with
  | none =>
    by_cases hr : r1 = r
    · subst hr; simp [h]
    · simp [hr]
  | some o =>
    by_cases hr : r1 = r
    · subst hr
      obtain ⟨hlt, _⟩ := List.getElem?_eq_some.mp h
      simp [List.getElem?_set, hlt]
    · simp [List.getElem?_set, hr, Ne.symm hr]

theorem getStruct_modStruct_same (w : World) (r : Ref) (f : Struct → Struct) :
    (w.modStruct r f).getStruct r = (w.getStruct r).map f := by
  unfold World.modStruct
  cases h : w.getStruct r with
  | none => simp [h]
  | some st =>
    have hex : ∃ o, w.heap[r]? = some o := by
      unfold World.getStruct at h
      cases ho : w.heap[r]? with
      | none => simp [ho] at h
      | some o => exact ⟨o, rfl⟩
    obtain ⟨o, ho⟩ := hex
    simp [World.getStruct, heap_setBody, ho]

theorem getStruct_modStruct_other (w : World) (r r1 : Ref) (f : Struct → Struct) (h : r1 ≠ r) :
    (w.modStruct r f).getStruct r1 = w.getStruct r1 := by
  unfold World.modStruct
  cases hs : w.getStruct r with
  | none => rfl
  | some st => simp [World.getStruct, heap_setBody, h]

theorem getMemory_modStruct (w : World) (r r1 : Ref) (f : Struct → Struct) :
    (w.modStruct r f).getMemory r1 = w.getMemory r1 := by
  unfold World.modStruct
  cases hs : w.getStruct r with
  | none => rfl
  | some st =>
    by_cases h : r1 = r
    · subst h
      unfold World.getStruct at hs
      cases ho : w.heap[r1]? with
      | none => simp [World.getMemory, heap_setBody, ho]
      | some o =>
        rcases o with ⟨k, iv, b⟩
        cases b <;> simp [ho] at hs
        simp [World.getMemory, heap_setBody, ho]
    · simp [World.getMemory, heap_setBody, h]

theorem getLayout_modStruct (w : World) (r r1 : Ref) (f : Struct → Struct) :
    (w.modStruct r f).getLayout r1 = w.getLayout r1 := by
  unfold World.modStruct
  cases hs : w.getStruct r with
  | none => rfl
  | some st =>
    by_cases h : r1 = r
    · subst h
      unfold World.getStruct at hs
      cases ho : w.heap[r1]? with
      | none => simp [World.getLayout, heap_setBody, ho]
      | some o =>
        rcases o with ⟨k, iv, b⟩
        cases b <;> simp [ho] at hs
        simp [World.getLayout, heap_setBody, ho]
    · simp [World.getLayout, heap_setBody, h]

theorem getStruct_ivar_set (w : World) (r r1 : Ref) (id : ID) (val : VALUE) :
    (rb_ivar_set w r id val).getStruct r1 = w.getStruct r1 := by
  unfold World.getStruct
  rw [heap_ivar_set]
  by_cases h : r1 = r
  · subst h
    cases ho : w.heap[r1]? with
    | none => simp
    | some o =>
      rcases o with ⟨k, iv, b⟩
      cases b <;> simp
  · simp [h]

theorem getMemory_ivar_set (w : World) (r r1 : Ref) (id : ID) (val : VALUE) :
    (rb_ivar_set w r id val).getMemory r1 = w.getMemory r1 := by
  unfold World.getMemory
  rw [heap_ivar_set]
  by_cases h : r1 = r
  · subst h
    cases ho : w.heap[r1]? with
    | none => simp
    | some o =>
      rcases o with ⟨k, iv, b⟩
      cases b <;> simp
  · simp [h]

theorem getLayout_ivar_set (w : World) (r r1 : Ref) (id : ID) (val : VALUE) :
    (rb_ivar_set w r id val).getLayout r1 = w.getLayout r1 := by
  unfold World.getLayout
  rw [heap_ivar_set]
  by_cases h : r1 = r
  · subst h
    cases ho : w.heap[r1]? with
    | none => simp
    | some o =>
      rcases o with ⟨k, iv, b⟩
      cases b <;> simp
  · simp [h]

/-! ## What a successful call establishes -/

theorem struct_initialize_ok_final {rb : Ruby} {w w1 : World} {argv : List VALUE} {self v : VALUE}
    (h : struct_initialize rb w argv self = (.ok v, w1)) :
    ∃ s st m, self = .obj s ∧ v = self ∧ w1.getStruct s = some st ∧
      loadMemory w1 st.pointer = .ok (some m) ∧ m.ops.isSome = true := by
  unfold struct_initialize at h
  split at h
  · simp at h
  · simp [undefined] at h
  · rename_i klass s hk hs
    have hself := (Data_Get_Struct_ok hs).1
    simp only at h
    split at h
    · simp at h
    · rename_i w2 hr1
      split at h
      · simp [undefined] at h
      · rename_i st hst
        split at h
        · simp [rb_raise] at h
        · split at h
          · simp at h
          · rename_i lp hlp
            split at h
            · simp at h
            · rename_i w6 hr2
              split at h
              · simp [undefined] at h
              · rename_i st6 hst6
                split at h
                · rename_i m hm
                  split at h
                  · split at h <;> simp [rb_raise, undefined] at h
                  · rename_i hops
                    simp only [Prod.mk.injEq, Except.ok.injEq] at h
                    obtain ⟨hv, hw⟩ := h
                    subst hw
                    refine ⟨s, st6, m, hself, hv.symm, hst6, hm, ?_⟩
                    cases hm2 : m.ops <;> simp_all
                · simp [undefined] at h

theorem loadMemory_some {w : World} {p : Option Ref} {m : AbstractMemory}
    (h : loadMemory w p = .ok (some m)) : ∃ mp, p = some mp ∧ w.getMemory mp = some m := by
  unfold loadMemory at h
  cases p with
  | none => simp at h
  | some r =>
    cases hm : w.getMemory r with
    | none => simp [hm] at h
    | some m1 =>
      simp only [hm, Except.ok.injEq, Option.some.injEq] at h
      exact ⟨r, rfl, by rw [← h]; exact hm⟩

theorem struct_set_pointer_ok {w w1 : World} {self pointer v : VALUE}
    (h : struct_set_pointer w self pointer = (.ok v, w1)) :
    ∃ s mp st, self = .obj s ∧ pointer = .obj mp ∧ v = self ∧ w.getStruct s = some st ∧
      rb_obj_is_kind_of w pointer rbffi_AbstractMemoryClass = true ∧
      w1 = rb_ivar_set ((w.modStruct s (fun st => { st with pointer := some mp })).modStruct s
        (fun st => { st with rbPointer := pointer })) s id_pointer_ivar pointer := by
  unfold struct_set_pointer at h
  split at h
  · simp [rb_raise] at h
  · rename_i hk
    split at h
    · simp at h
    · rename_i s hs
      split at h
      · simp [undefined] at h
      · simp at h
      · rename_i st mp hst hmem
        simp only [Prod.mk.injEq, Except.ok.injEq] at h
        have hp : pointer = .obj mp := by
          unfold MEMORY at hmem
          split at hmem
          · exact (Data_Get_Struct_ok hmem).1
          · simp at hmem
        exact ⟨s, mp, st, (Data_Get_Struct_ok hs).1, hp, h.1.symm, hst, by simpa using hk, h.2.symm⟩

theorem struct_set_layout_ok {w w1 : World} {self layout v : VALUE}
    (h : struct_set_layout w self layout = (.ok v, w1)) :
    ∃ s lp st, self = .obj s ∧ layout = .obj lp ∧ v = self ∧ w.getStruct s = some st ∧
      rb_obj_is_kind_of w layout rbffi_StructLayoutClass = true ∧
      w1 = rb_ivar_set (w.modStruct s (fun st => { st with layout := some lp })) s
        id_layout_ivar layout := by
  unfold struct_set_layout at h
  split at h
  · simp at h
  · rename_i s hs
    split at h
    · simp [rb_raise] at h
    · rename_i hk
      split at h
      · simp [undefined] at h
      · simp at h
      · rename_i st lp hst hlp
        simp only [Prod.mk.injEq, Except.ok.injEq] at h
        exact ⟨s, lp, st, (Data_Get_Struct_ok hs).1, (Data_Get_Struct_ok hlp).1, h.1.symm, hst,
          by simpa using hk, h.2.symm⟩

theorem struct_buffer_ops_heap {w w1 : World} (self : VALUE) (h : w1.heap = w.heap) :
    struct_buffer_ops w1 self = struct_buffer_ops w self := by
  simp [struct_buffer_ops, World.getStruct, World.getMemory, h]

/-! ## The view of the type and kind tests -/

theorem isT_DATA_view (w : World) (r : Ref) :
    isT_DATA w (.obj r) = (slot_view w.heap[r]?).1 := by
  cases h : w.heap[r]? with
  | none => simp [isT_DATA, World.deref, slot_view, h]
  | some o =>
    rcases o with ⟨k, iv, b⟩
    cases b <;> simp [isT_DATA, World.deref, slot_view, h, RBody.isData]

theorem ancestors_view (w : World) (k : Ref) :
    ancestors w k = (slot_view w.heap[k]?).2.1 := by
  cases h : w.heap[k]? with
  | none => simp [ancestors, slot_view, h]
  | some o =>
    rcases o with ⟨k, iv, b⟩
    cases b <;> simp [ancestors, slot_view, h, RBody.chain]

theorem isT_DATA_congr {w w1 : World}
    (h : ViewEq w w1) (v : VALUE) :
    isT_DATA w1 v = isT_DATA w v := by
  cases v with
  | obj r => rw [isT_DATA_view, isT_DATA_view, h]
  | _ => rfl

theorem is_struct_field_congr {w w1 : World}
    (h : ViewEq w w1) (v : VALUE) :
    is_struct_field w1 v = is_struct_field w v := by
  cases v with
  | obj r =>
    unfold is_struct_field
    rw [isT_DATA_view, isT_DATA_view, h]
    have hr := h r
    unfold rb_obj_is_kind_of CLASS_OF World.deref
    cases h1 : w1.heap[r]? with
    | none =>
      cases h0 : w.heap[r]? with
      | none => rfl
      | some o =>
        simp only [h1, h0, slot_view] at hr
        have : o.body.isData = false := by
          have := congrArg Prod.fst hr
          simpa using this.symm
        simp [slot_view, this]
    | some o1 =>
      cases h0 : w.heap[r]? with
      | none =>
        simp only [h1, h0, slot_view] at hr
        have : o1.body.isData = false := by
          have := congrArg Prod.fst hr
          simpa using this
        simp [slot_view]
      | some o =>
        simp only [h1, h0, slot_view] at hr
        by_cases hd : o.body.isData = true
        · have hd1 : o1.body.isData = true := by
            have := congrArg Prod.fst hr
            simp only at this
            rw [this]; exact hd
          have hk : o1.klass = o.klass := by
            have := congrArg (fun p => p.2.2) hr
            simpa [hd, hd1] using this
          simp only [ancestors_view, h1, h0, hk, h o.klass]
        · simp [slot_view, hd]
  | _ => rfl
theorem ViewEq.refl (w : World) : ViewEq w w := fun _ => rfl

theorem ViewEq.trans {w w1 w2 : World} (h1 : ViewEq w w1) (h2 : ViewEq w1 w2) : ViewEq w w2 :=
  fun r => (h2 r).trans (h1 r)

theorem viewEq_setBody (w : World) (r : Ref) (b : RBody)
    (h : ∀ b0, body_at w r = some b0 → b.isData = b0.isData ∧ b.chain = b0.chain) :
    ViewEq w (w.setBody r b) := by
  intro r1
  rw [heap_setBody]
  by_cases hr : r1 = r
  · subst hr
    cases ho : w.heap[r1]? with
    | none => simp
    | some o =>
      obtain ⟨h1, h2⟩ := h o.body (by simp [body_at, ho])
      simp [slot_view, h1, h2]
  · simp [hr]

theorem viewEq_ivar_set (w : World) (r : Ref) (id : ID) (val : VALUE) :
    ViewEq w (rb_ivar_set w r id val) := by
  intro r1
  rw [heap_ivar_set]
  by_cases hr : r1 = r
  · subst hr
    cases ho : w.heap[r1]? <;> simp [slot_view]
  · simp [hr]

theorem viewEq_alloc (w : World) (o : RObject) (hd : o.body.isData = false)
    (hc : o.body.chain = []) : ViewEq w (w.alloc o).2 := by
  intro r
  simp only [World.alloc]
  by_cases hlt : r < w.heap.length
  · rw [List.getElem?_append_left hlt]
  · by_cases heq : r = w.heap.length
    · subst heq
      simp [slot_view, hd, hc]
    · have hgt : w.heap.length < r := Nat.lt_of_le_of_ne (Nat.le_of_not_lt hlt) (Ne.symm heq)
      rw [List.getElem?_eq_none (by simp only [List.length_append, List.length_singleton]; omega),
        List.getElem?_eq_none (by omega)]

theorem body_at_setBody (w : World) (r r1 : Ref) (b : RBody) :
    body_at (w.setBody r b) r1 =
      if r1 = r then (body_at w r).map (fun _ => b) else body_at w r1 := by
  unfold body_at
  rw [heap_setBody]
  by_cases hr : r1 = r
  · subst hr
    cases w.heap[r1]? <;> simp
  · simp [hr]

theorem body_at_ivar_set (w : World) (r r1 : Ref) (id : ID) (val : VALUE) :
    body_at (rb_ivar_set w r id val) r1 = body_at w r1 := by
  unfold body_at
  rw [heap_ivar_set]
  by_cases hr : r1 = r
  · subst hr
    cases w.heap[r1]? <;> simp
  · simp [hr]

theorem body_at_alloc_old (w : World) (o : RObject) (r : Ref) (b : RBody)
    (h : body_at w r = some b) : body_at (w.alloc o).2 r = some b := by
  unfold body_at at h ⊢
  cases ho : w.heap[r]? with
  | none => simp [ho] at h
  | some o1 =>
    obtain ⟨hlt, _⟩ := List.getElem?_eq_some.mp ho
    simp only [World.alloc]
    rw [List.getElem?_append_left hlt, ← h, ho]

theorem body_at_alloc_new (w : World) (o : RObject) :
    body_at (w.alloc o).2 w.heap.length = some o.body := by
  simp [body_at, World.alloc]

theorem body_at_lt {w : World} {r : Ref} {b : RBody} (h : body_at w r = some b) :
    r < w.heap.length := by
  unfold body_at at h
  cases ho : w.heap[r]? with
  | none => simp [ho] at h
  | some o1 => exact (List.getElem?_eq_some.mp ho).1

theorem getLayout_body (w : World) (r : Ref) :
    w.getLayout r = match body_at w r with
      | some (.dataLayout l) => some l
      | _ => none := by
  unfold World.getLayout body_at
  cases ho : w.heap[r]? with
  | none => rfl
  | some o =>
    rcases o with ⟨k, iv, b⟩
    cases b <;> rfl

theorem getLayout_of_body {w : World} {r : Ref} {l : StructLayout}
    (h : body_at w r = some (.dataLayout l)) : w.getLayout r = some l := by
  rw [getLayout_body, h]

theorem body_of_getLayout {w : World} {r : Ref} {l : StructLayout}
    (h : w.getLayout r = some l) : body_at w r = some (.dataLayout l) := by
  rw [getLayout_body] at h
  split at h
  · rename_i l1 hb
    simp only [Option.some.injEq] at h
    rw [hb, h]
  · simp at h

theorem body_at_modLayout (w : World) (r r1 : Ref) (f : StructLayout → StructLayout) :
    body_at (w.modLayout r f) r1 =
      if r1 = r then
        match body_at w r with
        | some (.dataLayout l) => some (.dataLayout (f l))
        | other => other
      else body_at w r1 := by
  unfold World.modLayout
  cases hl : w.getLayout r with
  | none =>
    by_cases hr : r1 = r
    · subst hr
      rw [getLayout_body] at hl
      simp only [if_true]
      split at hl
      · simp at hl
      · rfl
    · simp [hr]
  | some l =>
    rw [body_at_setBody, body_of_getLayout hl]
    by_cases hr : r1 = r <;> simp [hr]

theorem viewEq_modLayout (w : World) (r : Ref) (f : StructLayout → StructLayout) :
    ViewEq w (w.modLayout r f) := by
  unfold World.modLayout
  cases hl : w.getLayout r with
  | none => exact ViewEq.refl w
  | some l =>
    apply viewEq_setBody
    intro b0 hb0
    rw [body_of_getLayout hl] at hb0
    simp only [Option.some.injEq] at hb0
    subst hb0
    exact ⟨rfl, rfl⟩

theorem rb_ary_entry_body {w : World} {a : Ref} {xs : List VALUE}
    (h : body_at w a = some (.array xs)) (i : Nat) :
    rb_ary_entry w (.obj a) i = some (xs.getD i .Qnil) := by
  unfold body_at at h
  cases ho : w.heap[a]? with
  | none => simp [ho] at h
  | some o =>
    rcases o with ⟨k, iv, b⟩
    simp only [ho, Option.map_some', Option.some.injEq] at h
    subst h
    simp [rb_ary_entry, World.deref, ho]

theorem RARRAY_LEN_body {w : World} {a : Ref} {xs : List VALUE}
    (h : body_at w a = some (.array xs)) : RARRAY_LEN w (.obj a) = some xs.length := by
  unfold body_at at h
  cases ho : w.heap[a]? with
  | none => simp [ho] at h
  | some o =>
    rcases o with ⟨k, iv, b⟩
    simp only [ho, Option.map_some', Option.some.injEq] at h
    subst h
    simp [RARRAY_LEN, World.deref, ho]

theorem rb_hash_aref_body {w : World} {h : Ref} {es : List (VALUE × VALUE)}
    (hb : body_at w h = some (.hash es)) (k : VALUE) :
    rb_hash_aref w (.obj h) k = some (st_lookup k es) := by
  unfold body_at at hb
  cases ho : w.heap[h]? with
  | none => simp [ho] at hb
  | some o =>
    rcases o with ⟨c, iv, b⟩
    simp only [ho, Option.map_some', Option.some.injEq] at hb
    subst hb
    simp [rb_hash_aref, World.deref, ho]

theorem rb_hash_aset_body {w : World} {h : Ref} {es : List (VALUE × VALUE)}
    (hb : body_at w h = some (.hash es)) (k v : VALUE) :
    rb_hash_aset w (.obj h) k v = some (w.setBody h (.hash (st_insert k v es))) := by
  unfold body_at at hb
  cases ho : w.heap[h]? with
  | none => simp [ho] at hb
  | some o =>
    rcases o with ⟨c, iv, b⟩
    simp only [ho, Option.map_some', Option.some.injEq] at hb
    subst hb
    simp [rb_hash_aset, ho]

theorem is_struct_field_obj {w : World} {v : VALUE} (h : is_struct_field w v = true) :
    ∃ r, v = .obj r ∧ isT_DATA w (.obj r) = true := by
  unfold is_struct_field at h
  simp only [Bool.and_eq_true] at h
  cases v with
  | obj r => exact ⟨r, rfl, h.1⟩
  | _ => simp [isT_DATA, World.deref] at h
/-! ## The loop of the layout constructor -/

theorem loopInv_step {w0 w : World} {lp a h m : Ref} {names : List VALUE}
    {M E : List (VALUE × VALUE)} {flds : List (Option Ref)}
    (hma : m ≠ a) (hmh : m ≠ h) (hml : m ≠ lp)
    (hinv : LoopInv w0 w lp a h m names M E flds) (name field : VALUE) (i : Nat) (fp : Ref) :
    LoopInv w0
      ((w.setBody m (.hash (st_insert name field E))).modLayout lp
        (fun l => { l with fields := l.fields.set i (some fp) }))
      lp a h m names M (st_insert name field E) (flds.set i (some fp)) := by
  obtain ⟨l, hl, hlm, hlf⟩ := hinv.lay
  have hal : a ≠ lp := by
    intro heq; have := hinv.arr; rw [heq, hl] at this; simp at this
  have hhl : h ≠ lp := by
    intro heq; have := hinv.hsh; rw [heq, hl] at this; simp at this
  refine ⟨?_, ?_, ?_, ?_, ?_⟩
  · refine (hinv.view.trans (viewEq_setBody w m _ ?_)).trans (viewEq_modLayout _ _ _)
    intro b0 hb0
    rw [hinv.map] at hb0
    simp only [Option.some.injEq] at hb0
    subst hb0
    exact ⟨rfl, rfl⟩
  · rw [body_at_modLayout, if_neg hal, body_at_setBody, if_neg (Ne.symm hma)]
    exact hinv.arr
  · rw [body_at_modLayout, if_neg hhl, body_at_setBody, if_neg (Ne.symm hmh)]
    exact hinv.hsh
  · rw [body_at_modLayout, if_neg hml, body_at_setBody, if_pos rfl, hinv.map]
    rfl
  · refine ⟨{ l with fields := l.fields.set i (some fp) }, ?_, hlm, by simp [hlf]⟩
    rw [body_at_modLayout, if_pos rfl, body_at_setBody, if_neg (Ne.symm hml), hl]

theorem fields_loop_spec (w0 : World) (lp a h m : Ref) (names : List VALUE)
    (M : List (VALUE × VALUE)) (hma : m ≠ a) (hmh : m ≠ h) (hml : m ≠ lp) :
    ∀ (k i : Nat) (w : World) (E : List (VALUE × VALUE)) (flds : List (Option Ref)),
      i + k = names.length → LoopInv w0 w lp a h m names M E flds →
      ((∀ n ∈ names.drop i, is_struct_field w0 (st_lookup n M) = true) →
        ∃ w1, struct_layout_fields_loop lp (.obj a) (.obj h) w i k = (.ok (), w1) ∧
          LoopInv w0 w1 lp a h m names M (build_map M (names.drop i) E)
            (fill_fields M (names.drop i) i flds)) ∧
      ((∃ n ∈ names.drop i, is_struct_field w0 (st_lookup n M) = false) →
        ∃ w1, struct_layout_fields_loop lp (.obj a) (.obj h) w i k =
          (.error (.raised .rb_eArgError "Invalid field"), w1)) := by
  intro k
  induction k with
  | zero =>
    intro i w E flds hik hinv
    have hdrop : names.drop i = [] := by
      apply List.drop_eq_nil_of_le
      omega
    rw [hdrop]
    constructor
    · intro _
      exact ⟨w, rfl, hinv⟩
    · rintro ⟨n, hn, _⟩
      simp at hn
  | succ k ih =>
    intro i w E flds hik hinv
    have hlt : i < names.length := by omega
    have hdrop : names.drop i = names[i] :: names.drop (i + 1) := List.drop_eq_getElem_cons hlt
    have hgetD : names.getD i .Qnil = names[i] := by
      simp [List.getD, List.getElem?_eq_getElem hlt]
    obtain ⟨l, hl, hlm, hlf⟩ := hinv.lay
    have hfield : ∀ v, is_struct_field w v = is_struct_field w0 v :=
      fun v => is_struct_field_congr hinv.view v
    rw [hdrop]
    unfold struct_layout_fields_loop
    simp only [rb_ary_entry_body hinv.arr, rb_hash_aref_body hinv.hsh, hgetD]
    by_cases hv : is_struct_field w0 (st_lookup names[i] M) = true
    · have hvw : is_struct_field w (st_lookup names[i] M) = true := by rw [hfield]; exact hv
      have hcond : (!isT_DATA w (st_lookup names[i] M) ||
          !rb_obj_is_kind_of w (st_lookup names[i] M) StructFieldClass) = false := by
        unfold is_struct_field at hvw
        simp only [Bool.and_eq_true] at hvw
        simp [hvw.1, hvw.2]
      obtain ⟨fp, hfp, hdata0⟩ := is_struct_field_obj hv
      have hinv2 := loopInv_step hma hmh hml hinv names[i] (st_lookup names[i] M) i fp
      have hdata1 : Data_Get_Struct (w.setBody m (.hash (st_insert names[i] (st_lookup names[i] M) E)))
          (st_lookup names[i] M) = .ok fp := by
        rw [hfp]
        have hview : ViewEq w0 (w.setBody m (.hash (st_insert names[i] (.obj fp) E))) := by
          refine hinv.view.trans (viewEq_setBody w m _ ?_)
          intro b0 hb0
          rw [hinv.map] at hb0
          simp only [Option.some.injEq] at hb0
          subst hb0
          exact ⟨rfl, rfl⟩
        have := isT_DATA_congr hview (.obj fp)
        simp [Data_Get_Struct, this, hdata0]
      simp only [hcond, Bool.false_eq_true, if_false, getLayout_of_body hl, hlm,
        rb_hash_aset_body hinv.map, hdata1]
      have hih := ih (i + 1) _ _ _ (by omega) hinv2
      constructor
      · intro hall
        have hall1 : ∀ n ∈ names.drop (i + 1), is_struct_field w0 (st_lookup n M) = true :=
          fun n hn => hall n (List.mem_cons_of_mem _ hn)
        obtain ⟨w1, hres, hinv1⟩ := hih.1 hall1
        refine ⟨w1, hres, ?_⟩
        simpa [build_map, fill_fields, hfp, DATA_PTR] using hinv1
      · rintro ⟨n, hn, hbad⟩
        rcases List.mem_cons.mp hn with heq | hn1
        · subst heq
          rw [hv] at hbad
          simp at hbad
        · exact hih.2 ⟨n, hn1, hbad⟩
    · have hvf : is_struct_field w (st_lookup names[i] M) = false := by
        rw [hfield]; simpa using hv
      have hcond : (!isT_DATA w (st_lookup names[i] M) ||
          !rb_obj_is_kind_of w (st_lookup names[i] M) StructFieldClass) = true := by
        unfold is_struct_field at hvf
        cases h1 : isT_DATA w (st_lookup names[i] M) <;>
          cases h2 : rb_obj_is_kind_of w (st_lookup names[i] M) StructFieldClass <;>
          simp_all
      simp only [hcond, if_true]
      constructor
      · intro hall
        exact absurd (hall names[i] (List.mem_cons_self _ _)) hv
      · intro _
        exact ⟨w, rfl⟩

theorem Data_Get_Struct_layout {w : World} {lp : Ref} {l : StructLayout}
    (h : body_at w lp = some (.dataLayout l)) : Data_Get_Struct w (.obj lp) = .ok lp := by
  have : isT_DATA w (.obj lp) = true := by
    unfold body_at at h
    cases ho : w.heap[lp]? with
    | none => simp [ho] at h
    | some o =>
      rcases o with ⟨k, iv, b⟩
      simp only [ho, Option.map_some', Option.some.injEq] at h
      subst h
      simp [isT_DATA, World.deref, ho]
  simp [Data_Get_Struct, this]

theorem loopInv_modLayout {w0 w : World} {lp a h m : Ref} {names : List VALUE}
    {M E : List (VALUE × VALUE)} {flds : List (Option Ref)}
    (hinv : LoopInv w0 w lp a h m names M E flds) (hml : m ≠ lp)
    (f : StructLayout → StructLayout) (hf : ∀ l, (f l).rbFieldMap = l.rbFieldMap)
    (flds1 : List (Option Ref)) (hff : ∀ l, l.fields = flds → (f l).fields = flds1) :
    LoopInv w0 (w.modLayout lp f) lp a h m names M E flds1 := by
  obtain ⟨l, hl, hlm, hlf⟩ := hinv.lay
  have hal : a ≠ lp := by
    intro heq; have := hinv.arr; rw [heq, hl] at this; simp at this
  have hhl : h ≠ lp := by
    intro heq; have := hinv.hsh; rw [heq, hl] at this; simp at this
  refine ⟨hinv.view.trans (viewEq_modLayout _ _ _), ?_, ?_, ?_, ?_⟩
  · rw [body_at_modLayout, if_neg hal]; exact hinv.arr
  · rw [body_at_modLayout, if_neg hhl]; exact hinv.hsh
  · rw [body_at_modLayout, if_neg hml]; exact hinv.map
  · refine ⟨f l, ?_, by rw [hf, hlm], hff l hlf⟩
    rw [body_at_modLayout, if_pos rfl, hl]

theorem loopInv_ivar_set {w0 w : World} {lp a h m : Ref} {names : List VALUE}
    {M E : List (VALUE × VALUE)} {flds : List (Option Ref)}
    (hinv : LoopInv w0 w lp a h m names M E flds) (r : Ref) (id : ID) (val : VALUE) :
    LoopInv w0 (rb_ivar_set w r id val) lp a h m names M E flds := by
  obtain ⟨l, hl, hlm, hlf⟩ := hinv.lay
  refine ⟨hinv.view.trans (viewEq_ivar_set _ _ _ _), ?_, ?_, ?_, ⟨l, ?_, hlm, hlf⟩⟩
  · rw [body_at_ivar_set]; exact hinv.arr
  · rw [body_at_ivar_set]; exact hinv.hsh
  · rw [body_at_ivar_set]; exact hinv.map
  · rw [body_at_ivar_set]; exact hl

theorem loopInv_entry {w : World} {lp a h : Ref} {names : List VALUE}
    {M : List (VALUE × VALUE)} {l0 : StructLayout}
    (hl0 : body_at w lp = some (.dataLayout l0))
    (hN : body_at w a = some (.array names)) (hM : body_at w h = some (.hash M)) :
    LoopInv w
      ((w.alloc ⟨rb_cHash, [], .hash []⟩).2.modLayout lp
        (fun l => { l with rbFieldMap := (w.alloc ⟨rb_cHash, [], .hash []⟩).1 }))
      lp a h w.heap.length names M [] l0.fields := by
  have hml : w.heap.length ≠ lp := Nat.ne_of_gt (body_at_lt hl0)
  have hma : a ≠ lp := by
    intro heq; rw [heq, hl0] at hN; simp at hN
  have hmh : h ≠ lp := by
    intro heq; rw [heq, hl0] at hM; simp at hM
  refine ⟨(viewEq_alloc w ⟨rb_cHash, [], .hash []⟩ rfl rfl).trans (viewEq_modLayout _ _ _),
    ?_, ?_, ?_, ?_⟩
  · rw [body_at_modLayout, if_neg hma]; exact body_at_alloc_old w _ a _ hN
  · rw [body_at_modLayout, if_neg hmh]; exact body_at_alloc_old w _ h _ hM
  · rw [body_at_modLayout, if_neg hml]; exact body_at_alloc_new w _
  · refine ⟨{ l0 with rbFieldMap := .obj w.heap.length }, ?_, rfl, rfl⟩
    rw [body_at_modLayout, if_pos rfl, body_at_alloc_old w _ lp _ hl0]
    rfl

theorem layout_initialize_spec (w : World) (lp a h : Ref) (size align : VALUE)
    (names : List VALUE) (M : List (VALUE × VALUE)) (sz al : Int) (l0 : StructLayout)
    (hl0 : body_at w lp = some (.dataLayout l0))
    (hN : body_at w a = some (.array names)) (hM : body_at w h = some (.hash M))
    (hsz : NUM2INT size = .ok sz) (hal : NUM2INT align = .ok al) :
    ((∀ n ∈ names, is_struct_field w (st_lookup n M) = true) →
      ∃ w1, struct_layout_initialize w (.obj lp) (.obj a) (.obj h) size align =
          (.ok (.obj lp), w1) ∧
        LoopInv w w1 lp a h w.heap.length names M (build_map M names [])
          (fill_fields M names 0 (List.replicate names.length none))) ∧
    ((∃ n ∈ names, is_struct_field w (st_lookup n M) = false) →
      ∃ w1, struct_layout_initialize w (.obj lp) (.obj a) (.obj h) size align =
        (.error (.raised .rb_eArgError "Invalid field"), w1)) := by
  have hdg := Data_Get_Struct_layout hl0
  have hml : w.heap.length ≠ lp := Nat.ne_of_gt (body_at_lt hl0)
  have hma : w.heap.length ≠ a := Nat.ne_of_gt (body_at_lt hN)
  have hmh : w.heap.length ≠ h := Nat.ne_of_gt (body_at_lt hM)
  have h2 := loopInv_entry hl0 hN hM
  have h3 := loopInv_modLayout h2 hml (fun l => { l with size := sz }) (fun _ => rfl)
    l0.fields (fun _ hl => hl)
  have h4 := loopInv_modLayout h3 hml (fun l => { l with align := al }) (fun _ => rfl)
    l0.fields (fun _ hl => hl)
  have h5 := loopInv_modLayout h4 hml (fun l => { l with fieldCount := names.length })
    (fun _ => rfl) l0.fields (fun _ hl => hl)
  have h6 := loopInv_modLayout h5 hml
    (fun l => { l with fields := List.replicate names.length none })
    (fun _ => rfl) (List.replicate names.length none) (fun _ _ => rfl)
  have h10 := loopInv_ivar_set (loopInv_ivar_set (loopInv_ivar_set
    (loopInv_ivar_set h6 lp "@field_names" (.obj a)) lp "@fields" (.obj h)) lp "@size" size)
    lp "@align" align
  have hloop := fields_loop_spec w lp a h w.heap.length names M hma hmh hml names.length 0 _ _ _
    (by simp) h10
  simp only [List.drop_zero] at hloop
  simp only [ struct_layout_initialize, hdg, getLayout_of_body hl0, rb_hash_new, hsz, hal,
    RARRAY_LEN_body h4.arr]
  constructor
  · intro hall
    obtain ⟨w1, hres, hinv⟩ := hloop.1 hall
    exact ⟨w1, by rw [hres], hinv⟩
  · intro hbad
    obtain ⟨w1, hres⟩ := hloop.2 hbad
    exact ⟨w1, by rw [hres]⟩

/-! ## The map and the field array the constructor builds -/

theorem st_lookup_insert (k k1 v : VALUE) (E : List (VALUE × VALUE)) :
    st_lookup k (st_insert k1 v E) = if k1 = k then v else st_lookup k E := by
  induction E with
  | nil => simp [st_insert, st_lookup]
  | cons p rest ih =>
    rcases p with ⟨k2, v2⟩
    unfold st_insert
    by_cases h21 : k2 = k1
    · subst h21
      by_cases h2 : k2 = k <;> simp [st_lookup, h2]
    · by_cases h2 : k2 = k
      · subst h2
        have : ¬ k1 = k2 := fun h => h21 h.symm
        simp [st_lookup, h21, this]
      · simp only [h21, if_false, st_lookup, h2, ih]

theorem st_lookup_build_map (M : List (VALUE × VALUE)) (k : VALUE) :
    ∀ (ns : List VALUE) (E : List (VALUE × VALUE)),
      st_lookup k (build_map M ns E) = if k ∈ ns then st_lookup k M else st_lookup k E := by
  intro ns
  induction ns with
  | nil => intro E; simp [build_map]
  | cons n ns ih =>
    intro E
    rw [build_map, ih, st_lookup_insert]
    by_cases hk : k ∈ ns
    · simp [hk]
    · by_cases hn : n = k
      · subst hn; simp
      · have : ¬ k = n := fun h => hn h.symm
        simp [hk, hn, this]

theorem st_insert_keys (k v : VALUE) (E : List (VALUE × VALUE)) :
    (st_insert k v E).map Prod.fst =
      if k ∈ E.map Prod.fst then E.map Prod.fst else E.map Prod.fst ++ [k] := by
  induction E with
  | nil => simp [st_insert]
  | cons p rest ih =>
    rcases p with ⟨k2, v2⟩
    unfold st_insert
    by_cases h2 : k2 = k
    · subst h2
      simp
    · have hne : ¬ k = k2 := fun h => h2 h.symm
      simp only [h2, if_false, List.map_cons, ih, List.mem_cons, hne, false_or]
      by_cases hk : k ∈ rest.map Prod.fst <;> simp [hk]

theorem st_insert_mem {k v : VALUE} {E : List (VALUE × VALUE)} {p : VALUE × VALUE}
    (h : p ∈ st_insert k v E) : p ∈ E ∨ p = (k, v) := by
  induction E with
  | nil => simp [st_insert] at h; exact Or.inr h
  | cons q rest ih =>
    rcases q with ⟨k2, v2⟩
    unfold st_insert at h
    by_cases h2 : k2 = k
    · simp only [h2, if_true, List.mem_cons] at h
      rcases h with h | h
      · exact Or.inr h
      · exact Or.inl (List.mem_cons_of_mem _ h)
    · simp only [h2, if_false, List.mem_cons] at h
      rcases h with h | h
      · exact Or.inl (by rw [h]; exact List.mem_cons_self _ _)
      · rcases ih h with h | h
        · exact Or.inl (List.mem_cons_of_mem _ h)
        · exact Or.inr h

theorem build_map_keys_nodup (M : List (VALUE × VALUE)) :
    ∀ (ns : List VALUE) (E : List (VALUE × VALUE)), (E.map Prod.fst).Nodup →
      ((build_map M ns E).map Prod.fst).Nodup := by
  intro ns
  induction ns with
  | nil => intro E h; exact h
  | cons n ns ih =>
    intro E h
    rw [build_map]
    apply ih
    rw [st_insert_keys]
    by_cases hn : n ∈ E.map Prod.fst
    · simpa [hn] using h
    · simp only [hn, if_false]
      exact List.Nodup.append h (List.nodup_singleton n) (by simpa using hn)

theorem build_map_keys_mem (M : List (VALUE × VALUE)) (k : VALUE) :
    ∀ (ns : List VALUE) (E : List (VALUE × VALUE)),
      k ∈ (build_map M ns E).map Prod.fst ↔ k ∈ E.map Prod.fst ∨ k ∈ ns := by
  intro ns
  induction ns with
  | nil => intro E; simp [build_map]
  | cons n ns ih =>
    intro E
    rw [build_map, ih, st_insert_keys]
    by_cases hn : n ∈ E.map Prod.fst
    · simp only [hn, if_true, List.mem_cons]
      constructor
      · rintro (h | h)
        · exact Or.inl h
        · exact Or.inr (Or.inr h)
      · rintro (h | h | h)
        · exact Or.inl h
        · subst h; exact Or.inl hn
        · exact Or.inr h
    · simp only [hn, if_false, List.mem_append, List.mem_singleton, List.mem_cons]
      tauto

theorem build_map_mem (M : List (VALUE × VALUE)) (p : VALUE × VALUE) :
    ∀ (ns : List VALUE) (E : List (VALUE × VALUE)), p ∈ build_map M ns E →
      p ∈ E ∨ (p.1 ∈ ns ∧ p.2 = st_lookup p.1 M) := by
  intro ns
  induction ns with
  | nil => intro E h; exact Or.inl h
  | cons n ns ih =>
    intro E h
    rw [build_map] at h
    rcases ih _ h with h1 | h1
    · rcases st_insert_mem h1 with h2 | h2
      · exact Or.inl h2
      · subst h2
        exact Or.inr ⟨List.mem_cons_self _ _, rfl⟩
    · exact Or.inr ⟨List.mem_cons_of_mem _ h1.1, h1.2⟩

theorem build_map_length (M : List (VALUE × VALUE)) (ns : List VALUE) :
    (build_map M ns []).length = ns.dedup.length := by
  have hnd := build_map_keys_nodup M ns [] (by simp)
  have hperm : ((build_map M ns []).map Prod.fst).Perm ns.dedup := by
    rw [List.perm_ext_iff_of_nodup hnd (List.nodup_dedup ns)]
    intro k
    rw [build_map_keys_mem, List.mem_dedup]
    simp
  simpa using hperm.length_eq

theorem fill_fields_replicate (M : List (VALUE × VALUE)) :
    ∀ (ns : List VALUE) (pre : List (Option Ref)),
      fill_fields M ns pre.length (pre ++ List.replicate ns.length none) =
        pre ++ ns.map (fun n => DATA_PTR (st_lookup n M)) := by
  intro ns
  induction ns with
  | nil => intro pre; simp [fill_fields]
  | cons n ns ih =>
    intro pre
    have hset : (pre ++ List.replicate (n :: ns).length none).set pre.length
        (DATA_PTR (st_lookup n M)) =
        (pre ++ [DATA_PTR (st_lookup n M)]) ++ List.replicate ns.length none := by
      simp [List.set_append, List.replicate_succ]
    rw [fill_fields, hset]
    have := ih (pre ++ [DATA_PTR (st_lookup n M)])
    simp only [List.length_append, List.length_singleton] at this
    rw [this]
    simp

theorem fill_fields_all (M : List (VALUE × VALUE)) (ns : List VALUE) :
    fill_fields M ns 0 (List.replicate ns.length none) =
      ns.map (fun n => DATA_PTR (st_lookup n M)) := by
  simpa using fill_fields_replicate M ns []

theorem RARRAY_PTR_body {w : World} {v : VALUE} {names : List VALUE}
    (h : RARRAY_PTR w v = some names) : ∃ a, v = .obj a ∧ body_at w a = some (.array names) := by
  cases v with
  | obj a =>
    refine ⟨a, rfl, ?_⟩
    unfold RARRAY_PTR World.deref at h
    unfold body_at
    cases ho : w.heap[a]? with
    | none => simp [ho] at h
    | some o =>
      rcases o with ⟨k, iv, b⟩
      cases b <;> simp [ho] at h
      simp [h]
  | _ => simp [RARRAY_PTR, World.deref] at h

theorem hash_entries_body {w : World} {v : VALUE} {M : List (VALUE × VALUE)}
    (h : hash_entries w v = some M) : ∃ r, v = .obj r ∧ body_at w r = some (.hash M) := by
  cases v with
  | obj r =>
    refine ⟨r, rfl, ?_⟩
    unfold hash_entries World.deref at h
    unfold body_at
    cases ho : w.heap[r]? with
    | none => simp [ho] at h
    | some o =>
      rcases o with ⟨k, iv, b⟩
      cases b <;> simp [ho] at h
      simp [h]
  | _ => simp [hash_entries, World.deref] at h

theorem hash_entries_of_body {w : World} {r : Ref} {M : List (VALUE × VALUE)}
    (h : body_at w r = some (.hash M)) : hash_entries w (.obj r) = some M := by
  unfold body_at at h
  cases ho : w.heap[r]? with
  | none => simp [ho] at h
  | some o =>
    rcases o with ⟨k, iv, b⟩
    simp only [ho, Option.map_some', Option.some.injEq] at h
    subst h
    simp [hash_entries, World.deref, ho]

theorem not_all_fields {w : World} {names : List VALUE} {M : List (VALUE × VALUE)}
    (h : ¬ ∀ n ∈ names, is_struct_field w (st_lookup n M) = true) :
    ∃ n ∈ names, is_struct_field w (st_lookup n M) = false := by
  push_neg at h
  obtain ⟨n, hn, hb⟩ := h
  exact ⟨n, hn, by simpa using hb⟩

theorem layout_initialize_inv {w w1 : World} {self field_names fields size align v : VALUE}
    {names : List VALUE} {M : List (VALUE × VALUE)}
    (hN : RARRAY_PTR w field_names = some names) (hM : hash_entries w fields = some M)
    (hbuild : struct_layout_initialize w self field_names fields size align = (.ok v, w1)) :
    ∃ lp a h, self = .obj lp ∧ v = self ∧
      (∀ n ∈ names, is_struct_field w (st_lookup n M) = true) ∧
      LoopInv w w1 lp a h w.heap.length names M (build_map M names [])
        (names.map (fun n => DATA_PTR (st_lookup n M))) := by
  obtain ⟨a, ha, hNb⟩ := RARRAY_PTR_body hN
  obtain ⟨h, hh, hMb⟩ := hash_entries_body hM
  subst ha hh
  cases hd : Data_Get_Struct w self with
  | error e => simp [ struct_layout_initialize, hd] at hbuild
  | ok lp =>
    have hself := (Data_Get_Struct_ok hd).1
    subst hself
    cases hl : w.getLayout lp with
    | none => simp [ struct_layout_initialize, hd, hl, undefined] at hbuild
    | some l0 =>
      cases hsz : NUM2INT size with
      | error e => simp [ struct_layout_initialize, hd, hl, hsz] at hbuild
      | ok sz =>
        cases hal : NUM2INT align with
        | error e => simp [ struct_layout_initialize, hd, hl, hsz, hal] at hbuild
        | ok al =>
          have hspec := layout_initialize_spec w lp a h size align names M sz al l0
            (body_of_getLayout hl) hNb hMb hsz hal
          by_cases hall : ∀ n ∈ names, is_struct_field w (st_lookup n M) = true
          · obtain ⟨w2, hres, hinv⟩ := hspec.1 hall
            rw [hres] at hbuild
            simp only [Prod.mk.injEq, Except.ok.injEq] at hbuild
            obtain ⟨hv, hw⟩ := hbuild
            subst hw
            rw [fill_fields_all] at hinv
            exact ⟨lp, a, h, rfl, hv.symm, hall, hinv⟩
          · obtain ⟨w2, hres⟩ := hspec.2 (not_all_fields hall)
            rw [hres] at hbuild
            simp at hbuild

theorem struct_layout_aref_of_inv {w0 w : World} {lp a h m : Ref} {names : List VALUE}
    {M E : List (VALUE × VALUE)} {flds : List (Option Ref)}
    (hinv : LoopInv w0 w lp a h m names M E flds) (n : VALUE) :
    struct_layout_aref w (.obj lp) n = (.ok (st_lookup n E), w) := by
  obtain ⟨l, hl, hlm, _⟩ := hinv.lay
  simp [struct_layout_aref, Data_Get_Struct_layout hl, getLayout_of_body hl, hlm,
    rb_hash_aref_body hinv.map]

/-! ## States that differ in one struct payload -/

theorem getStruct_heap {w : World} {s : Ref} {st : Struct} (h : w.getStruct s = some st) :
    ∃ k iv, w.heap[s]? = some ⟨k, iv, .dataStruct st⟩ := by
  unfold World.getStruct at h
  cases ho : w.heap[s]? with
  | none => simp [ho] at h
  | some o =>
    rcases o with ⟨k, iv, b⟩
    cases b <;> simp [ho] at h
    exact ⟨k, iv, by rw [h]⟩

theorem StructFrame.same {w : World} {s : Ref} {st : Struct} (h : w.getStruct s = some st) :
    StructFrame s w w := by
  obtain ⟨k, iv, ho⟩ := getStruct_heap h
  exact ⟨fun _ _ => rfl, ⟨_, _, st, st, ho, ho, rfl, rfl, rfl⟩⟩

theorem StructFrame.comp {w w1 w2 : World} {s : Ref} (h1 : StructFrame s w w1)
    (h2 : StructFrame s w1 w2) : StructFrame s w w2 := by
  obtain ⟨o, o1, st, st1, ho, ho1, hk, hb, hb1⟩ := h1.self
  obtain ⟨p1, p2, t1, t2, hp1, hp2, hk2, hc1, hc2⟩ := h2.self
  refine ⟨fun r hr => (h2.other r hr).trans (h1.other r hr), ⟨o, p2, st, t2, ho, hp2, ?_, hb, hc2⟩⟩
  rw [ho1] at hp1
  simp only [Option.some.injEq] at hp1
  rw [hk2, ← hp1, hk]

theorem structFrame_modStruct {w : World} {s : Ref} {st : Struct} (h : w.getStruct s = some st)
    (f : Struct → Struct) : StructFrame s w (w.modStruct s f) := by
  obtain ⟨k, iv, ho⟩ := getStruct_heap h
  unfold World.modStruct
  rw [h]
  refine ⟨fun r hr => by rw [heap_setBody, if_neg hr],
    ⟨_, ⟨k, iv, .dataStruct (f st)⟩, st, f st, ho, ?_, rfl, rfl, rfl⟩⟩
  · rw [heap_setBody, if_pos rfl, ho]; rfl

theorem structFrame_ivar_set {w : World} {s : Ref} {st : Struct} (h : w.getStruct s = some st)
    (id : ID) (val : VALUE) : StructFrame s w (rb_ivar_set w s id val) := by
  obtain ⟨k, iv, ho⟩ := getStruct_heap h
  refine ⟨fun r hr => by rw [heap_ivar_set, if_neg hr],
    ⟨_, ⟨k, (id, val) :: iv.filter (fun p => p.1 ≠ id), .dataStruct st⟩, st, st, ho, ?_, rfl, rfl,
      rfl⟩⟩
  · rw [heap_ivar_set, if_pos rfl, ho]; rfl

theorem StructFrame.heap_cases {w w1 : World} {s : Ref} (h : StructFrame s w w1) (r : Ref) :
    w1.heap[r]? = w.heap[r]? ∨
      ∃ o o1 st st1, w.heap[r]? = some o ∧ w1.heap[r]? = some o1 ∧ o1.klass = o.klass ∧
        o.body = .dataStruct st ∧ o1.body = .dataStruct st1 := by
  by_cases hr : r = s
  · subst hr; exact Or.inr h.self
  · exact Or.inl (h.other r hr)

theorem StructFrame.getLayout {w w1 : World} {s : Ref} (h : StructFrame s w w1) (r : Ref) :
    w1.getLayout r = w.getLayout r := by
  rcases h.heap_cases r with he | ⟨o, o1, st, st1, ho, ho1, _, hb, hb1⟩
  · simp [World.getLayout, he]
  · rcases o with ⟨k, iv, b⟩
    rcases o1 with ⟨k1, iv1, b1⟩
    simp only at hb hb1
    subst hb hb1
    simp [World.getLayout, ho, ho1]

theorem StructFrame.getField {w w1 : World} {s : Ref} (h : StructFrame s w w1) (r : Ref) :
    w1.getField r = w.getField r := by
  rcases h.heap_cases r with he | ⟨o, o1, st, st1, ho, ho1, _, hb, hb1⟩
  · simp [World.getField, he]
  · rcases o with ⟨k, iv, b⟩
    rcases o1 with ⟨k1, iv1, b1⟩
    simp only at hb hb1
    subst hb hb1
    simp [World.getField, ho, ho1]

theorem StructFrame.getMemory {w w1 : World} {s : Ref} (h : StructFrame s w w1) (r : Ref) :
    w1.getMemory r = w.getMemory r := by
  rcases h.heap_cases r with he | ⟨o, o1, st, st1, ho, ho1, _, hb, hb1⟩
  · simp [World.getMemory, he]
  · rcases o with ⟨k, iv, b⟩
    rcases o1 with ⟨k1, iv1, b1⟩
    simp only at hb hb1
    subst hb hb1
    simp [World.getMemory, ho, ho1]

theorem StructFrame.getStruct_other {w w1 : World} {s : Ref} (h : StructFrame s w w1) (r : Ref)
    (hr : r ≠ s) : w1.getStruct r = w.getStruct r := by
  simp [World.getStruct, h.other r hr]

theorem StructFrame.hash_entries {w w1 : World} {s : Ref} (h : StructFrame s w w1) (v : VALUE) :
    hash_entries w1 v = hash_entries w v := by
  cases v with
  | obj r =>
    rcases h.heap_cases r with he | ⟨o, o1, st, st1, ho, ho1, _, hb, hb1⟩
    · simp [FFI.hash_entries, World.deref, he]
    · rcases o with ⟨k, iv, b⟩
      rcases o1 with ⟨k1, iv1, b1⟩
      simp only at hb hb1
      subst hb hb1
      simp [FFI.hash_entries, World.deref, ho, ho1]
  | _ => rfl

theorem rb_hash_aref_entries (w : World) (h k : VALUE) :
    rb_hash_aref w h k = (hash_entries w h).map (st_lookup k) := by
  unfold rb_hash_aref hash_entries
  cases hd : w.deref h with
  | none => rfl
  | some o =>
    rcases o with ⟨c, iv, b⟩
    cases b <;> rfl

theorem StructFrame.rb_hash_aref {w w1 : World} {s : Ref} (h : StructFrame s w w1)
    (v k : VALUE) : rb_hash_aref w1 v k = rb_hash_aref w v k := by
  rw [rb_hash_aref_entries, rb_hash_aref_entries, h.hash_entries]

theorem StructFrame.CLASS_OF {w w1 : World} {s : Ref} (h : StructFrame s w w1) (v : VALUE) :
    CLASS_OF w1 v = CLASS_OF w v := by
  cases v with
  | obj r =>
    rcases h.heap_cases r with he | ⟨o, o1, st, st1, ho, ho1, hk, _, _⟩
    · simp [FFI.CLASS_OF, World.deref, he]
    · simp [FFI.CLASS_OF, World.deref, ho, ho1, hk]
  | _ => rfl

theorem StructFrame.isT_DATA {w w1 : World} {s : Ref} (h : StructFrame s w w1) (v : VALUE) :
    isT_DATA w1 v = isT_DATA w v := by
  cases v with
  | obj r =>
    rcases h.heap_cases r with he | ⟨o, o1, st, st1, ho, ho1, _, hb, hb1⟩
    · simp [FFI.isT_DATA, World.deref, he]
    · rcases o with ⟨k, iv, b⟩
      rcases o1 with ⟨k1, iv1, b1⟩
      simp only at hb hb1
      subst hb hb1
      simp [FFI.isT_DATA, World.deref, ho, ho1]
  | _ => rfl

theorem StructFrame.ancestors {w w1 : World} {s : Ref} (h : StructFrame s w w1) (k : Ref) :
    ancestors w1 k = ancestors w k := by
  rcases h.heap_cases k with he | ⟨o, o1, st, st1, ho, ho1, _, hb, hb1⟩
  · simp [FFI.ancestors, he]
  · rcases o with ⟨c, iv, b⟩
    rcases o1 with ⟨c1, iv1, b1⟩
    simp only at hb hb1
    subst hb hb1
    simp [FFI.ancestors, ho, ho1]

theorem StructFrame.rb_class_name {w w1 : World} {s : Ref} (h : StructFrame s w w1) (k : Ref) :
    rb_class_name w1 k = rb_class_name w k := by
  rcases h.heap_cases k with he | ⟨o, o1, st, st1, ho, ho1, _, hb, hb1⟩
  · simp [FFI.rb_class_name, he]
  · rcases o with ⟨c, iv, b⟩
    rcases o1 with ⟨c1, iv1, b1⟩
    simp only at hb hb1
    subst hb hb1
    simp [FFI.rb_class_name, ho, ho1]

theorem StructFrame.rb_obj_is_kind_of {w w1 : World} {s : Ref} (h : StructFrame s w w1)
    (v : VALUE) (c : Ref) : rb_obj_is_kind_of w1 v c = rb_obj_is_kind_of w v c := by
  unfold FFI.rb_obj_is_kind_of
  rw [h.CLASS_OF]
  cases FFI.CLASS_OF w v with
  | none => rfl
  | some k => simp only [h.ancestors]

theorem StructFrame.Data_Get_Struct {w w1 : World} {s : Ref} (h : StructFrame s w w1)
    (v : VALUE) : Data_Get_Struct w1 v = Data_Get_Struct w v := by
  unfold FFI.Data_Get_Struct
  cases v <;> simp only [h.isT_DATA]

theorem StructFrame.MEMORY {w w1 : World} {s : Ref} (h : StructFrame s w w1)
    (v : VALUE) : MEMORY w1 v = MEMORY w v := by
  unfold FFI.MEMORY
  rw [h.rb_obj_is_kind_of, h.Data_Get_Struct]

theorem StructFrame.struct_layout_aref {w w1 : World} {s : Ref} (h : StructFrame s w w1)
    (l n : VALUE) : struct_layout_aref w1 l n = ((struct_layout_aref w l n).1, w1) := by
  unfold FFI.struct_layout_aref
  rw [h.Data_Get_Struct]
  cases FFI.Data_Get_Struct w l with
  | error e => rfl
  | ok lp =>
    simp only [h.getLayout]
    cases w.getLayout lp with
    | none => rfl
    | some layout =>
      simp only [h.rb_hash_aref]
      cases FFI.rb_hash_aref w layout.rbFieldMap n <;> rfl

theorem MEMORY_ok {w : World} {v : VALUE} {mp : Ref} (h : MEMORY w v = .ok mp) :
    v = .obj mp ∧ rb_obj_is_kind_of w v rbffi_AbstractMemoryClass = true := by
  unfold MEMORY at h
  by_cases hk : rb_obj_is_kind_of w v rbffi_AbstractMemoryClass = true
  · simp only [hk, if_true] at h
    exact ⟨(Data_Get_Struct_ok h).1, hk⟩
  · simp [hk] at h

/-! ## The setters -/

theorem setBody_rest (w : World) (r : Ref) (b : RBody) :
    (w.setBody r b).ram = w.ram ∧ (w.setBody r b).brk = w.brk ∧
      (w.setBody r b).trace = w.trace := by
  unfold World.setBody
  split <;> exact ⟨rfl, rfl, rfl⟩

theorem modStruct_rest (w : World) (r : Ref) (f : Struct → Struct) :
    (w.modStruct r f).ram = w.ram ∧ (w.modStruct r f).brk = w.brk ∧
      (w.modStruct r f).trace = w.trace := by
  unfold World.modStruct
  split
  · exact setBody_rest _ _ _
  · exact ⟨rfl, rfl, rfl⟩

theorem ivar_set_rest (w : World) (r : Ref) (id : ID) (val : VALUE) :
    (rb_ivar_set w r id val).ram = w.ram ∧ (rb_ivar_set w r id val).brk = w.brk ∧
      (rb_ivar_set w r id val).trace = w.trace := by
  unfold rb_ivar_set
  split <;> exact ⟨rfl, rfl, rfl⟩

/-- The state `pointer=` leaves when it succeeds. -/
theorem struct_set_pointer_run {w : World} {self pointer : VALUE} {s mp : Ref} {st : Struct}
    (hself : Data_Get_Struct w self = .ok s) (hst : w.getStruct s = some st)
    (hmem : MEMORY w pointer = .ok mp) :
    ∃ w1, struct_set_pointer w self pointer = (.ok self, w1) ∧ StructFrame s w w1 ∧
      w1.getStruct s = some { st with pointer := some mp, rbPointer := pointer } ∧
      w1.ram = w.ram ∧ w1.brk = w.brk ∧ w1.trace = w.trace := by
  have hk := (MEMORY_ok hmem).2
  refine ⟨rb_ivar_set ((w.modStruct s (fun st => { st with pointer := some mp })).modStruct s
      (fun st => { st with rbPointer := pointer })) s id_pointer_ivar pointer,
    by simp [struct_set_pointer, hk, hself, hst, hmem], ?_, ?_, ?_, ?_, ?_⟩
  · have h1 := structFrame_modStruct hst (fun st => { st with pointer := some mp })
    have hst1 : (w.modStruct s (fun st => { st with pointer := some mp })).getStruct s =
        some { st with pointer := some mp } := by
      rw [getStruct_modStruct_same, hst]; rfl
    have h2 := structFrame_modStruct hst1 (fun st => { st with rbPointer := pointer })
    have hst2 : ((w.modStruct s (fun st => { st with pointer := some mp })).modStruct s
        (fun st => { st with rbPointer := pointer })).getStruct s =
        some { st with pointer := some mp, rbPointer := pointer } := by
      rw [getStruct_modStruct_same, hst1]; rfl
    exact (h1.comp h2).comp (structFrame_ivar_set hst2 _ _)
  · rw [getStruct_ivar_set, getStruct_modStruct_same, getStruct_modStruct_same, hst]; rfl
  · rw [(ivar_set_rest _ _ _ _).1, (modStruct_rest _ _ _).1, (modStruct_rest _ _ _).1]
  · rw [(ivar_set_rest _ _ _ _).2.1, (modStruct_rest _ _ _).2.1, (modStruct_rest _ _ _).2.1]
  · rw [(ivar_set_rest _ _ _ _).2.2, (modStruct_rest _ _ _).2.2, (modStruct_rest _ _ _).2.2]

/-- The state `layout=` leaves when it succeeds. -/
theorem struct_set_layout_run {w : World} {self layout : VALUE} {s lp : Ref} {st : Struct}
    (hself : Data_Get_Struct w self = .ok s) (hst : w.getStruct s = some st)
    (hk : rb_obj_is_kind_of w layout rbffi_StructLayoutClass = true)
    (hlp : Data_Get_Struct w layout = .ok lp) :
    ∃ w1, struct_set_layout w self layout = (.ok self, w1) ∧ StructFrame s w w1 ∧
      w1.getStruct s = some { st with layout := some lp } ∧
      w1.ram = w.ram ∧ w1.brk = w.brk ∧ w1.trace = w.trace := by
  refine ⟨rb_ivar_set (w.modStruct s (fun st => { st with layout := some lp })) s
      id_layout_ivar layout,
    by simp [struct_set_layout, hk, hself, hst, hlp], ?_, ?_, ?_, ?_, ?_⟩
  · have h1 := structFrame_modStruct hst (fun st => { st with layout := some lp })
    have hst1 : (w.modStruct s (fun st => { st with layout := some lp })).getStruct s =
        some { st with layout := some lp } := by
      rw [getStruct_modStruct_same, hst]; rfl
    exact h1.comp (structFrame_ivar_set hst1 _ _)
  · rw [getStruct_ivar_set, getStruct_modStruct_same, hst]; rfl
  · rw [(ivar_set_rest _ _ _ _).1, (modStruct_rest _ _ _).1]
  · rw [(ivar_set_rest _ _ _ _).2.1, (modStruct_rest _ _ _).2.1]
  · rw [(ivar_set_rest _ _ _ _).2.2, (modStruct_rest _ _ _).2.2]

theorem struct_get_pointer_run {w : World} {self : VALUE} {s : Ref} {st : Struct}
    (hself : Data_Get_Struct w self = .ok s) (hst : w.getStruct s = some st) :
    struct_get_pointer w self = (.ok st.rbPointer, w) := by
  simp [struct_get_pointer, hself, hst]

theorem struct_get_layout_run {w : World} {self : VALUE} {s : Ref} {st : Struct}
    (hself : Data_Get_Struct w self = .ok s) (hst : w.getStruct s = some st) :
    struct_get_layout w self = (.ok st.rbLayout, w) := by
  simp [struct_get_layout, hself, hst]

theorem struct_field_absent_fails (rb : Ruby) {w : World} {s lp : Ref} {st : Struct}
    {fieldName : VALUE}
    (hst : w.getStruct s = some st) (hl : st.layout = some lp)
    (hlook : struct_layout_aref w (.obj lp) fieldName = (.ok .Qnil, w)) :
    ∃ e w2, struct_field rb w s fieldName = (.error e, w2) := by
  rw [struct_field_absent rb hst hl hlook]
  rcases hcall : rb.funcall (w.log (.funcall fieldName id_to_s [])) fieldName id_to_s []
    with ⟨r, w2⟩
  cases r with
  | error e => exact ⟨e, w2, rfl⟩
  | ok v =>
    cases hv : StringValuePtr v with
    | error e => exact ⟨e, w2, by simp [hv]⟩
    | ok nm =>
      exact ⟨.raised .rb_eArgError ("No such field '" ++ cstr nm ++ "'"), w2, by simp [hv, rb_raise]⟩

/-! ## Field access -/

theorem struct_get_field_fast (rb : Ruby) (w : World) (self fieldName : VALUE)
    {s lp fr mp : Ref} {st : Struct} {f : StructField} {m : AbstractMemory} {op : MemoryOp}
    (hself : Data_Get_Struct w self = .ok s) (hst : w.getStruct s = some st)
    (hl : st.layout = some lp)
    (hlook : struct_layout_aref w (.obj lp) fieldName = (.ok (.obj fr), w))
    (hf : w.getField fr = some f)
    (hp : st.pointer = some mp) (hm : w.getMemory mp = some m)
    (hop : ptr_get_op (some m) f.type = some op) :
    struct_get_field rb w self fieldName =
      (op.get w.ram m.region f.offset, w.log (.opGet mp f.offset)) := by
  have hfield := struct_field_present rb hst hl hlook (by simp)
  simp [struct_get_field, hself, hfield, hst, DATA_PTR, hf, loadMemory, hp, hm, hop, World.log]

theorem struct_get_field_slow (rb : Ruby) (w : World) (self fieldName : VALUE)
    {s lp fr mp : Ref} {st : Struct} {f : StructField} {m : AbstractMemory}
    (hself : Data_Get_Struct w self = .ok s) (hst : w.getStruct s = some st)
    (hl : st.layout = some lp)
    (hlook : struct_layout_aref w (.obj lp) fieldName = (.ok (.obj fr), w))
    (hf : w.getField fr = some f)
    (hp : st.pointer = some mp) (hm : w.getMemory mp = some m)
    (hop : ptr_get_op (some m) f.type = none) :
    struct_get_field rb w self fieldName =
      rb.funcall (w.log (.funcall (.obj fr) id_get [st.rbPointer])) (.obj fr) id_get
        [st.rbPointer] := by
  have hfield := struct_field_present rb hst hl hlook (by simp)
  simp [struct_get_field, hself, hfield, hst, DATA_PTR, hf, loadMemory, hp, hm, hop]

theorem struct_put_field_fast (rb : Ruby) (w : World) (self fieldName value : VALUE)
    {s lp fr mp : Ref} {st : Struct} {f : StructField} {m : AbstractMemory} {op : MemoryOp}
    (hself : Data_Get_Struct w self = .ok s) (hst : w.getStruct s = some st)
    (hl : st.layout = some lp)
    (hlook : struct_layout_aref w (.obj lp) fieldName = (.ok (.obj fr), w))
    (hf : w.getField fr = some f)
    (hp : st.pointer = some mp) (hm : w.getMemory mp = some m)
    (hop : ptr_get_op (some m) f.type = some op) :
    struct_put_field rb w self fieldName value =
      ((op.put w.ram m.region f.offset value).1.map (fun _ => self),
        { w.log (.opPut mp f.offset value) with
          ram := (op.put w.ram m.region f.offset value).2 }) := by
  have hfield := struct_field_present rb hst hl hlook (by simp)
  rcases hput : op.put w.ram m.region f.offset value with ⟨r, ram1⟩
  cases r <;>
    simp [struct_put_field, hself, hfield, hst, DATA_PTR, hf, loadMemory, hp, hm, hop,
      World.log, hput, Except.map]

theorem struct_put_field_slow (rb : Ruby) (w : World) (self fieldName value : VALUE)
    {s lp fr mp : Ref} {st : Struct} {f : StructField} {m : AbstractMemory}
    (hself : Data_Get_Struct w self = .ok s) (hst : w.getStruct s = some st)
    (hl : st.layout = some lp)
    (hlook : struct_layout_aref w (.obj lp) fieldName = (.ok (.obj fr), w))
    (hf : w.getField fr = some f)
    (hp : st.pointer = some mp) (hm : w.getMemory mp = some m)
    (hop : ptr_get_op (some m) f.type = none) :
    struct_put_field rb w self fieldName value =
      ((rb.funcall (w.log (.funcall (.obj fr) id_put [st.rbPointer, value])) (.obj fr) id_put
          [st.rbPointer, value]).1.map (fun _ => self),
        (rb.funcall (w.log (.funcall (.obj fr) id_put [st.rbPointer, value])) (.obj fr) id_put
          [st.rbPointer, value]).2) := by
  have hfield := struct_field_present rb hst hl hlook (by simp)
  rcases hcall : rb.funcall (w.log (.funcall (.obj fr) id_put [st.rbPointer, value])) (.obj fr)
    id_put [st.rbPointer, value] with ⟨r, w3⟩
  cases r <;>
    simp [struct_put_field, hself, hfield, hst, DATA_PTR, hf, loadMemory, hp, hm, hop,
      hcall, Except.map]

theorem struct_field_get_run (w : World) (self pointer : VALUE) {fp memory : Ref}
    {f : StructField} {m : AbstractMemory}
    (hmem : MEMORY w pointer = .ok memory) (hm : w.getMemory memory = some m)
    (hself : Data_Get_Struct w self = .ok fp) (hf : w.getField fp = some f) :
    struct_field_get w self pointer =
      match ptr_get_op (some m) f.type with
      | none => not_supported w "get" self
      | some op => (op.get w.ram m.region f.offset, w.log (.opGet memory f.offset)) := by
  cases hop : ptr_get_op (some m) f.type <;>
    simp [struct_field_get, hmem, hm, hself, hf, hop, World.log]

theorem struct_field_put_run (w : World) (self pointer value : VALUE)
    {fp memory : Ref} {f : StructField} {m : AbstractMemory}
    (hmem : MEMORY w pointer = .ok memory) (hm : w.getMemory memory = some m)
    (hself : Data_Get_Struct w self = .ok fp) (hf : w.getField fp = some f) :
    struct_field_put w self pointer value =
      match ptr_get_op (some m) f.type with
      | none => not_supported w "put" self
      | some op =>
        ((op.put w.ram m.region f.offset value).1.map (fun _ => self),
          { w.log (.opPut memory f.offset value) with
            ram := (op.put w.ram m.region f.offset value).2 }) := by
  cases hop : ptr_get_op (some m) f.type with
  | none => simp [struct_field_put, hmem, hm, hself, hf, hop]
  | some op =>
    rcases hput : op.put w.ram m.region f.offset value with ⟨r, ram1⟩
    cases r <;>
      simp [struct_field_put, hmem, hm, hself, hf, hop, World.log, hput, Except.map]

theorem not_supported_error {α : Type} (w : World) (what : String) (self : VALUE) :
    ∃ e, (not_supported w what self : Res α) = (.error e, w) := by
  unfold not_supported
  cases (CLASS_OF w self).bind (rb_class_name w) with
  | none => exact ⟨_, rfl⟩
  | some name => exact ⟨_, rfl⟩

theorem heap_eq_layout_aref (w w1 : World) (h : w1.heap = w.heap) (l n : VALUE) :
    struct_layout_aref w1 l n = ((struct_layout_aref w l n).1, w1) := by
  have hd : Data_Get_Struct w1 l = Data_Get_Struct w l := by
    simp only [Data_Get_Struct, isT_DATA, World.deref, h]
  have hgl : ∀ r, w1.getLayout r = w.getLayout r := by
    intro r; simp only [World.getLayout, h]
  have hh : ∀ v k, rb_hash_aref w1 v k = rb_hash_aref w v k := by
    intro v k; simp only [rb_hash_aref, World.deref, h]
  unfold struct_layout_aref
  rw [hd]
  cases Data_Get_Struct w l with
  | error e => rfl
  | ok lp =>
    simp only [hgl]
    cases w.getLayout lp with
    | none => rfl
    | some layout =>
      simp only [hh]
      cases rb_hash_aref w layout.rbFieldMap n <;> rfl

theorem getField_data {w : World} {fr : Ref} {f : StructField} (h : w.getField fr = some f) :
    Data_Get_Struct w (.obj fr) = .ok fr := by
  have : isT_DATA w (.obj fr) = true := by
    unfold World.getField at h
    cases ho : w.heap[fr]? with
    | none => simp [ho] at h
    | some o =>
      rcases o with ⟨k, iv, b⟩
      cases b <;> simp [ho] at h
      simp [isT_DATA, World.deref, ho]
  simp [Data_Get_Struct, this]

theorem not_supported_log {α : Type} (w : World) (ev : Event) (what : String) (self : VALUE) :
    (not_supported (w.log ev) what self : Res α) =
      ((not_supported w what self : Res α).1, w.log ev) := by
  have h : (CLASS_OF (w.log ev) self).bind (rb_class_name (w.log ev)) =
      (CLASS_OF w self).bind (rb_class_name w) := rfl
  unfold not_supported
  rw [h]
  cases (CLASS_OF w self).bind (rb_class_name w) <;> rfl

/-! ## Construction of a struct instance -/

theorem struct_initialize_stages (rb : Ruby) (w : World) (argv : List VALUE) (self : VALUE) :
    struct_initialize rb w argv self =
      match CLASS_OF w self, Data_Get_Struct w self with
      | _, .error e => (.error e, w)
      | none, .ok _ => undefined w
      | some klass, .ok s =>
        match struct_initialize_layout rb w klass s argv with
        | (.error e, w2) => (.error e, w2)
        | (.ok _, w2) =>
          match w2.getStruct s with
          | none => undefined w2
          | some st =>
            if !rb_obj_is_kind_of w2 st.rbLayout rbffi_StructLayoutClass then
              rb_raise w2 .rb_eRuntimeError "Invalid Struct layout"
            else
              match Data_Get_Struct w2 st.rbLayout with
              | .error e => (.error e, w2)
              | .ok lp =>
                match struct_initialize_buffer rb
                    (w2.modStruct s (fun st => { st with layout := some lp })) s lp
                    (argv.headD .Qnil) with
                | (.error e, w6) => (.error e, w6)
                | (.ok _, w6) => struct_initialize_check w6 s self := by
  rfl
theorem heap_alloc_old (w : World) (o : RObject) {r : Ref} (h : r < w.heap.length) :
    (w.alloc o).2.heap[r]? = w.heap[r]? := by
  simp only [World.alloc]
  rw [List.getElem?_append_left h]

theorem heap_alloc_new (w : World) (o : RObject) :
    (w.alloc o).2.heap[w.heap.length]? = some o := by
  simp [World.alloc]

theorem getStruct_lt {w : World} {s : Ref} {st : Struct} (h : w.getStruct s = some st) :
    s < w.heap.length := by
  obtain ⟨k, iv, ho⟩ := getStruct_heap h
  exact (List.getElem?_eq_some.mp ho).1

/-- What a successful allocation of a memory pointer leaves. -/
theorem newInstance_run (rb : Ruby) (w : World) (size : Int) (h : 0 ≤ size) :
    ∃ w4, rbffi_MemoryPointer_NewInstance rb w size 1 true = (.ok (.obj w.heap.length), w4) ∧
      w4.heap = w.heap ++ [⟨rbffi_MemoryPointerClass, [],
        .dataMemory ⟨w.brk, size * 1, rb.memoryPointerOps⟩⟩] ∧
      w4.ram = (fun a => if w.brk ≤ a ∧ a < w.brk + size.toNat then 0 else w.ram a) ∧
      w4.brk = w.brk + size.toNat ∧
      w4.trace = w.trace ++ [.newMemoryPointer size 1 true] := by
  have hn2 : ¬ size < 0 := by omega
  refine ⟨(rbffi_MemoryPointer_NewInstance rb w size 1 true).2, ?_, ?_, ?_, ?_, ?_⟩
  · simp [rbffi_MemoryPointer_NewInstance, hn2, World.alloc, World.log]
  · simp [rbffi_MemoryPointer_NewInstance, hn2, World.alloc, World.log]
  · funext a
    simp [rbffi_MemoryPointer_NewInstance, hn2, World.alloc, World.log]
  · simp [rbffi_MemoryPointer_NewInstance, hn2, World.alloc, World.log]
  · simp [rbffi_MemoryPointer_NewInstance, hn2, World.alloc, World.log]

theorem newInstance_fail (rb : Ruby) (w : World) (size : Int) (h : size < 0) :
    rbffi_MemoryPointer_NewInstance rb w size 1 true =
      (.error (.raised .rb_eNoMemError "Failed to allocate memory"),
        w.log (.newMemoryPointer size 1 true)) := by
  simp [rbffi_MemoryPointer_NewInstance, h, rb_raise]
/-- The buffer stage with a supplied buffer. -/
theorem buffer_supplied (rb : Ruby) {w3 : World} {s mp : Ref} (lp : Ref) {st3 : Struct}
    {p : VALUE} (hst3 : w3.getStruct s = some st3) (hne : p ≠ .Qnil)
    (hmem : MEMORY w3 p = .ok mp) :
    ∃ w6, struct_initialize_buffer rb w3 s lp p = (.ok (), w6) ∧ StructFrame s w3 w6 ∧
      w6.getStruct s = some { st3 with pointer := some mp, rbPointer := p } ∧
      w6.ram = w3.ram ∧ w6.brk = w3.brk ∧ w6.trace = w3.trace := by
  refine ⟨(w3.modStruct s (fun st => { st with pointer := some mp })).modStruct s
      (fun st => { st with rbPointer := p }),
    by simp [struct_initialize_buffer, hne, hmem], ?_, ?_, ?_, ?_, ?_⟩
  · have h1 := structFrame_modStruct hst3 (fun st => { st with pointer := some mp })
    have hst1 : (w3.modStruct s (fun st => { st with pointer := some mp })).getStruct s =
        some { st3 with pointer := some mp } := by
      rw [getStruct_modStruct_same, hst3]; rfl
    exact h1.comp (structFrame_modStruct hst1 (fun st => { st with rbPointer := p }))
  · rw [getStruct_modStruct_same, getStruct_modStruct_same, hst3]; rfl
  · rw [(modStruct_rest _ _ _).1, (modStruct_rest _ _ _).1]
  · rw [(modStruct_rest _ _ _).2.1, (modStruct_rest _ _ _).2.1]
  · rw [(modStruct_rest _ _ _).2.2, (modStruct_rest _ _ _).2.2]

theorem getStruct_congr {w w1 : World} {r : Ref} (h : w1.heap[r]? = w.heap[r]?) :
    w1.getStruct r = w.getStruct r := by
  simp [World.getStruct, h]

theorem getLayout_congr {w w1 : World} {r : Ref} (h : w1.heap[r]? = w.heap[r]?) :
    w1.getLayout r = w.getLayout r := by
  simp [World.getLayout, h]

theorem getMemory_congr {w w1 : World} {r : Ref} (h : w1.heap[r]? = w.heap[r]?) :
    w1.getMemory r = w.getMemory r := by
  simp [World.getMemory, h]

/-- The buffer stage without a supplied buffer, when the allocation
succeeds: `n`, the first free reference, becomes the new memory pointer. -/
theorem buffer_allocated (rb : Ruby) {w3 : World} {s lp : Ref} {st3 : Struct}
    {layout : StructLayout} (hst3 : w3.getStruct s = some st3)
    (hlay : w3.getLayout lp = some layout) (hsz : 0 ≤ layout.size) :
    ∃ w6, struct_initialize_buffer rb w3 s lp .Qnil = (.ok (), w6) ∧
      w6.getStruct s =
        some { st3 with rbPointer := .obj w3.heap.length, pointer := some w3.heap.length } ∧
      w6.heap[w3.heap.length]? = some ⟨rbffi_MemoryPointerClass, [],
        .dataMemory ⟨w3.brk, layout.size * 1, rb.memoryPointerOps⟩⟩ ∧
      (∀ r : Ref, r ≠ s → r < w3.heap.length → w6.heap[r]? = w3.heap[r]?) ∧
      w6.heap.length = w3.heap.length + 1 ∧
      w6.ram = (fun a => if w3.brk ≤ a ∧ a < w3.brk + layout.size.toNat then 0 else w3.ram a) ∧
      w6.brk = w3.brk + layout.size.toNat ∧
      w6.trace = w3.trace ++ [.newMemoryPointer layout.size 1 true] := by
  obtain ⟨w4, hnew, hheap, hram, hbrk, htr⟩ := newInstance_run rb w3 layout.size hsz
  have hslt := getStruct_lt hst3
  have hne : w3.heap.length ≠ s := Nat.ne_of_gt hslt
  have h4old : ∀ r : Ref, r < w3.heap.length → w4.heap[r]? = w3.heap[r]? := by
    intro r hr
    rw [hheap, List.getElem?_append_left hr]
  have h4new : w4.heap[w3.heap.length]? = some ⟨rbffi_MemoryPointerClass, [],
      .dataMemory ⟨w3.brk, layout.size * 1, rb.memoryPointerOps⟩⟩ := by
    rw [hheap]; simp
  have hst4 : w4.getStruct s = some st3 := by
    rw [getStruct_congr (h4old s hslt)]; exact hst3
  have hst5 : (w4.modStruct s (fun st => { st with rbPointer := .obj w3.heap.length })).getStruct
      s = some { st3 with rbPointer := .obj w3.heap.length } := by
    rw [getStruct_modStruct_same, hst4]; rfl
  have hf5 := structFrame_modStruct hst4 (fun st => { st with rbPointer := .obj w3.heap.length })
  have hf6 := structFrame_modStruct hst5
    (fun st => { st with pointer := DATA_PTR (.obj w3.heap.length) })
  have hf := hf5.comp hf6
  refine ⟨(w4.modStruct s (fun st => { st with rbPointer := .obj w3.heap.length })).modStruct s
      (fun st => { st with pointer := DATA_PTR (.obj w3.heap.length) }),
    by simp [struct_initialize_buffer, hlay, hnew], ?_, ?_, ?_, ?_, ?_, ?_, ?_⟩
  · rw [getStruct_modStruct_same, hst5]; rfl
  · rw [hf.other _ hne, h4new]
  · intro r hrs hr
    rw [hf.other r hrs, h4old r hr]
  · have hlen : ∀ (w : World) (r : Ref) (f : Struct → Struct),
        (w.modStruct r f).heap.length = w.heap.length := by
      intro w r f
      unfold World.modStruct World.setBody
      split
      · split <;> simp
      · rfl
    rw [hlen, hlen, hheap]; simp
  · rw [(modStruct_rest _ _ _).1, (modStruct_rest _ _ _).1, hram]
  · rw [(modStruct_rest _ _ _).2.1, (modStruct_rest _ _ _).2.1, hbrk]
  · rw [(modStruct_rest _ _ _).2.2, (modStruct_rest _ _ _).2.2, htr]

theorem buffer_alloc_fail (rb : Ruby) {w3 : World} (s : Ref) {lp : Ref}
    {layout : StructLayout} (hlay : w3.getLayout lp = some layout) (hsz : layout.size < 0) :
    struct_initialize_buffer rb w3 s lp .Qnil =
      (.error (.raised .rb_eNoMemError "Failed to allocate memory"),
        w3.log (.newMemoryPointer layout.size 1 true)) := by
  simp [struct_initialize_buffer, hlay, newInstance_fail rb w3 layout.size hsz]

/-- The final check on a state whose buffer pointer points into a memory
object. -/
theorem check_run {w6 : World} {s mp : Ref} (self : VALUE) {st6 : Struct} {m : AbstractMemory}
    (hst6 : w6.getStruct s = some st6) (hp : st6.pointer = some mp)
    (hm : w6.getMemory mp = some m) :
    struct_initialize_check w6 s self =
      if m.ops.isNone then
        (match (CLASS_OF w6 st6.rbPointer).bind (rb_class_name w6) with
          | some name => rb_raise w6 .rb_eRuntimeError ("No memory ops set for " ++ name)
          | none => undefined w6)
      else (.ok self, w6) := by
  simp [struct_initialize_check, hst6, loadMemory, hp, hm]
theorem layout_stage_resolved (rb : Ruby) (w : World) (klass s : Ref) (argv : List VALUE) :
    struct_initialize_layout rb w klass s argv =
      match resolved_layout rb w klass argv with
      | (.error e, w2) => (.error e, w2)
      | (.ok none, w2) => rb_raise w2 .rb_eRuntimeError "No Struct layout configured"
      | (.ok (some l), w2) => (.ok (), w2.modStruct s (fun st => { st with rbLayout := l })) := by
  unfold struct_initialize_layout resolved_layout
  by_cases hn : argv.length > 1
  · simp only [hn, if_true]
    rcases rb.funcall (w.log (.funcall (.obj klass) id_layout argv.tail)) (.obj klass) id_layout
      argv.tail with ⟨r, w2⟩
    cases r <;> rfl
  · simp only [hn, if_false]
    cases rb_cvar_get w klass id_layout_ivar <;> rfl

/-- Construction, once the layout is resolved to a layout object: the state
`w3` in which the buffer stage starts and what follows. -/
theorem struct_initialize_run (rb : Ruby) {w wf : World} {argv : List VALUE} {self L : VALUE}
    {klass s lp : Ref} {st : Struct}
    (hk : CLASS_OF w self = some klass) (hs : Data_Get_Struct w self = .ok s)
    (hres : resolved_layout rb w klass argv = (.ok (some L), wf))
    (hst : wf.getStruct s = some st)
    (hkind : rb_obj_is_kind_of wf L rbffi_StructLayoutClass = true)
    (hlp : Data_Get_Struct wf L = .ok lp) :
    ∃ w3, StructFrame s wf w3 ∧
      w3.getStruct s = some { st with rbLayout := L, layout := some lp } ∧
      w3.ram = wf.ram ∧ w3.brk = wf.brk ∧ w3.trace = wf.trace ∧
      struct_initialize rb w argv self =
        match struct_initialize_buffer rb w3 s lp (argv.headD .Qnil) with
        | (.error e, w6) => (.error e, w6)
        | (.ok _, w6) => struct_initialize_check w6 s self := by
  have hf2 := structFrame_modStruct hst (fun st => { st with rbLayout := L })
  have hst2 : (wf.modStruct s (fun st => { st with rbLayout := L })).getStruct s =
      some { st with rbLayout := L } := by
    rw [getStruct_modStruct_same, hst]; rfl
  have hf3 := structFrame_modStruct hst2 (fun st => { st with layout := some lp })
  have hst3 : ((wf.modStruct s (fun st => { st with rbLayout := L })).modStruct s
      (fun st => { st with layout := some lp })).getStruct s =
      some { st with rbLayout := L, layout := some lp } := by
    rw [getStruct_modStruct_same, hst2]; rfl
  refine ⟨_, hf2.comp hf3, hst3, ?_, ?_, ?_, ?_⟩
  · rw [(modStruct_rest _ _ _).1, (modStruct_rest _ _ _).1]
  · rw [(modStruct_rest _ _ _).2.1, (modStruct_rest _ _ _).2.1]
  · rw [(modStruct_rest _ _ _).2.2, (modStruct_rest _ _ _).2.2]
  · rw [struct_initialize_stages]
    simp only [hk, hs, layout_stage_resolved, hres, hst2, hf2.rb_obj_is_kind_of, hkind,
      hf2.Data_Get_Struct, hlp, Bool.not_true, Bool.false_eq_true, if_false]

theorem struct_initialize_no_layout (rb : Ruby) {w wf : World} {argv : List VALUE}
    {self : VALUE} {klass s : Ref}
    (hk : CLASS_OF w self = some klass) (hs : Data_Get_Struct w self = .ok s)
    (hres : resolved_layout rb w klass argv = (.ok none, wf)) :
    struct_initialize rb w argv self =
      (.error (.raised .rb_eRuntimeError "No Struct layout configured"), wf) := by
  rw [struct_initialize_stages]
  simp only [hk, hs, layout_stage_resolved, hres, rb_raise]

theorem struct_initialize_bad_layout (rb : Ruby) {w wf : World} {argv : List VALUE}
    {self L : VALUE} {klass s : Ref} {st : Struct}
    (hk : CLASS_OF w self = some klass) (hs : Data_Get_Struct w self = .ok s)
    (hres : resolved_layout rb w klass argv = (.ok (some L), wf))
    (hst : wf.getStruct s = some st)
    (hkind : rb_obj_is_kind_of wf L rbffi_StructLayoutClass = false) :
    struct_initialize rb w argv self =
      (.error (.raised .rb_eRuntimeError "Invalid Struct layout"),
        wf.modStruct s (fun st => { st with rbLayout := L })) := by
  have hf2 := structFrame_modStruct hst (fun st => { st with rbLayout := L })
  have hst2 : (wf.modStruct s (fun st => { st with rbLayout := L })).getStruct s =
      some { st with rbLayout := L } := by
    rw [getStruct_modStruct_same, hst]; rfl
  rw [struct_initialize_stages]
  simp only [hk, hs, layout_stage_resolved, hres, hst2, hf2.rb_obj_is_kind_of, hkind,
    Bool.not_false, if_true, rb_raise]

theorem class_name_frame {w w1 : World} {s : Ref} (h : StructFrame s w w1) (v : VALUE) :
    (CLASS_OF w1 v).bind (rb_class_name w1) = (CLASS_OF w v).bind (rb_class_name w) := by
  rw [h.CLASS_OF]
  cases CLASS_OF w v with
  | none => rfl
  | some k => simp only [Option.bind, h.rb_class_name]

theorem rb_class_name_heap {w w1 : World} {k : Ref} (h : w1.heap[k]? = w.heap[k]?) :
    rb_class_name w1 k = rb_class_name w k := by
  simp [rb_class_name, h]

theorem class_ne_struct {w : World} {k s : Ref} {name : String} {st : Struct}
    (hc : rb_class_name w k = some name) (hs : w.getStruct s = some st) : k ≠ s := by
  intro heq
  subst heq
  obtain ⟨c, iv, ho⟩ := getStruct_heap hs
  simp [rb_class_name, ho] at hc

theorem class_name_lt {w : World} {k : Ref} {name : String}
    (hc : rb_class_name w k = some name) : k < w.heap.length := by
  unfold rb_class_name at hc
  cases ho : w.heap[k]? with
  | none => simp [ho] at hc
  | some o => exact (List.getElem?_eq_some.mp ho).1

/-- Construction with a supplied buffer, once the layout is resolved. -/
theorem struct_initialize_supplied (rb : Ruby) {w wf : World} {argv : List VALUE}
    {self L : VALUE} {klass s lp mp : Ref} {st : Struct} {m : AbstractMemory}
    (hk : CLASS_OF w self = some klass) (hs : Data_Get_Struct w self = .ok s)
    (hres : resolved_layout rb w klass argv = (.ok (some L), wf))
    (hst : wf.getStruct s = some st)
    (hkind : rb_obj_is_kind_of wf L rbffi_StructLayoutClass = true)
    (hlp : Data_Get_Struct wf L = .ok lp)
    (hne : argv.headD .Qnil ≠ .Qnil)
    (hmem : MEMORY wf (argv.headD .Qnil) = .ok mp) (hm : wf.getMemory mp = some m) :
    ∃ w6, StructFrame s wf w6 ∧
      w6.getStruct s = some ⟨argv.headD .Qnil, L, some mp, some lp⟩ ∧
      w6.ram = wf.ram ∧ w6.brk = wf.brk ∧ w6.trace = wf.trace ∧
      struct_initialize rb w argv self =
        if m.ops.isNone then
          (match (CLASS_OF wf (argv.headD .Qnil)).bind (rb_class_name wf) with
            | some name => rb_raise w6 .rb_eRuntimeError ("No memory ops set for " ++ name)
            | none => undefined w6)
        else (.ok self, w6) := by
  obtain ⟨w3, hf3, hst3, hram3, hbrk3, htr3, hrun⟩ :=
    struct_initialize_run rb hk hs hres hst hkind hlp
  have hmem3 : MEMORY w3 (argv.headD .Qnil) = .ok mp := by rw [hf3.MEMORY]; exact hmem
  obtain ⟨w6, hb, hf6, hst6, hram6, hbrk6, htr6⟩ := buffer_supplied rb lp hst3 hne hmem3
  have hf := hf3.comp hf6
  have hm6 : w6.getMemory mp = some m := by rw [hf.getMemory]; exact hm
  refine ⟨w6, hf, hst6, by rw [hram6, hram3], by rw [hbrk6, hbrk3], by rw [htr6, htr3], ?_⟩
  rw [hrun, hb]
  simp only
  rw [check_run self hst6 rfl hm6]
  simp only [class_name_frame hf]

/-- Construction without a supplied buffer, once the layout is resolved and
the allocation goes through. -/
theorem struct_initialize_allocated (rb : Ruby) {w wf : World} {argv : List VALUE}
    {self L : VALUE} {klass s lp : Ref} {st : Struct} {layout : StructLayout} {name : String}
    (hk : CLASS_OF w self = some klass) (hs : Data_Get_Struct w self = .ok s)
    (hres : resolved_layout rb w klass argv = (.ok (some L), wf))
    (hst : wf.getStruct s = some st)
    (hkind : rb_obj_is_kind_of wf L rbffi_StructLayoutClass = true)
    (hlp : Data_Get_Struct wf L = .ok lp)
    (hnil : argv.headD .Qnil = .Qnil)
    (hlay : wf.getLayout lp = some layout) (hsz : 0 ≤ layout.size)
    (hmpc : rb_class_name wf rbffi_MemoryPointerClass = some name) :
    ∃ w6,
      w6.getStruct s = some ⟨.obj wf.heap.length, L, some wf.heap.length, some lp⟩ ∧
      w6.getMemory wf.heap.length = some ⟨wf.brk, layout.size * 1, rb.memoryPointerOps⟩ ∧
      (∀ r : Ref, r ≠ s → r < wf.heap.length → w6.heap[r]? = wf.heap[r]?) ∧
      w6.heap.length = wf.heap.length + 1 ∧
      w6.ram = (fun a => if wf.brk ≤ a ∧ a < wf.brk + layout.size.toNat then 0 else wf.ram a) ∧
      w6.brk = wf.brk + layout.size.toNat ∧
      w6.trace = wf.trace ++ [.newMemoryPointer layout.size 1 true] ∧
      struct_initialize rb w argv self =
        if rb.memoryPointerOps.isNone then
          rb_raise w6 .rb_eRuntimeError ("No memory ops set for " ++ name)
        else (.ok self, w6) := by
  obtain ⟨w3, hf3, hst3, hram3, hbrk3, htr3, hrun⟩ :=
    struct_initialize_run rb hk hs hres hst hkind hlp
  have hlay3 : w3.getLayout lp = some layout := by rw [hf3.getLayout]; exact hlay
  obtain ⟨w6, hb, hst6, hnew, hold, hlen, hram6, hbrk6, htr6⟩ :=
    buffer_allocated rb hst3 hlay3 hsz
  have hlen3 : w3.heap.length = wf.heap.length := by
    have hs3 := getStruct_lt hst3
    have hsf := getStruct_lt hst
    by_contra hne
    rcases Nat.lt_or_gt_of_ne hne with hlt | hgt
    · have h1 := hf3.other w3.heap.length (Nat.ne_of_gt hs3)
      rw [List.getElem?_eq_none (Nat.le_refl _)] at h1
      have h2 : w3.heap.length < wf.heap.length := hlt
      rw [List.getElem?_eq_getElem h2] at h1
      simp at h1
    · have h1 := hf3.other wf.heap.length (Nat.ne_of_gt hsf)
      rw [List.getElem?_eq_none (Nat.le_refl _)] at h1
      have h2 : wf.heap.length < w3.heap.length := hgt
      rw [List.getElem?_eq_getElem h2] at h1
      simp at h1
  rw [hlen3] at hst6 hnew hold hlen
  have hm6 : w6.getMemory wf.heap.length =
      some ⟨wf.brk, layout.size * 1, rb.memoryPointerOps⟩ := by
    simp [World.getMemory, hnew, hbrk3]
  have hcs : rbffi_MemoryPointerClass ≠ s := class_ne_struct hmpc hst
  have hclt : rbffi_MemoryPointerClass < wf.heap.length := class_name_lt hmpc
  have hname6 : rb_class_name w6 rbffi_MemoryPointerClass = some name := by
    rw [rb_class_name_heap ((hold _ hcs hclt).trans (hf3.other _ hcs))]; exact hmpc
  have hcls : CLASS_OF w6 (.obj wf.heap.length) = some rbffi_MemoryPointerClass := by
    simp [CLASS_OF, World.deref, hnew]
  refine ⟨w6, hst6, hm6, ?_, hlen, by rw [hram6, hram3, hbrk3], by rw [hbrk6, hbrk3],
    by rw [htr6, htr3], ?_⟩
  · intro r hrs hr
    rw [hold r hrs hr, hf3.other r hrs]
  · rw [hrun, hnil, hb]
    simp only
    rw [check_run self hst6 rfl hm6]
    simp only [hcls, Option.bind, hname6]

theorem struct_initialize_alloc_fail (rb : Ruby) {w wf : World} {argv : List VALUE}
    {self L : VALUE} {klass s lp : Ref} {st : Struct} {layout : StructLayout}
    (hk : CLASS_OF w self = some klass) (hs : Data_Get_Struct w self = .ok s)
    (hres : resolved_layout rb w klass argv = (.ok (some L), wf))
    (hst : wf.getStruct s = some st)
    (hkind : rb_obj_is_kind_of wf L rbffi_StructLayoutClass = true)
    (hlp : Data_Get_Struct wf L = .ok lp)
    (hnil : argv.headD .Qnil = .Qnil)
    (hlay : wf.getLayout lp = some layout) (hsz : layout.size < 0) :
    ( struct_initialize rb w argv self).1 =
      .error (.raised .rb_eNoMemError "Failed to allocate memory") := by
  obtain ⟨w3, hf3, hst3, hram3, hbrk3, htr3, hrun⟩ :=
    struct_initialize_run rb hk hs hres hst hkind hlp
  have hlay3 : w3.getLayout lp = some layout := by rw [hf3.getLayout]; exact hlay
  rw [hrun, hnil, buffer_alloc_fail rb s hlay3 hsz]

theorem check_ok_inv {w6 w1 : World} {s : Ref} {self v : VALUE}
    (h : struct_initialize_check w6 s self = (.ok v, w1)) :
    w1 = w6 ∧ v = self ∧ ∃ st6 mp m, w6.getStruct s = some st6 ∧ st6.pointer = some mp ∧
      w6.getMemory mp = some m ∧ m.ops.isSome = true := by
  unfold struct_initialize_check at h
  split at h
  · simp [undefined] at h
  · rename_i st6 hst6
    split at h
    · rename_i m hm
      split at h
      · split at h <;> simp [rb_raise, undefined] at h
      · rename_i hops
        simp only [Prod.mk.injEq, Except.ok.injEq] at h
        obtain ⟨mp, hp, hmp⟩ := loadMemory_some hm
        refine ⟨h.2.symm, h.1.symm, st6, mp, m, hst6, hp, hmp, ?_⟩
        cases hm2 : m.ops <;> simp_all
    · simp [undefined] at h

/-- What a successful construction went through: the layout `L` resolved in
the state `wf`, and either the supplied buffer installed with nothing else
changed, or a buffer allocated at the first free reference. -/
theorem struct_initialize_ok_inv {rb : Ruby} {w w1 : World} {argv : List VALUE}
    {self v : VALUE} (hok : struct_initialize rb w argv self = (.ok v, w1)) :
    ∃ klass s L wf st lp,
      self = .obj s ∧ v = self ∧ CLASS_OF w self = some klass ∧
      resolved_layout rb w klass argv = (.ok (some L), wf) ∧ wf.getStruct s = some st ∧
      rb_obj_is_kind_of wf L rbffi_StructLayoutClass = true ∧ Data_Get_Struct wf L = .ok lp ∧
      ((argv.headD .Qnil ≠ .Qnil ∧ ∃ mp, MEMORY wf (argv.headD .Qnil) = .ok mp ∧
          StructFrame s wf w1 ∧
          w1.getStruct s = some ⟨argv.headD .Qnil, L, some mp, some lp⟩ ∧
          w1.ram = wf.ram ∧ w1.brk = wf.brk ∧ w1.trace = wf.trace) ∨
        (argv.headD .Qnil = .Qnil ∧ ∃ layout, wf.getLayout lp = some layout ∧
          0 ≤ layout.size ∧
          w1.getStruct s = some ⟨.obj wf.heap.length, L, some wf.heap.length, some lp⟩ ∧
          w1.heap[wf.heap.length]? = some ⟨rbffi_MemoryPointerClass, [],
            .dataMemory ⟨wf.brk, layout.size * 1, rb.memoryPointerOps⟩⟩ ∧
          (∀ r : Ref, r ≠ s → r < wf.heap.length → w1.heap[r]? = wf.heap[r]?) ∧
          w1.heap.length = wf.heap.length + 1 ∧
          w1.ram =
            (fun a => if wf.brk ≤ a ∧ a < wf.brk + layout.size.toNat then 0 else wf.ram a) ∧
          w1.brk = wf.brk + layout.size.toNat ∧
          w1.trace = wf.trace ++ [.newMemoryPointer layout.size 1 true])) := by
  rw [struct_initialize_stages] at hok
  split at hok
  · simp at hok
  · simp [undefined] at hok
  · rename_i klass s hk hs
    have hself := (Data_Get_Struct_ok hs).1
    rw [layout_stage_resolved] at hok
    rcases hres : resolved_layout rb w klass argv with ⟨r, wf⟩
    rw [hres] at hok
    cases r with
    | error e => simp at hok
    | ok Lopt =>
      cases Lopt with
      | none => simp [rb_raise] at hok
      | some L =>
        simp only at hok
        cases hstf : wf.getStruct s with
        | none =>
          have : (wf.modStruct s (fun st => { st with rbLayout := L })).getStruct s = none := by
            rw [getStruct_modStruct_same, hstf]; rfl
          simp [this, undefined] at hok
        | some st =>
          have hf2 := structFrame_modStruct hstf (fun st => { st with rbLayout := L })
          have hst2 : (wf.modStruct s (fun st => { st with rbLayout := L })).getStruct s =
              some { st with rbLayout := L } := by
            rw [getStruct_modStruct_same, hstf]; rfl
          simp only [hst2, hf2.rb_obj_is_kind_of, hf2.Data_Get_Struct] at hok
          cases hkind : rb_obj_is_kind_of wf L rbffi_StructLayoutClass with
          | false => simp [hkind, rb_raise] at hok
          | true =>
            simp only [hkind, Bool.not_true, Bool.false_eq_true, if_false] at hok
            cases hlp : Data_Get_Struct wf L with
            | error e => simp [hlp] at hok
            | ok lp =>
              simp only [hlp] at hok
              have hst3 : ((wf.modStruct s (fun st => { st with rbLayout := L })).modStruct s
                  (fun st => { st with layout := some lp })).getStruct s =
                  some { st with rbLayout := L, layout := some lp } := by
                rw [getStruct_modStruct_same, hst2]; rfl
              have hf3 := hf2.comp
                (structFrame_modStruct hst2 (fun st => { st with layout := some lp }))
              have hram3 := ((modStruct_rest (wf.modStruct s
                (fun st => { st with rbLayout := L })) s
                (fun st => { st with layout := some lp })).1).trans
                (modStruct_rest wf s (fun st => { st with rbLayout := L })).1
              have hbrk3 := ((modStruct_rest (wf.modStruct s
                (fun st => { st with rbLayout := L })) s
                (fun st => { st with layout := some lp })).2.1).trans
                (modStruct_rest wf s (fun st => { st with rbLayout := L })).2.1
              have htr3 := ((modStruct_rest (wf.modStruct s
                (fun st => { st with rbLayout := L })) s
                (fun st => { st with layout := some lp })).2.2).trans
                (modStruct_rest wf s (fun st => { st with rbLayout := L })).2.2
              generalize hw3 : (wf.modStruct s (fun st => { st with rbLayout := L })).modStruct s
                (fun st => { st with layout := some lp }) = w3 at hok hst3 hf3 hram3 hbrk3 htr3
              have hlen3 : w3.heap.length = wf.heap.length := by
                have hs3 := getStruct_lt hst3
                have hsf := getStruct_lt hstf
                by_contra hne
                rcases Nat.lt_or_gt_of_ne hne with hlt | hgt
                · have h1 := hf3.other w3.heap.length (Nat.ne_of_gt hs3)
                  rw [List.getElem?_eq_none (Nat.le_refl _)] at h1
                  have h2 : w3.heap.length < wf.heap.length := hlt
                  rw [List.getElem?_eq_getElem h2] at h1
                  simp at h1
                · have h1 := hf3.other wf.heap.length (Nat.ne_of_gt hsf)
                  rw [List.getElem?_eq_none (Nat.le_refl _)] at h1
                  have h2 : wf.heap.length < w3.heap.length := hgt
                  rw [List.getElem?_eq_getElem h2] at h1
                  simp at h1
              refine ⟨klass, s, L, wf, st, lp, hself, ?_, hk, hres, hstf, hkind, hlp, ?_⟩
              · -- the value returned
                rcases hb : struct_initialize_buffer rb w3 s lp (argv.headD .Qnil) with ⟨r, w6⟩
                rw [hb] at hok
                cases r with
                | error e => simp at hok
                | ok u => exact (check_ok_inv hok).2.1
              · by_cases hp : argv.headD .Qnil = .Qnil
                · right
                  refine ⟨hp, ?_⟩
                  rw [hp] at hok
                  cases hlay3 : w3.getLayout lp with
                  | none => simp [struct_initialize_buffer, hlay3, undefined] at hok
                  | some layout =>
                    have hlay : wf.getLayout lp = some layout := by
                      rw [← hf3.getLayout]; exact hlay3
                    by_cases hsz : 0 ≤ layout.size
                    · obtain ⟨w6, hb, hst6, hnew, hold, hlen, hram6, hbrk6, htr6⟩ :=
                        buffer_allocated rb hst3 hlay3 hsz
                      rw [hb] at hok
                      obtain ⟨hw, _, _⟩ := check_ok_inv hok
                      subst hw
                      rw [hlen3] at hst6 hnew hold hlen
                      refine ⟨layout, hlay, hsz, hst6, ?_, ?_, hlen, ?_, ?_, ?_⟩
                      · rw [hnew, hbrk3]
                      · intro r hrs hr
                        rw [hold r hrs hr, hf3.other r hrs]
                      · rw [hram6, hram3, hbrk3]
                      · rw [hbrk6, hbrk3]
                      · rw [htr6, htr3]
                    · rw [buffer_alloc_fail rb s hlay3 (by omega)] at hok
                      simp at hok
                · left
                  refine ⟨hp, ?_⟩
                  cases hmem3 : MEMORY w3 (argv.headD .Qnil) with
                  | error e =>
                    unfold struct_initialize_buffer at hok
                    rw [if_pos hp, hmem3] at hok
                    simp at hok
                  | ok mp =>
                    obtain ⟨w6, hb, hf6, hst6, hram6, hbrk6, htr6⟩ :=
                      buffer_supplied rb lp hst3 hp hmem3
                    rw [hb] at hok
                    obtain ⟨hw, _, _⟩ := check_ok_inv hok
                    subst hw
                    refine ⟨mp, by rw [← hf3.MEMORY]; exact hmem3, hf3.comp hf6, hst6,
                      by rw [hram6, hram3], by rw [hbrk6, hbrk3], by rw [htr6, htr3]⟩

theorem getStruct_data {w : World} {s : Ref} {st : Struct} (h : w.getStruct s = some st) :
    Data_Get_Struct w (.obj s) = .ok s := by
  obtain ⟨k, iv, ho⟩ := getStruct_heap h
  have : isT_DATA w (.obj s) = true := by simp [isT_DATA, World.deref, ho]
  simp [Data_Get_Struct, this]

theorem StructFrame.length {w w1 : World} {s : Ref} (h : StructFrame s w w1) :
    w1.heap.length = w.heap.length := by
  obtain ⟨o, o1, st, st1, ho, ho1, _, _, _⟩ := h.self
  have hs := (List.getElem?_eq_some.mp ho).1
  have hs1 := (List.getElem?_eq_some.mp ho1).1
  by_contra hne
  rcases Nat.lt_or_gt_of_ne hne with hlt | hgt
  · have h1 := h.other w1.heap.length (Nat.ne_of_gt hs1)
    rw [List.getElem?_eq_none (Nat.le_refl _)] at h1
    have h2 : w1.heap.length < w.heap.length := hlt
    rw [List.getElem?_eq_getElem h2] at h1
    simp at h1
  · have h1 := h.other w.heap.length (Nat.ne_of_gt hs)
    rw [List.getElem?_eq_none (Nat.le_refl _)] at h1
    have h2 : w.heap.length < w1.heap.length := hgt
    rw [List.getElem?_eq_getElem h2] at h1
    simp at h1

theorem getLayout_lt {w : World} {r : Ref} {l : StructLayout} (h : w.getLayout r = some l) :
    r < w.heap.length := body_at_lt (body_of_getLayout h)

theorem layout_ne_struct {w : World} {lp s : Ref} {l : StructLayout} {st : Struct}
    (hl : w.getLayout lp = some l) (hs : w.getStruct s = some st) : lp ≠ s := by
  intro heq
  subst heq
  obtain ⟨c, iv, ho⟩ := getStruct_heap hs
  simp [World.getLayout, ho] at hl

theorem resolved_layout_args {rb : Ruby} {w wf : World} {klass : Ref} {argv : List VALUE}
    {L : VALUE} (h : resolved_layout rb w klass argv = (.ok (some L), wf))
    (hn : argv.length > 1) :
    rb.funcall (w.log (.funcall (.obj klass) id_layout argv.tail)) (.obj klass) id_layout
      argv.tail = (.ok L, wf) := by
  unfold resolved_layout at h
  simp only [hn, if_true] at h
  rcases hcall : rb.funcall (w.log (.funcall (.obj klass) id_layout argv.tail)) (.obj klass)
    id_layout argv.tail with ⟨r, w2⟩
  rw [hcall] at h
  cases r with
  | error e => simp at h
  | ok l =>
    simp only [Prod.mk.injEq, Except.ok.injEq, Option.some.injEq] at h
    rw [h.1, h.2]

theorem resolved_layout_default {rb : Ruby} {w wf : World} {klass : Ref} {argv : List VALUE}
    {L : VALUE} (h : resolved_layout rb w klass argv = (.ok (some L), wf))
    (hn : argv.length ≤ 1) :
    rb_cvar_get w klass id_layout_ivar = some L ∧ wf = w := by
  unfold resolved_layout at h
  have hn1 : ¬ argv.length > 1 := by omega
  simp only [hn1, if_false, Prod.mk.injEq, Except.ok.injEq] at h
  exact ⟨h.1, h.2.symm⟩

/-! ## The buffer reference of an instance -/

theorem buffer_coherent_iff {w : World} {self : VALUE} :
    buffer_coherent w self = true ↔
      ∃ s st mp, self = .obj s ∧ w.getStruct s = some st ∧ st.rbPointer = .obj mp ∧
        st.pointer = some mp := by
  constructor
  · intro h
    unfold buffer_coherent at h
    split at h
    · rename_i s
      split at h
      · rename_i st hst
        simp only [Bool.and_eq_true, decide_eq_true_eq] at h
        obtain ⟨mp, hmp⟩ := Option.isSome_iff_exists.mp h.1
        refine ⟨s, st, mp, rfl, hst, ?_, hmp⟩
        have h2 := h.2
        rw [hmp] at h2
        cases hv : st.rbPointer <;> simp [hv, DATA_PTR] at h2
        rw [h2]
      · simp at h
    · simp at h
  · rintro ⟨s, st, mp, rfl, hst, hrp, hp⟩
    simp [buffer_coherent, hst, hrp, hp, DATA_PTR]

theorem buffer_coherent_heap {w w1 : World} {self : VALUE} (h : w1.heap = w.heap) :
    buffer_coherent w1 self = buffer_coherent w self := by
  simp [buffer_coherent, World.getStruct, h]

theorem buffer_coherent_call {rb : Ruby} {self : VALUE}
    (hrb : ∀ w recv mid args, buffer_coherent w self = true →
      buffer_coherent (rb.funcall w recv mid args).2 self = true)
    {w w2 : World} (ev : Event) {recv : VALUE} {mid : ID} {args : List VALUE}
    {r : Except RbError VALUE}
    (hco : buffer_coherent w self = true)
    (h : rb.funcall (w.log ev) recv mid args = (r, w2)) : buffer_coherent w2 self = true := by
  have h1 := hrb (w.log ev) recv mid args (by rw [buffer_coherent_heap (rfl : (w.log ev).heap = w.heap)]; exact hco)
  rw [h] at h1
  exact h1

theorem struct_field_coherent {rb : Ruby} {self : VALUE}
    (hrb : ∀ w recv mid args, buffer_coherent w self = true →
      buffer_coherent (rb.funcall w recv mid args).2 self = true)
    {w : World} (s : Ref) (fieldName : VALUE) (hco : buffer_coherent w self = true) :
    buffer_coherent (struct_field rb w s fieldName).2 self = true := by
  unfold struct_field
  split
  · exact hco
  · split
    · exact hco
    · split
      · exact hco
      · split
        · exact hco
        · split
          · rcases hc : rb.funcall (w.log (.funcall fieldName id_to_s [])) fieldName id_to_s []
              with ⟨r, w2⟩
            have hw2 := buffer_coherent_call hrb _ hco hc
            simp only [hc]
            cases r with
            | error e => exact hw2
            | ok str =>
              simp only
              split <;> exact hw2
          · exact hco

theorem struct_get_field_coherent {rb : Ruby} {self : VALUE}
    (hrb : ∀ w recv mid args, buffer_coherent w self = true →
      buffer_coherent (rb.funcall w recv mid args).2 self = true)
    {w : World} (fieldName : VALUE) (hco : buffer_coherent w self = true) :
    buffer_coherent (struct_get_field rb w self fieldName).2 self = true := by
  unfold struct_get_field
  split
  · exact hco
  · rename_i s _
    have hf := struct_field_coherent hrb s fieldName hco
    rcases hsf : struct_field rb w s fieldName with ⟨r, w1⟩
    rw [hsf] at hf
    cases r with
    | error e => exact hf
    | ok rbField =>
      simp only
      split
      · split
        · exact hf
        · split
          · exact hf
          · have h1 := hrb (w1.log (.funcall rbField id_get [‹Struct›.rbPointer])) rbField id_get
              [‹Struct›.rbPointer] hf
            exact h1
      · exact hf

theorem struct_put_field_coherent {rb : Ruby} {self : VALUE}
    (hrb : ∀ w recv mid args, buffer_coherent w self = true →
      buffer_coherent (rb.funcall w recv mid args).2 self = true)
    {w : World} (fieldName value : VALUE) (hco : buffer_coherent w self = true) :
    buffer_coherent (struct_put_field rb w self fieldName value).2 self = true := by
  unfold struct_put_field
  split
  · exact hco
  · rename_i s _
    have hf := struct_field_coherent hrb s fieldName hco
    rcases hsf : struct_field rb w s fieldName with ⟨r, w1⟩
    rw [hsf] at hf
    cases r with
    | error e => exact hf
    | ok rbField =>
      simp only
      split
      · split
        · exact hf
        · split
          · split <;> exact hf
          · split
            · rename_i h
              exact buffer_coherent_call hrb _ hf h
            · rename_i h
              exact buffer_coherent_call hrb _ hf h
      · exact hf

theorem struct_set_pointer_error {w w1 : World} {self pointer : VALUE} {e : RbError}
    (h : struct_set_pointer w self pointer = (.error e, w1)) : w1 = w := by
  unfold struct_set_pointer at h
  repeat' split at h
  all_goals simp [rb_raise, undefined] at h
  all_goals exact h.2.symm

theorem struct_set_layout_error {w w1 : World} {self layout : VALUE} {e : RbError}
    (h : struct_set_layout w self layout = (.error e, w1)) : w1 = w := by
  unfold struct_set_layout at h
  repeat' split at h
  all_goals simp [rb_raise, undefined] at h
  all_goals exact h.2.symm

theorem struct_set_pointer_coherent {w : World} {self : VALUE} (pointer : VALUE)
    (hco : buffer_coherent w self = true) :
    buffer_coherent (struct_set_pointer w self pointer).2 self = true := by
  rcases h : struct_set_pointer w self pointer with ⟨r, w1⟩
  cases r with
  | error e => rw [struct_set_pointer_error h]; exact hco
  | ok v =>
    obtain ⟨s, mp, st, hself, hp, _, hst, _, hw1⟩ := struct_set_pointer_ok h
    refine buffer_coherent_iff.mpr ⟨s, { st with pointer := some mp, rbPointer := pointer }, mp,
      hself, ?_, hp, rfl⟩
    show w1.getStruct s = _
    rw [hw1, getStruct_ivar_set, getStruct_modStruct_same, getStruct_modStruct_same, hst]
    rfl

theorem struct_set_layout_coherent {w : World} {self : VALUE} (layout : VALUE)
    (hco : buffer_coherent w self = true) :
    buffer_coherent (struct_set_layout w self layout).2 self = true := by
  rcases h : struct_set_layout w self layout with ⟨r, w1⟩
  cases r with
  | error e => rw [struct_set_layout_error h]; exact hco
  | ok v =>
    obtain ⟨s, lp, st, hself, _, _, hst, _, hw1⟩ := struct_set_layout_ok h
    obtain ⟨s1, st1, mp, hself1, hst1, hrp, hpp⟩ := buffer_coherent_iff.mp hco
    rw [hself] at hself1
    cases hself1
    rw [hst] at hst1
    cases hst1
    refine buffer_coherent_iff.mpr ⟨s, { st with layout := some lp }, mp, hself, ?_, hrp, hpp⟩
    show w1.getStruct s = _
    rw [hw1, getStruct_ivar_set, getStruct_modStruct_same, hst]
    rfl

theorem struct_initialize_coherent {rb : Ruby} {w w1 : World} {argv : List VALUE}
    {self v : VALUE} (hok : struct_initialize rb w argv self = (.ok v, w1)) :
    buffer_coherent w1 self = true := by
  obtain ⟨klass, s, L, wf, st, lp, hself, _, _, _, _, _, _, hcases⟩ :=
    struct_initialize_ok_inv hok
  rcases hcases with ⟨_, mp, hmem, _, h1, _⟩ | ⟨_, layout, _, _, h1, _⟩
  · exact buffer_coherent_iff.mpr ⟨s, _, mp, hself, h1, (MEMORY_ok hmem).1, rfl⟩
  · exact buffer_coherent_iff.mpr ⟨s, _, wf.heap.length, hself, h1, rfl, rfl⟩

theorem reachable_coherent {rb : Ruby} {self : VALUE}
    (hrb : ∀ w recv mid args, buffer_coherent w self = true →
      buffer_coherent (rb.funcall w recv mid args).2 self = true)
    {w : World} (h : Reachable rb self w) : buffer_coherent w self = true := by
  induction h with
  | construct w w1 argv v hok => exact struct_initialize_coherent hok
  | set_pointer w pointer _ ih => exact struct_set_pointer_coherent pointer ih
  | set_layout w layout _ ih => exact struct_set_layout_coherent layout ih
  | get w fieldName _ ih => exact struct_get_field_coherent hrb fieldName ih
  | put w fieldName value _ ih => exact struct_put_field_coherent hrb fieldName value ih

theorem rb0_world (w : World) (recv : VALUE) (mid : ID) (args : List VALUE) :
    (rb0.funcall w recv mid args).2 = w := by
  simp only [rb0]
  split <;> rfl

theorem cstr_no_nul {str : String} (h : Char.ofNat 0 ∉ str.toList) : cstr str = str := by
  unfold cstr
  have : str.toList.takeWhile (fun c => c ≠ Char.ofNat 0) = str.toList := by
    rw [List.takeWhile_eq_self_iff]
    intro c hc
    have hne : c ≠ Char.ofNat 0 := fun heq => h (heq ▸ hc)
    simpa using hne
  rw [this]
  rfl

theorem ptr_get_op_no_table {m : AbstractMemory} (h : m.ops = none) (t : Option FfiType) :
    ptr_get_op (some m) t = none := by
  simp [ptr_get_op, h]

/-! ## Theorems -/

/-- C1: `ptr_get_op` is a total function that, for a buffer with an
operations table, returns exactly the slot of that table selected by each of
the twelve primitive tags (whatever that slot holds), and returns "not found"
(`none`) when the buffer pointer is NULL, when the buffer has no operations
table, when the field has no primitive type, and for every tag outside the
twelve. -/
theorem ptr_get_op_dispatch :
    (∀ (address : Nat) (size : Int) (ops : MemoryOps),
      ptr_get_op (some ⟨address, size, some ops⟩) (some ⟨.NATIVE_INT8⟩) = ops.int8 ∧
      ptr_get_op (some ⟨address, size, some ops⟩) (some ⟨.NATIVE_UINT8⟩) = ops.uint8 ∧
      ptr_get_op (some ⟨address, size, some ops⟩) (some ⟨.NATIVE_INT16⟩) = ops.int16 ∧
      ptr_get_op (some ⟨address, size, some ops⟩) (some ⟨.NATIVE_UINT16⟩) = ops.uint16 ∧
      ptr_get_op (some ⟨address, size, some ops⟩) (some ⟨.NATIVE_INT32⟩) = ops.int32 ∧
      ptr_get_op (some ⟨address, size, some ops⟩) (some ⟨.NATIVE_UINT32⟩) = ops.uint32 ∧
      ptr_get_op (some ⟨address, size, some ops⟩) (some ⟨.NATIVE_INT64⟩) = ops.int64 ∧
      ptr_get_op (some ⟨address, size, some ops⟩) (some ⟨.NATIVE_UINT64⟩) = ops.uint64 ∧
      ptr_get_op (some ⟨address, size, some ops⟩) (some ⟨.NATIVE_FLOAT32⟩) = ops.float32 ∧
      ptr_get_op (some ⟨address, size, some ops⟩) (some ⟨.NATIVE_FLOAT64⟩) = ops.float64 ∧
      ptr_get_op (some ⟨address, size, some ops⟩) (some ⟨.NATIVE_POINTER⟩) = ops.pointer ∧
      ptr_get_op (some ⟨address, size, some ops⟩) (some ⟨.NATIVE_STRING⟩) = ops.strptr) ∧
    (∀ (type : Option FfiType), ptr_get_op none type = none) ∧
    (∀ (address : Nat) (size : Int) (type : Option FfiType),
      ptr_get_op (some ⟨address, size, none⟩) type = none) ∧
    (∀ (ptr : Option AbstractMemory), ptr_get_op ptr none = none) ∧
    (∀ (ptr : Option AbstractMemory) (code : Nat),
      ptr_get_op ptr (some ⟨.NATIVE_OTHER code⟩) = none) := by
  refine ⟨fun address size ops => ?_, fun type => rfl, fun address size type => rfl, ?_, ?_⟩
  · exact ⟨rfl, rfl, rfl, rfl, rfl, rfl, rfl, rfl, rfl, rfl, rfl, rfl⟩
  · intro ptr
    rcases ptr with _ | ⟨a, sz, _ | ops⟩ <;> rfl
  · intro ptr code
    rcases ptr with _ | ⟨a, sz, _ | ops⟩ <;> rfl

/-- C2: for a struct instance and a field name present in its layout, `[]`
takes the fast path exactly when `ptr_get_op` finds an op for the instance
buffer and the field type: it then returns `op.get(buffer, field.offset)`, the
only outgoing call being that op (no handler is invoked, whatever the
interpreter `rb` would answer); when `ptr_get_op` finds none it returns the
result of the dynamic call `get` on the field descriptor with exactly one
argument, the buffer reference of the instance. -/
theorem struct_get_field_paths (rb : Ruby) (w : World) (self fieldName : VALUE)
    (s lp fr mp : Ref) (st : Struct) (f : StructField) (m : AbstractMemory)
    (hself : Data_Get_Struct w self = .ok s) (hst : w.getStruct s = some st)
    (hl : st.layout = some lp)
    (hlook : struct_layout_aref w (.obj lp) fieldName = (.ok (.obj fr), w))
    (hf : w.getField fr = some f)
    (hp : st.pointer = some mp) (hm : w.getMemory mp = some m) :
    (∀ op, ptr_get_op (some m) f.type = some op →
      struct_get_field rb w self fieldName =
        (op.get w.ram m.region f.offset, w.log (.opGet mp f.offset))) ∧
    (ptr_get_op (some m) f.type = none →
      struct_get_field rb w self fieldName =
        rb.funcall (w.log (.funcall (.obj fr) id_get [st.rbPointer])) (.obj fr) id_get
          [st.rbPointer]) := by
  have hfield := struct_field_present rb hst hl hlook (by simp)
  constructor
  · intro op hop
    simp [struct_get_field, hself, hfield, hst, DATA_PTR, hf, loadMemory, hp, hm, hop, World.log]
  · intro hop
    simp [struct_get_field, hself, hfield, hst, DATA_PTR, hf, loadMemory, hp, hm, hop]

/-- Witness for C2 in the example world: on instance 18, `x` (Signed8, an op
exists) is read through the op, `y` (untyped field) through the handler. -/
theorem struct_get_field_paths_witness :
    (Data_Get_Struct world0 (.obj 18) = .ok 18 ∧
      world0.getStruct 18 = some ⟨.obj 10, .obj 14, some 10, some 14⟩ ∧
      struct_layout_aref world0 (.obj 14) (.sym "x") = (.ok (.obj 12), world0) ∧
      world0.getField 12 = some ⟨0, .Qnil, some ⟨.NATIVE_INT8⟩⟩ ∧
      world0.getMemory 10 = some ⟨100, 16, some byteOps⟩) ∧
    struct_get_field rb0 world0 (.obj 18) (.sym "x") =
      (byteOp.get world0.ram ⟨100, 16⟩ 0, world0.log (.opGet 10 0)) ∧
    struct_get_field rb0 world0 (.obj 18) (.sym "y") =
      rb0.funcall (world0.log (.funcall (.obj 13) id_get [.obj 10])) (.obj 13) id_get [.obj 10] :=
  ⟨⟨rfl, rfl, rfl, rfl, rfl⟩,
    (struct_get_field_paths rb0 world0 (.obj 18) (.sym "x") 18 14 12 10
      ⟨.obj 10, .obj 14, some 10, some 14⟩ ⟨0, .Qnil, some ⟨.NATIVE_INT8⟩⟩
      ⟨100, 16, some byteOps⟩ rfl rfl rfl rfl rfl rfl rfl).1 byteOp rfl,
    (struct_get_field_paths rb0 world0 (.obj 18) (.sym "y") 18 14 13 10
      ⟨.obj 10, .obj 14, some 10, some 14⟩ ⟨4, .Qnil, none⟩
      ⟨100, 16, some byteOps⟩ rfl rfl rfl rfl rfl rfl rfl).2 rfl⟩

/-- C3: for a struct instance, a field name present in its layout and a value
`v`, `[]=` splits like `[]`: when `ptr_get_op` finds an op it performs exactly
`op.put(buffer, field.offset, v)` (the only outgoing call; raw memory becomes
what the op leaves) and no handler is invoked; otherwise it makes the dynamic
call `put` on the field descriptor with the arguments (buffer reference, v);
in both cases, when the call made does not raise, the instance itself is
returned. -/
theorem struct_put_field_paths (rb : Ruby) (w : World) (self fieldName value : VALUE)
    (s lp fr mp : Ref) (st : Struct) (f : StructField) (m : AbstractMemory)
    (hself : Data_Get_Struct w self = .ok s) (hst : w.getStruct s = some st)
    (hl : st.layout = some lp)
    (hlook : struct_layout_aref w (.obj lp) fieldName = (.ok (.obj fr), w))
    (hf : w.getField fr = some f)
    (hp : st.pointer = some mp) (hm : w.getMemory mp = some m) :
    (∀ op, ptr_get_op (some m) f.type = some op →
      struct_put_field rb w self fieldName value =
        ((op.put w.ram m.region f.offset value).1.map (fun _ => self),
          { w.log (.opPut mp f.offset value) with
            ram := (op.put w.ram m.region f.offset value).2 })) ∧
    (ptr_get_op (some m) f.type = none →
      struct_put_field rb w self fieldName value =
        ((rb.funcall (w.log (.funcall (.obj fr) id_put [st.rbPointer, value])) (.obj fr) id_put
            [st.rbPointer, value]).1.map (fun _ => self),
          (rb.funcall (w.log (.funcall (.obj fr) id_put [st.rbPointer, value])) (.obj fr) id_put
            [st.rbPointer, value]).2)) := by
  have hfield := struct_field_present rb hst hl hlook (by simp)
  constructor
  · intro op hop
    rcases hput : op.put w.ram m.region f.offset value with ⟨r, ram1⟩
    cases r <;>
      simp [struct_put_field, hself, hfield, hst, DATA_PTR, hf, loadMemory, hp, hm, hop,
        World.log, hput, Except.map]
  · intro hop
    rcases hcall : rb.funcall (w.log (.funcall (.obj fr) id_put [st.rbPointer, value])) (.obj fr)
      id_put [st.rbPointer, value] with ⟨r, w3⟩
    cases r <;>
      simp [struct_put_field, hself, hfield, hst, DATA_PTR, hf, loadMemory, hp, hm, hop,
        hcall, Except.map]

/-- Witness for C3 in the example world: on instance 18, writing 7 to `x` goes
through the op and returns the instance; writing to `y` calls the handler. -/
theorem struct_put_field_paths_witness :
    (Data_Get_Struct world0 (.obj 18) = .ok 18 ∧
      world0.getStruct 18 = some ⟨.obj 10, .obj 14, some 10, some 14⟩ ∧
      struct_layout_aref world0 (.obj 14) (.sym "x") = (.ok (.obj 12), world0) ∧
      world0.getField 12 = some ⟨0, .Qnil, some ⟨.NATIVE_INT8⟩⟩ ∧
      world0.getMemory 10 = some ⟨100, 16, some byteOps⟩) ∧
    struct_put_field rb0 world0 (.obj 18) (.sym "x") (.int 7) =
      ((byteOp.put world0.ram ⟨100, 16⟩ 0 (.int 7)).1.map (fun _ => VALUE.obj 18),
        { world0.log (.opPut 10 0 (.int 7)) with
          ram := (byteOp.put world0.ram ⟨100, 16⟩ 0 (.int 7)).2 }) ∧
    (struct_put_field rb0 world0 (.obj 18) (.sym "x") (.int 7)).1 = .ok (.obj 18) ∧
    struct_put_field rb0 world0 (.obj 18) (.sym "y") (.int 7) =
      ((rb0.funcall (world0.log (.funcall (.obj 13) id_put [.obj 10, .int 7])) (.obj 13) id_put
          [.obj 10, .int 7]).1.map (fun _ => VALUE.obj 18),
        (rb0.funcall (world0.log (.funcall (.obj 13) id_put [.obj 10, .int 7])) (.obj 13) id_put
          [.obj 10, .int 7]).2) :=
  ⟨⟨rfl, rfl, rfl, rfl, rfl⟩,
    (struct_put_field_paths rb0 world0 (.obj 18) (.sym "x") (.int 7) 18 14 12 10
      ⟨.obj 10, .obj 14, some 10, some 14⟩ ⟨0, .Qnil, some ⟨.NATIVE_INT8⟩⟩
      ⟨100, 16, some byteOps⟩ rfl rfl rfl rfl rfl rfl rfl).1 byteOp rfl,
    rfl,
    (struct_put_field_paths rb0 world0 (.obj 18) (.sym "y") (.int 7) 18 14 13 10
      ⟨.obj 10, .obj 14, some 10, some 14⟩ ⟨4, .Qnil, none⟩
      ⟨100, 16, some byteOps⟩ rfl rfl rfl rfl rfl rfl rfl).2 rfl⟩

/-- C6: for a field descriptor and a buffer (a value that passes the `MEMORY`
kind check), `Field#get` and `Field#put` raise the unsupported-operation error
(`rb_eArgError`, "get/put not supported for" followed by the class name of the
descriptor) exactly in the case where `ptr_get_op` finds no op for the field
type and the buffer, and then nothing is called or changed; in the other case
`get` returns `op.get(buffer, offset)` and `put` performs
`op.put(buffer, offset, v)` and returns the descriptor. -/
theorem struct_field_get_put_dispatch (w : World) (self pointer value : VALUE)
    (fp memory : Ref) (f : StructField) (m : AbstractMemory) (name : String)
    (hmem : MEMORY w pointer = .ok memory) (hm : w.getMemory memory = some m)
    (hself : Data_Get_Struct w self = .ok fp) (hf : w.getField fp = some f)
    (hname : (CLASS_OF w self).bind (rb_class_name w) = some name) :
    (ptr_get_op (some m) f.type = none →
      struct_field_get w self pointer =
        (.error (.raised .rb_eArgError ("get not supported for " ++ name)), w) ∧
      struct_field_put w self pointer value =
        (.error (.raised .rb_eArgError ("put not supported for " ++ name)), w)) ∧
    (∀ op, ptr_get_op (some m) f.type = some op →
      struct_field_get w self pointer =
        (op.get w.ram m.region f.offset, w.log (.opGet memory f.offset)) ∧
      struct_field_put w self pointer value =
        ((op.put w.ram m.region f.offset value).1.map (fun _ => self),
          { w.log (.opPut memory f.offset value) with
            ram := (op.put w.ram m.region f.offset value).2 })) := by
  constructor
  · intro hop
    simp [struct_field_get, struct_field_put, hmem, hm, hself, hf, hop, not_supported, hname,
      rb_raise]
  · intro op hop
    constructor
    · simp [struct_field_get, hmem, hm, hself, hf, hop, World.log]
    · rcases hput : op.put w.ram m.region f.offset value with ⟨r, ram1⟩
      cases r <;>
        simp [struct_field_put, hmem, hm, hself, hf, hop, World.log, hput, Except.map]

/-- Witness for C6 in the example world: the Signed8 field 12 against the
table-less memory 11 is unsupported; against memory pointer 10 it goes through
the 8-bit op. -/
theorem struct_field_get_put_dispatch_witness :
    (MEMORY world0 (.obj 11) = .ok 11 ∧ world0.getMemory 11 = some ⟨200, 16, none⟩ ∧
      Data_Get_Struct world0 (.obj 12) = .ok 12 ∧
      world0.getField 12 = some ⟨0, .Qnil, some ⟨.NATIVE_INT8⟩⟩ ∧
      (CLASS_OF world0 (.obj 12)).bind (rb_class_name world0) =
        some "FFI::StructLayoutBuilder::Signed8") ∧
    (struct_field_get world0 (.obj 12) (.obj 11) =
        (.error (.raised .rb_eArgError
          ("get not supported for " ++ "FFI::StructLayoutBuilder::Signed8")), world0) ∧
      struct_field_put world0 (.obj 12) (.obj 11) (.int 7) =
        (.error (.raised .rb_eArgError
          ("put not supported for " ++ "FFI::StructLayoutBuilder::Signed8")), world0)) ∧
    (struct_field_get world0 (.obj 12) (.obj 10) =
        (byteOp.get world0.ram ⟨100, 16⟩ 0, world0.log (.opGet 10 0)) ∧
      struct_field_put world0 (.obj 12) (.obj 10) (.int 7) =
        ((byteOp.put world0.ram ⟨100, 16⟩ 0 (.int 7)).1.map (fun _ => VALUE.obj 12),
          { world0.log (.opPut 10 0 (.int 7)) with
            ram := (byteOp.put world0.ram ⟨100, 16⟩ 0 (.int 7)).2 })) :=
  ⟨⟨rfl, rfl, rfl, rfl, rfl⟩,
    (struct_field_get_put_dispatch world0 (.obj 12) (.obj 11) (.int 7) 12 11
      ⟨0, .Qnil, some ⟨.NATIVE_INT8⟩⟩ ⟨200, 16, none⟩ "FFI::StructLayoutBuilder::Signed8"
      rfl rfl rfl rfl rfl).1 rfl,
    (struct_field_get_put_dispatch world0 (.obj 12) (.obj 10) (.int 7) 12 10
      ⟨0, .Qnil, some ⟨.NATIVE_INT8⟩⟩ ⟨100, 16, some byteOps⟩ "FFI::StructLayoutBuilder::Signed8"
      rfl rfl rfl rfl rfl).2 byteOp rfl⟩

/-- C7, as stated, fails in the example world: the name `nul_name` (`a`, NUL,
`b`) is absent from the layout of instance 18 and its string form is the
name itself; `[]` and `[]=` raise `rb_eArgError` with the message
"No such field 'a'", because the `%s` of the format stops at the NUL, and
that message does not include the string form of the name. -/
theorem struct_field_message_cut_at_nul :
    struct_layout_aref world0 (.obj 14) (.str nul_name) = (.ok .Qnil, world0) ∧
    (rb0.funcall (world0.log (.funcall (.str nul_name) id_to_s [])) (.str nul_name) id_to_s
      []).1 = .ok (.str nul_name) ∧
    (struct_get_field rb0 world0 (.obj 18) (.str nul_name)).1 =
      .error (.raised .rb_eArgError "No such field 'a'") ∧
    (struct_put_field rb0 world0 (.obj 18) (.str nul_name) (.int 1)).1 =
      .error (.raised .rb_eArgError "No such field 'a'") ∧
    ¬ (nul_name.toList <:+: "No such field 'a'".toList) := by
  exact ⟨rfl, rfl, rfl, rfl, by decide⟩

/-- C7, amended: for a struct instance whose layout lookup of a name answers
`rbField`, the field lookup `struct_field` fails if and only if `rbField` is
the absent indicator `Qnil`; for such an absent name whose string form
(`to_s`) is `str`, both `[]` and `[]=` raise `rb_eArgError` with the message
"No such field" followed in quotes by `str` cut at its first NUL; and a `str`
without a NUL is not cut, so the message then holds the whole string form. -/
theorem struct_field_absent_iff (rb : Ruby) (w : World) (self fieldName rbField : VALUE)
    (s lp : Ref) (st : Struct)
    (hself : Data_Get_Struct w self = .ok s) (hst : w.getStruct s = some st)
    (hl : st.layout = some lp)
    (hlook : struct_layout_aref w (.obj lp) fieldName = (.ok rbField, w)) :
    ((∃ e w1, struct_field rb w s fieldName = (.error e, w1)) ↔ rbField = .Qnil) ∧
    (rbField = .Qnil → ∀ str w2,
      rb.funcall (w.log (.funcall fieldName id_to_s [])) fieldName id_to_s [] =
        (.ok (.str str), w2) →
      struct_get_field rb w self fieldName =
        (.error (.raised .rb_eArgError ("No such field '" ++ cstr str ++ "'")), w2) ∧
      (∀ value, struct_put_field rb w self fieldName value =
        (.error (.raised .rb_eArgError ("No such field '" ++ cstr str ++ "'")), w2)) ∧
      (Char.ofNat 0 ∉ str.toList → cstr str = str)) := by
  refine ⟨⟨?_, ?_⟩, ?_⟩
  · rintro ⟨e, w1, he⟩
    by_contra hne
    rw [struct_field_present rb hst hl hlook hne] at he
    simp at he
  · intro hnil
    subst hnil
    rw [struct_field_absent rb hst hl hlook]
    rcases hcall : rb.funcall (w.log (.funcall fieldName id_to_s [])) fieldName id_to_s []
      with ⟨r, w2⟩
    cases r with
    | error e => exact ⟨e, w2, rfl⟩
    | ok v =>
      cases hv : StringValuePtr v with
      | error e => exact ⟨e, w2, by simp [hv]⟩
      | ok nm =>
        exact ⟨.raised .rb_eArgError ("No such field '" ++ cstr nm ++ "'"), w2,
          by simp [hv, rb_raise]⟩
  · intro hnil str w2 hcall
    subst hnil
    have hfield := struct_field_absent rb hst hl hlook
    simp only [hcall, StringValuePtr, rb_raise] at hfield
    refine ⟨?_, ?_, cstr_no_nul⟩
    · simp [struct_get_field, hself, hfield]
    · intro value
      simp [struct_put_field, hself, hfield]

/-- Witness for the amended C7 in the example world: instance 18 has no field
`zz`, whose string form has no NUL and is in the message whole. -/
theorem struct_field_absent_iff_witness :
    (Data_Get_Struct world0 (.obj 18) = .ok 18 ∧
      world0.getStruct 18 = some ⟨.obj 10, .obj 14, some 10, some 14⟩ ∧
      struct_layout_aref world0 (.obj 14) (.sym "zz") = (.ok .Qnil, world0)) ∧
    struct_get_field rb0 world0 (.obj 18) (.sym "zz") =
      (.error (.raised .rb_eArgError ("No such field '" ++ cstr "zz" ++ "'")),
        world0.log (.funcall (.sym "zz") id_to_s [])) ∧
    struct_put_field rb0 world0 (.obj 18) (.sym "zz") (.int 1) =
      (.error (.raised .rb_eArgError ("No such field '" ++ cstr "zz" ++ "'")),
        world0.log (.funcall (.sym "zz") id_to_s [])) ∧
    cstr "zz" = "zz" :=
  ⟨⟨rfl, rfl, rfl⟩,
    ((struct_field_absent_iff rb0 world0 (.obj 18) (.sym "zz") .Qnil 18 14
      ⟨.obj 10, .obj 14, some 10, some 14⟩ rfl rfl rfl rfl).2 rfl "zz" _ rfl).1,
    ((struct_field_absent_iff rb0 world0 (.obj 18) (.sym "zz") .Qnil 18 14
      ⟨.obj 10, .obj 14, some 10, some 14⟩ rfl rfl rfl rfl).2 rfl "zz" _ rfl).2.1 (.int 1),
    ((struct_field_absent_iff rb0 world0 (.obj 18) (.sym "zz") .Qnil 18 14
      ⟨.obj 10, .obj 14, some 10, some 14⟩ rfl rfl rfl rfl).2 rfl "zz" _ rfl).2.2 (by decide)⟩

/-- C8: evaluation at the failing input.  In the example world instance 18 was
built over layout 14; `layout=` with layout 19 succeeds, stores 19 as the C
layout pointer used for field lookups and as the `@layout` variable, but
leaves `s->rbLayout` alone, so the read accessor `layout` still answers 14. -/
theorem struct_set_layout_accessor_stale :
    rb_obj_is_kind_of world0 (.obj 19) rbffi_StructLayoutClass = true ∧
    (struct_get_layout world0 (.obj 18)).1 = .ok (.obj 14) ∧
    (struct_set_layout world0 (.obj 18) (.obj 19)).1 = .ok (.obj 18) ∧
    ((struct_set_layout world0 (.obj 18) (.obj 19)).2.getStruct 18).map (·.layout) =
      some (some 19) ∧
    ivar_lookup (struct_set_layout world0 (.obj 18) (.obj 19)).2 18 id_layout_ivar =
      some (.obj 19) ∧
    (struct_get_layout (struct_set_layout world0 (.obj 18) (.obj 19)).2 (.obj 18)).1 =
      .ok (.obj 14) := by
  refine ⟨rfl, rfl, rfl, rfl, ?_, rfl⟩
  decide

/-- C10, as stated, fails in the example world: `Point.new` succeeds and its
buffer has an operations table; `pointer=` with the table-less memory object
11 then succeeds too, after which the buffer of the instance has no
operations table, and reading field `x` runs against it (`ptr_get_op` finds
nothing, so the access is handed to the field handler). -/
theorem struct_set_pointer_drops_ops_table :
    (struct_new rb0 world0 8 []).1 = .ok (.obj 24) ∧
    (struct_buffer_ops (struct_new rb0 world0 8 []).2 (.obj 24)).isSome = true ∧
    (struct_set_pointer (struct_new rb0 world0 8 []).2 (.obj 24) (.obj 11)).1 = .ok (.obj 24) ∧
    (struct_buffer_ops
      (struct_set_pointer (struct_new rb0 world0 8 []).2 (.obj 24) (.obj 11)).2
      (.obj 24)).isSome = false ∧
    (struct_get_field rb0
      (struct_set_pointer (struct_new rb0 world0 8 []).2 (.obj 24) (.obj 11)).2
      (.obj 24) (.sym "x")).2.trace =
      [.newMemoryPointer 8 1 true, .funcall (.obj 12) id_get [.obj 11]] := by
  exact ⟨rfl, rfl, rfl, rfl, rfl⟩

/-- C10, amended: the operations table is checked by construction only.
After a successful `initialize` the buffer of the instance exposes an
operations table.  A successful `pointer=` installs its argument unchecked:
the accessor then returns the argument and the buffer exposes exactly the
table (or absence of one) of the argument.  A successful `layout=` keeps the
buffer reference, the buffer pointer, every memory object, raw memory and so
the table.  A fast-path `[]` or `[]=` leaves every object as it was, so keeps
buffer and table.  And `[]` or `[]=` of a name present in the layout, on an
instance whose buffer has no operations table, is no error of its own: it is
the dynamic call `get(rbPointer)` or `put(rbPointer, value)` on the field,
`[]=` answering the instance when that call returns. -/
theorem ops_table_established_and_kept (rb : Ruby) :
    (∀ (w w1 : World) (argv : List VALUE) (self v : VALUE),
      struct_initialize rb w argv self = (.ok v, w1) →
      (struct_buffer_ops w1 self).isSome = true) ∧
    (∀ (w w1 : World) (self pointer v : VALUE),
      struct_set_pointer w self pointer = (.ok v, w1) →
      struct_buffer_ops w1 self = memory_ops w pointer ∧
      struct_get_pointer w1 self = (.ok pointer, w1)) ∧
    (∀ (w w1 : World) (self layout v : VALUE),
      struct_set_layout w self layout = (.ok v, w1) →
      struct_buffer_ops w1 self = struct_buffer_ops w self ∧
      (∃ s st st1, self = .obj s ∧ w.getStruct s = some st ∧ w1.getStruct s = some st1 ∧
        st1.rbPointer = st.rbPointer ∧ st1.pointer = st.pointer ∧
        struct_get_pointer w self = (.ok st.rbPointer, w) ∧
        struct_get_pointer w1 self = (.ok st.rbPointer, w1)) ∧
      (∀ r, w1.getMemory r = w.getMemory r) ∧ w1.ram = w.ram) ∧
    (∀ (w : World) (self fieldName value : VALUE) (s lp fr mp : Ref) (st : Struct)
      (f : StructField) (m : AbstractMemory) (op : MemoryOp),
      Data_Get_Struct w self = .ok s → w.getStruct s = some st → st.layout = some lp →
      struct_layout_aref w (.obj lp) fieldName = (.ok (.obj fr), w) →
      w.getField fr = some f → st.pointer = some mp → w.getMemory mp = some m →
      ptr_get_op (some m) f.type = some op →
      (struct_get_field rb w self fieldName).2.heap = w.heap ∧
      (struct_put_field rb w self fieldName value).2.heap = w.heap ∧
      struct_buffer_ops (struct_get_field rb w self fieldName).2 self = struct_buffer_ops w self ∧
      struct_buffer_ops (struct_put_field rb w self fieldName value).2 self =
        struct_buffer_ops w self) ∧
    (∀ (w : World) (self fieldName value : VALUE) (s lp fr mp : Ref) (st : Struct)
      (f : StructField) (m : AbstractMemory),
      Data_Get_Struct w self = .ok s → w.getStruct s = some st → st.layout = some lp →
      struct_layout_aref w (.obj lp) fieldName = (.ok (.obj fr), w) →
      w.getField fr = some f → st.pointer = some mp → w.getMemory mp = some m →
      m.ops = none →
      struct_buffer_ops w self = none ∧
      struct_get_field rb w self fieldName =
        rb.funcall (w.log (.funcall (.obj fr) id_get [st.rbPointer])) (.obj fr) id_get
          [st.rbPointer] ∧
      struct_put_field rb w self fieldName value =
        ((rb.funcall (w.log (.funcall (.obj fr) id_put [st.rbPointer, value])) (.obj fr) id_put
            [st.rbPointer, value]).1.map (fun _ => self),
          (rb.funcall (w.log (.funcall (.obj fr) id_put [st.rbPointer, value])) (.obj fr) id_put
            [st.rbPointer, value]).2)) := by
  refine ⟨?_, ?_, ?_, ?_, ?_⟩
  · intro w w1 argv self v h
    obtain ⟨s, st, m, hself, _, hst, hm, hops⟩ := struct_initialize_ok_final h
    obtain ⟨mp, hp, hmp⟩ := loadMemory_some hm
    subst hself
    simp [struct_buffer_ops, DATA_PTR, hst, hp, hmp, hops]
  · intro w w1 self pointer v h
    obtain ⟨s, mp, st, hself, hp, _, hst, _, hw⟩ := struct_set_pointer_ok h
    have hst1 : w1.getStruct s = some { st with pointer := some mp, rbPointer := pointer } := by
      rw [hw, getStruct_ivar_set, getStruct_modStruct_same, getStruct_modStruct_same, hst]
      rfl
    constructor
    · subst hself hp hw
      simp [struct_buffer_ops, memory_ops, DATA_PTR, getStruct_ivar_set, getMemory_ivar_set,
        getStruct_modStruct_same, getMemory_modStruct, hst]
    · subst hself
      rw [struct_get_pointer_run (getStruct_data hst1) hst1]
  · intro w w1 self layout v h
    obtain ⟨s, lp, st, hself, hl, _, hst, _, hw⟩ := struct_set_layout_ok h
    have hst1 : w1.getStruct s = some { st with layout := some lp } := by
      rw [hw, getStruct_ivar_set, getStruct_modStruct_same, hst]
      rfl
    refine ⟨?_, ⟨s, st, _, hself, hst, hst1, rfl, rfl, ?_, ?_⟩, ?_, ?_⟩
    · subst hself hl hw
      simp [struct_buffer_ops, DATA_PTR, getStruct_ivar_set, getMemory_ivar_set,
        getStruct_modStruct_same, getMemory_modStruct, hst]
    · subst hself
      rw [struct_get_pointer_run (getStruct_data hst) hst]
    · subst hself
      rw [struct_get_pointer_run (getStruct_data hst1) hst1]
    · intro r
      rw [hw, getMemory_ivar_set, getMemory_modStruct]
    · rw [hw, (ivar_set_rest _ _ _ _).1, (modStruct_rest _ _ _).1]
  · intro w self fieldName value s lp fr mp st f m op hself hst hl hlook hf hp hm hop
    have hg : (struct_get_field rb w self fieldName).2.heap = w.heap := by
      rw [struct_get_field_fast rb w self fieldName hself hst hl hlook hf hp hm hop]
      rfl
    have hpt : (struct_put_field rb w self fieldName value).2.heap = w.heap := by
      rw [struct_put_field_fast rb w self fieldName value hself hst hl hlook hf hp hm hop]
      rfl
    exact ⟨hg, hpt, struct_buffer_ops_heap self hg, struct_buffer_ops_heap self hpt⟩
  · intro w self fieldName value s lp fr mp st f m hself hst hl hlook hf hp hm hops
    have hop := ptr_get_op_no_table hops f.type
    refine ⟨?_, struct_get_field_slow rb w self fieldName hself hst hl hlook hf hp hm hop,
      struct_put_field_slow rb w self fieldName value hself hst hl hlook hf hp hm hop⟩
    obtain ⟨hs, _⟩ := Data_Get_Struct_ok hself
    subst hs
    simp [struct_buffer_ops, DATA_PTR, hst, hp, hm, hops]

/-- Witness for the amended C10 in the example world: `Point.new` establishes
the table; on instance 18 `pointer=` with the table-less memory 11 leaves no
table, `layout=` with layout 19 and a fast-path access of `x` keep the table;
and after that `pointer=` reading `x` is the dynamic call `get` on field 12
with the buffer 11. -/
theorem ops_table_established_and_kept_witness :
    (struct_buffer_ops (struct_new rb0 world0 8 []).2 (.obj 24)).isSome = true ∧
    struct_buffer_ops (struct_set_pointer world0 (.obj 18) (.obj 11)).2 (.obj 18) =
      memory_ops world0 (.obj 11) ∧
    struct_buffer_ops (struct_set_layout world0 (.obj 18) (.obj 19)).2 (.obj 18) =
      struct_buffer_ops world0 (.obj 18) ∧
    struct_buffer_ops (struct_get_field rb0 world0 (.obj 18) (.sym "x")).2 (.obj 18) =
      struct_buffer_ops world0 (.obj 18) ∧
    struct_buffer_ops (struct_put_field rb0 world0 (.obj 18) (.sym "x") (.int 7)).2 (.obj 18) =
      struct_buffer_ops world0 (.obj 18) ∧
    struct_get_field rb0 (struct_set_pointer world0 (.obj 18) (.obj 11)).2 (.obj 18) (.sym "x") =
      rb0.funcall
        ((struct_set_pointer world0 (.obj 18) (.obj 11)).2.log
          (.funcall (.obj 12) id_get [.obj 11]))
        (.obj 12) id_get [.obj 11] :=
  ⟨(ops_table_established_and_kept rb0).1 (struct_allocate world0 8).2
      (struct_new rb0 world0 8 []).2 [] (.obj 24) (.obj 24) (Prod.ext rfl rfl),
    ((ops_table_established_and_kept rb0).2.1 world0
      (struct_set_pointer world0 (.obj 18) (.obj 11)).2 (.obj 18) (.obj 11) (.obj 18)
      (Prod.ext rfl rfl)).1,
    ((ops_table_established_and_kept rb0).2.2.1 world0
      (struct_set_layout world0 (.obj 18) (.obj 19)).2 (.obj 18) (.obj 19) (.obj 18)
      (Prod.ext rfl rfl)).1,
    ((ops_table_established_and_kept rb0).2.2.2.1 world0 (.obj 18) (.sym "x") (.int 7) 18 14 12
      10 ⟨.obj 10, .obj 14, some 10, some 14⟩ ⟨0, .Qnil, some ⟨.NATIVE_INT8⟩⟩
      ⟨100, 16, some byteOps⟩ byteOp rfl rfl rfl rfl rfl rfl rfl rfl).2.2.1,
    ((ops_table_established_and_kept rb0).2.2.2.1 world0 (.obj 18) (.sym "x") (.int 7) 18 14 12
      10 ⟨.obj 10, .obj 14, some 10, some 14⟩ ⟨0, .Qnil, some ⟨.NATIVE_INT8⟩⟩
      ⟨100, 16, some byteOps⟩ byteOp rfl rfl rfl rfl rfl rfl rfl rfl).2.2.2,
    ((ops_table_established_and_kept rb0).2.2.2.2
      (struct_set_pointer world0 (.obj 18) (.obj 11)).2 (.obj 18) (.sym "x") (.int 7) 18 14 12
      11 ⟨.obj 11, .obj 14, some 11, some 14⟩ ⟨0, .Qnil, some ⟨.NATIVE_INT8⟩⟩
      ⟨200, 16, none⟩ rfl rfl rfl (Prod.ext rfl rfl) rfl rfl rfl rfl).2.1⟩

/-- C4: for a layout successfully built from the name array `names` and the
mapping `M`, the lookup `[]` of every name in `names` returns exactly the
descriptor `M` holds for it, and the lookup of every name that is not in
`names` returns the absent indicator `Qnil`, whether or not `M` has it. -/
theorem struct_layout_aref_after_build (w w1 : World)
    (self field_names fields size align v : VALUE)
    (names : List VALUE) (M : List (VALUE × VALUE))
    (hN : RARRAY_PTR w field_names = some names) (hM : hash_entries w fields = some M)
    (hbuild : struct_layout_initialize w self field_names fields size align = (.ok v, w1)) :
    (∀ n ∈ names, struct_layout_aref w1 v n = (.ok (st_lookup n M), w1)) ∧
    (∀ n, n ∉ names → struct_layout_aref w1 v n = (.ok .Qnil, w1)) := by
  obtain ⟨lp, a, h, hself, hv, _, hinv⟩ := layout_initialize_inv hN hM hbuild
  subst hself
  subst hv
  constructor
  · intro n hn
    rw [struct_layout_aref_of_inv hinv, st_lookup_build_map]
    simp [hn]
  · intro n hn
    rw [struct_layout_aref_of_inv hinv, st_lookup_build_map]
    simp [hn, st_lookup]

/-- Witness for C4 in the example world: layout 21 built from the names
`[:x, :y]` (array 16) and the mapping 17, which also has `:z`. -/
theorem struct_layout_aref_after_build_witness :
    (RARRAY_PTR world0 (.obj 16) = some [.sym "x", .sym "y"] ∧
      hash_entries world0 (.obj 17) =
        some [(.sym "x", .obj 12), (.sym "y", .obj 13), (.sym "z", .obj 12)] ∧
      ( struct_layout_initialize world0 (.obj 21) (.obj 16) (.obj 17) (.int 8) (.int 1)).1 =
        .ok (.obj 21)) ∧
    struct_layout_aref
        ( struct_layout_initialize world0 (.obj 21) (.obj 16) (.obj 17) (.int 8) (.int 1)).2
        (.obj 21) (.sym "y") =
      (.ok (.obj 13),
        ( struct_layout_initialize world0 (.obj 21) (.obj 16) (.obj 17) (.int 8) (.int 1)).2) ∧
    struct_layout_aref
        ( struct_layout_initialize world0 (.obj 21) (.obj 16) (.obj 17) (.int 8) (.int 1)).2
        (.obj 21) (.sym "z") =
      (.ok .Qnil,
        ( struct_layout_initialize world0 (.obj 21) (.obj 16) (.obj 17) (.int 8) (.int 1)).2) :=
  ⟨⟨rfl, rfl, rfl⟩,
    (struct_layout_aref_after_build world0 _ (.obj 21) (.obj 16) (.obj 17) (.int 8) (.int 1)
      (.obj 21) [.sym "x", .sym "y"]
      [(.sym "x", .obj 12), (.sym "y", .obj 13), (.sym "z", .obj 12)] rfl rfl
      (Prod.ext rfl rfl)).1 (.sym "y") (by decide),
    (struct_layout_aref_after_build world0 _ (.obj 21) (.obj 16) (.obj 17) (.int 8) (.int 1)
      (.obj 21) [.sym "x", .sym "y"]
      [(.sym "x", .obj 12), (.sym "y", .obj 13), (.sym "z", .obj 12)] rfl rfl
      (Prod.ext rfl rfl)).2 (.sym "z") (by decide)⟩

/-- C5, as stated, fails in the example world: the name array 23 is
`[:x, :q]` and the mapping 17 has no entry for `:q`, yet with the size
`2147483648` construction does not fail with the invalid-field error: the
`NUM2INT` conversion of the size raises RangeError before any name is looked
at. -/
theorem struct_layout_initialize_range_error :
    RARRAY_PTR world0 (.obj 23) = some [.sym "x", .sym "q"] ∧
    rb_hash_aref world0 (.obj 17) (.sym "q") = some .Qnil ∧
    ( struct_layout_initialize world0 (.obj 21) (.obj 23) (.obj 17) (.int 2147483648) (.int 1)).1 =
      .error (.raised .rb_eRangeError "integer out of range of int") ∧
    ( struct_layout_initialize world0 (.obj 21) (.obj 23) (.obj 17) (.int 2147483648) (.int 1)).1 ≠
      .error (.raised .rb_eArgError "Invalid field") := by
  refine ⟨rfl, rfl, rfl, ?_⟩
  intro h
  have h1 : ( struct_layout_initialize world0 (.obj 21) (.obj 23) (.obj 17) (.int 2147483648)
      (.int 1)).1 = .error (.raised .rb_eRangeError "integer out of range of int") := rfl
  rw [h1] at h
  simp at h

/-- C5, amended: for a layout object, a name array `names` and a mapping `M`,
a size or alignment that `NUM2INT` does not convert makes construction fail
with that conversion error; when both convert, construction fails with the
invalid-field error (`rb_eArgError`, "Invalid field", the configuration error
of the spec) if and only if some name in `names` has no entry in `M` or maps
to a value that is not a valid field descriptor (a missing entry reads as
`Qnil`, which is not one), and it returns the layout if and only if every name
maps to a valid field descriptor; a failing construction returns no layout. -/
theorem struct_layout_initialize_fails_iff (w : World)
    (self field_names fields size align : VALUE) (lp : Ref) (l0 : StructLayout)
    (names : List VALUE) (M : List (VALUE × VALUE))
    (hself : Data_Get_Struct w self = .ok lp) (hl0 : w.getLayout lp = some l0)
    (hN : RARRAY_PTR w field_names = some names) (hM : hash_entries w fields = some M) :
    is_struct_field w .Qnil = false ∧
    (∀ e, NUM2INT size = .error e →
      ( struct_layout_initialize w self field_names fields size align).1 = .error e) ∧
    (∀ sz e, NUM2INT size = .ok sz → NUM2INT align = .error e →
      ( struct_layout_initialize w self field_names fields size align).1 = .error e) ∧
    (∀ sz al, NUM2INT size = .ok sz → NUM2INT align = .ok al →
      (( struct_layout_initialize w self field_names fields size align).1 =
          .error (.raised .rb_eArgError "Invalid field") ↔
        ∃ n ∈ names, is_struct_field w (st_lookup n M) = false) ∧
      (( struct_layout_initialize w self field_names fields size align).1 = .ok self ↔
        ∀ n ∈ names, is_struct_field w (st_lookup n M) = true)) := by
  obtain ⟨a, ha, hNb⟩ := RARRAY_PTR_body hN
  obtain ⟨h, hh, hMb⟩ := hash_entries_body hM
  have hs := (Data_Get_Struct_ok hself).1
  subst ha hh hs
  refine ⟨rfl, ?_, ?_, ?_⟩
  · intro e he
    simp [ struct_layout_initialize, hself, hl0, he]
  · intro sz e hsz he
    simp [ struct_layout_initialize, hself, hl0, hsz, he]
  · intro sz al hsz hal
    have hspec := layout_initialize_spec w lp a h size align names M sz al l0
      (body_of_getLayout hl0) hNb hMb hsz hal
    by_cases hall : ∀ n ∈ names, is_struct_field w (st_lookup n M) = true
    · obtain ⟨w1, hres, _⟩ := hspec.1 hall
      rw [hres]
      constructor
      · constructor
        · intro hc; simp at hc
        · rintro ⟨n, hn, hb⟩
          rw [hall n hn] at hb
          simp at hb
      · exact ⟨fun _ => hall, fun _ => rfl⟩
    · have hbad := not_all_fields hall
      obtain ⟨w1, hres⟩ := hspec.2 hbad
      rw [hres]
      constructor
      · exact ⟨fun _ => hbad, fun _ => rfl⟩
      · constructor
        · intro hc; simp at hc
        · intro hc; exact absurd hc hall

/-- Witness for the amended C5 in the example world, on the fresh layout
object 21 and the mapping 17: the names `[:x, :q]` (array 23) fail with the
invalid-field error, the names `[:x, :y]` (array 16) return the layout. -/
theorem struct_layout_initialize_fails_iff_witness :
    (Data_Get_Struct world0 (.obj 21) = .ok 21 ∧
      world0.getLayout 21 = some ⟨.Qnil, 0, 0, 0, []⟩ ∧
      RARRAY_PTR world0 (.obj 23) = some [.sym "x", .sym "q"] ∧
      RARRAY_PTR world0 (.obj 16) = some [.sym "x", .sym "y"] ∧
      hash_entries world0 (.obj 17) =
        some [(.sym "x", .obj 12), (.sym "y", .obj 13), (.sym "z", .obj 12)]) ∧
    ( struct_layout_initialize world0 (.obj 21) (.obj 23) (.obj 17) (.int 8) (.int 1)).1 =
      .error (.raised .rb_eArgError "Invalid field") ∧
    ( struct_layout_initialize world0 (.obj 21) (.obj 16) (.obj 17) (.int 8) (.int 1)).1 =
      .ok (.obj 21) :=
  ⟨⟨rfl, rfl, rfl, rfl, rfl⟩,
    ((struct_layout_initialize_fails_iff world0 (.obj 21) (.obj 23) (.obj 17) (.int 8) (.int 1)
      21 ⟨.Qnil, 0, 0, 0, []⟩ [.sym "x", .sym "q"]
      [(.sym "x", .obj 12), (.sym "y", .obj 13), (.sym "z", .obj 12)] rfl rfl rfl rfl).2.2.2
      8 1 rfl rfl).1.2 ⟨.sym "q", by decide, rfl⟩,
    ((struct_layout_initialize_fails_iff world0 (.obj 21) (.obj 16) (.obj 17) (.int 8) (.int 1)
      21 ⟨.Qnil, 0, 0, 0, []⟩ [.sym "x", .sym "y"]
      [(.sym "x", .obj 12), (.sym "y", .obj 13), (.sym "z", .obj 12)] rfl rfl rfl rfl).2.2.2
      8 1 rfl rfl).2.2 (by
        intro n hn
        simp only [List.mem_cons, List.mem_singleton, List.not_mem_nil, or_false] at hn
        rcases hn with h | h <;> subst h <;> rfl)⟩

/-- C9, as stated, fails in the example world: the name array 22 repeats a
name (`[:x, :x]`); construction succeeds, the ordered field array has two
entries and the name-to-descriptor map has one. -/
theorem struct_layout_repeated_name_lengths :
    RARRAY_PTR world0 (.obj 22) = some [.sym "x", .sym "x"] ∧
    ( struct_layout_initialize world0 (.obj 21) (.obj 22) (.obj 17) (.int 8) (.int 1)).1 =
      .ok (.obj 21) ∧
    (( struct_layout_initialize world0 (.obj 21) (.obj 22) (.obj 17) (.int 8) (.int 1)).2.getLayout
      21).map (fun l => (l.fieldCount, l.fields, l.rbFieldMap)) =
      some (2, [some 12, some 12], .obj 24) ∧
    hash_entries
      ( struct_layout_initialize world0 (.obj 21) (.obj 22) (.obj 17) (.int 8) (.int 1)).2
      (.obj 24) = some [(.sym "x", .obj 12)] :=
  ⟨rfl, rfl, rfl, rfl⟩

/-- C9, amended: every layout successfully built from the name array `names`
and the mapping `M` has an ordered field array with one entry per listed
name, in order (so as long as `names`), and a name-to-descriptor map with one
entry per distinct name; the two have the same length when no name is
repeated, and every descriptor the map holds also occurs in the ordered
array. -/
theorem struct_layout_built_shape (w w1 : World)
    (self field_names fields size align v : VALUE)
    (names : List VALUE) (M : List (VALUE × VALUE))
    (hN : RARRAY_PTR w field_names = some names) (hM : hash_entries w fields = some M)
    (hbuild : struct_layout_initialize w self field_names fields size align = (.ok v, w1)) :
    ∃ lp l E, v = .obj lp ∧ w1.getLayout lp = some l ∧ hash_entries w1 l.rbFieldMap = some E ∧
      l.fields = names.map (fun n => DATA_PTR (st_lookup n M)) ∧
      l.fields.length = names.length ∧
      E.length = names.dedup.length ∧
      (names.Nodup → l.fields.length = E.length) ∧
      (∀ k d, (k, d) ∈ E → ∃ r, d = .obj r ∧ some r ∈ l.fields) := by
  obtain ⟨lp, a, h, hself, hv, hall, hinv⟩ := layout_initialize_inv hN hM hbuild
  obtain ⟨l, hl, hlm, hlf⟩ := hinv.lay
  refine ⟨lp, l, build_map M names [], by rw [hv, hself], getLayout_of_body hl, ?_, hlf, ?_, ?_,
    ?_, ?_⟩
  · rw [hlm]; exact hash_entries_of_body hinv.map
  · rw [hlf, List.length_map]
  · exact build_map_length M names
  · intro hnd
    rw [hlf, List.length_map, build_map_length, List.Nodup.dedup hnd]
  · intro k d hkd
    rcases build_map_mem M (k, d) names [] hkd with hc | ⟨hk, hd⟩
    · simp at hc
    · simp only at hk hd
      obtain ⟨r, hr, _⟩ := is_struct_field_obj (hall k hk)
      refine ⟨r, by rw [hd, hr], ?_⟩
      rw [hlf, List.mem_map]
      exact ⟨k, hk, by rw [hr]; rfl⟩

/-- Witness for the amended C9 in the example world: layout 21 built from the
names `[:x, :y]` (array 16) and the mapping 17. -/
theorem struct_layout_built_shape_witness :
    (RARRAY_PTR world0 (.obj 16) = some [.sym "x", .sym "y"] ∧
      hash_entries world0 (.obj 17) =
        some [(.sym "x", .obj 12), (.sym "y", .obj 13), (.sym "z", .obj 12)] ∧
      ( struct_layout_initialize world0 (.obj 21) (.obj 16) (.obj 17) (.int 8) (.int 1)).1 =
        .ok (.obj 21)) ∧
    ∃ lp l E, VALUE.obj 21 = .obj lp ∧
      ( struct_layout_initialize world0 (.obj 21) (.obj 16) (.obj 17) (.int 8) (.int 1)).2.getLayout
        lp = some l ∧
      hash_entries
        ( struct_layout_initialize world0 (.obj 21) (.obj 16) (.obj 17) (.int 8) (.int 1)).2
        l.rbFieldMap = some E ∧
      l.fields = [VALUE.sym "x", VALUE.sym "y"].map (fun n => DATA_PTR (st_lookup n
        [(VALUE.sym "x", VALUE.obj 12), (VALUE.sym "y", VALUE.obj 13),
          (VALUE.sym "z", VALUE.obj 12)])) ∧
      l.fields.length = [VALUE.sym "x", VALUE.sym "y"].length ∧
      E.length = [VALUE.sym "x", VALUE.sym "y"].dedup.length ∧
      (([VALUE.sym "x", VALUE.sym "y"] : List VALUE).Nodup → l.fields.length = E.length) ∧
      (∀ k d, (k, d) ∈ E → ∃ r, d = .obj r ∧ some r ∈ l.fields) :=
  ⟨⟨rfl, rfl, rfl⟩,
    struct_layout_built_shape world0 _ (.obj 21) (.obj 16) (.obj 17) (.int 8) (.int 1) (.obj 21)
      [.sym "x", .sym "y"] [(.sym "x", .obj 12), (.sym "y", .obj 13), (.sym "z", .obj 12)]
      rfl rfl (Prod.ext rfl rfl)⟩

/-- C11: for every struct instance and every argument that fails the
memory-region kind check, `pointer=` raises `rb_eArgError` ("Invalid pointer")
and leaves the state exactly as it was: the `pointer` and `layout` accessors
answer as before, and every later `[]` and `[]=` behaves as it would have
without the call (same buffer, same layout). -/
theorem struct_set_pointer_rejects_unchanged (rb : Ruby) (w : World) (self pointer : VALUE)
    (hk : rb_obj_is_kind_of w pointer rbffi_AbstractMemoryClass = false) :
    struct_set_pointer w self pointer = (.error (.raised .rb_eArgError "Invalid pointer"), w) ∧
    struct_get_pointer (struct_set_pointer w self pointer).2 self = struct_get_pointer w self ∧
    struct_get_layout (struct_set_pointer w self pointer).2 self = struct_get_layout w self ∧
    (∀ name, struct_get_field rb (struct_set_pointer w self pointer).2 self name =
      struct_get_field rb w self name) ∧
    (∀ name v, struct_put_field rb (struct_set_pointer w self pointer).2 self name v =
      struct_put_field rb w self name v) := by
  have h : struct_set_pointer w self pointer =
      (.error (.raised .rb_eArgError "Invalid pointer"), w) := by
    simp [struct_set_pointer, hk, rb_raise]
  rw [h]
  exact ⟨rfl, rfl, rfl, fun _ => rfl, fun _ _ => rfl⟩

/-- Witness for C11 in the example world: the field object 12 is no memory
object; `pointer=` on instance 18 rejects it and the buffer stays 10. -/
theorem struct_set_pointer_rejects_unchanged_witness :
    rb_obj_is_kind_of world0 (.obj 12) rbffi_AbstractMemoryClass = false ∧
    struct_set_pointer world0 (.obj 18) (.obj 12) =
      (.error (.raised .rb_eArgError "Invalid pointer"), world0) ∧
    (struct_get_pointer (struct_set_pointer world0 (.obj 18) (.obj 12)).2 (.obj 18)).1 =
      .ok (.obj 10) :=
  ⟨rfl, (struct_set_pointer_rejects_unchanged rb0 world0 (.obj 18) (.obj 12) rfl).1,
    ((struct_set_pointer_rejects_unchanged rb0 world0 (.obj 18) (.obj 12) rfl).2.1).symm ▸ rfl⟩

/-- C18: for every struct instance and every argument `p` that passes the
memory-region check, `pointer=(p)` succeeds and replaces the backing buffer
and nothing else: afterwards the `pointer` accessor returns `p` and the C
buffer pointer is its payload, the `layout` accessor returns what it returned
before, the layout pointer is the same, every layout, field and memory
payload and every layout lookup is as before, and raw memory, the allocation
mark and the trace of outgoing calls are untouched (nothing is revalidated or
recomputed). -/
theorem struct_set_pointer_replaces_buffer_only (w : World) (self pointer : VALUE)
    (s mp : Ref) (st : Struct)
    (hself : Data_Get_Struct w self = .ok s) (hst : w.getStruct s = some st)
    (hmem : MEMORY w pointer = .ok mp) :
    ∃ w1, struct_set_pointer w self pointer = (.ok self, w1) ∧
      struct_get_pointer w1 self = (.ok pointer, w1) ∧
      struct_get_layout w self = (.ok st.rbLayout, w) ∧
      struct_get_layout w1 self = (.ok st.rbLayout, w1) ∧
      w1.getStruct s = some { st with pointer := some mp, rbPointer := pointer } ∧
      (∀ r, w1.getLayout r = w.getLayout r) ∧ (∀ r, w1.getField r = w.getField r) ∧
      (∀ r, w1.getMemory r = w.getMemory r) ∧
      (∀ l n, struct_layout_aref w1 l n = ((struct_layout_aref w l n).1, w1)) ∧
      w1.ram = w.ram ∧ w1.brk = w.brk ∧ w1.trace = w.trace := by
  obtain ⟨w1, hrun, hfr, hst1, hram, hbrk, htr⟩ := struct_set_pointer_run hself hst hmem
  have hself1 : Data_Get_Struct w1 self = .ok s := by rw [hfr.Data_Get_Struct]; exact hself
  exact ⟨w1, hrun, struct_get_pointer_run hself1 hst1, struct_get_layout_run hself hst,
    by rw [struct_get_layout_run hself1 hst1], hst1, hfr.getLayout, hfr.getField, hfr.getMemory,
    hfr.struct_layout_aref, hram, hbrk, htr⟩

/-- Witness for C18 in the example world: `pointer=` on instance 18 with the
memory object 11. -/
theorem struct_set_pointer_replaces_buffer_only_witness :
    (Data_Get_Struct world0 (.obj 18) = .ok 18 ∧
      world0.getStruct 18 = some ⟨.obj 10, .obj 14, some 10, some 14⟩ ∧
      MEMORY world0 (.obj 11) = .ok 11) ∧
    ∃ w1, struct_set_pointer world0 (.obj 18) (.obj 11) = (.ok (.obj 18), w1) ∧
      struct_get_pointer w1 (.obj 18) = (.ok (.obj 11), w1) ∧
      struct_get_layout world0 (.obj 18) = (.ok (.obj 14), world0) ∧
      struct_get_layout w1 (.obj 18) = (.ok (.obj 14), w1) ∧
      w1.getStruct 18 = some ⟨.obj 11, .obj 14, some 11, some 14⟩ ∧
      (∀ r, w1.getLayout r = world0.getLayout r) ∧ (∀ r, w1.getField r = world0.getField r) ∧
      (∀ r, w1.getMemory r = world0.getMemory r) ∧
      (∀ l n, struct_layout_aref w1 l n = ((struct_layout_aref world0 l n).1, w1)) ∧
      w1.ram = world0.ram ∧ w1.brk = world0.brk ∧ w1.trace = world0.trace :=
  ⟨⟨rfl, rfl, rfl⟩,
    struct_set_pointer_replaces_buffer_only world0 (.obj 18) (.obj 11) 18 11
      ⟨.obj 10, .obj 14, some 10, some 14⟩ rfl rfl rfl⟩

/-- C19: for every struct instance, after `layout=(L)` succeeds for a layout
`L` the field lookup of `[]` and `[]=` resolves names against `L`: a name `L`
has yields the descriptor `L` holds (with its offset and type), a name `L`
lacks fails even if the old layout had it; the buffer reference, the buffer
pointer, every memory and field payload and raw memory are unchanged.  For an
argument that is not a layout, `layout=` raises `rb_eArgError`
("Invalid Struct layout") and leaves the state, hence the layout used for
lookups and the buffer, as it was. -/
theorem struct_set_layout_switches_lookup (rb : Ruby) (w : World) (self layout : VALUE)
    (s : Ref) (st : Struct)
    (hself : Data_Get_Struct w self = .ok s) (hst : w.getStruct s = some st) :
    (∀ lp, rb_obj_is_kind_of w layout rbffi_StructLayoutClass = true →
      Data_Get_Struct w layout = .ok lp →
      ∃ w1, struct_set_layout w self layout = (.ok self, w1) ∧
        w1.getStruct s = some { st with layout := some lp } ∧
        (∀ name rbField, struct_layout_aref w layout name = (.ok rbField, w) →
          rbField ≠ .Qnil → struct_field rb w1 s name = (.ok rbField, w1)) ∧
        (∀ name, struct_layout_aref w layout name = (.ok .Qnil, w) →
          ∃ e w2, struct_field rb w1 s name = (.error e, w2)) ∧
        (∀ r, w1.getField r = w.getField r) ∧ (∀ r, w1.getMemory r = w.getMemory r) ∧
        (∀ r, w1.getLayout r = w.getLayout r) ∧
        struct_get_pointer w1 self = (.ok st.rbPointer, w1) ∧
        w1.ram = w.ram ∧ w1.brk = w.brk ∧ w1.trace = w.trace) ∧
    (rb_obj_is_kind_of w layout rbffi_StructLayoutClass = false →
      struct_set_layout w self layout =
        (.error (.raised .rb_eArgError "Invalid Struct layout"), w)) := by
  constructor
  · intro lp hk hlp
    obtain ⟨w1, hrun, hfr, hst1, hram, hbrk, htr⟩ := struct_set_layout_run hself hst hk hlp
    have hself1 : Data_Get_Struct w1 self = .ok s := by rw [hfr.Data_Get_Struct]; exact hself
    have hL := (Data_Get_Struct_ok hlp).1
    subst hL
    refine ⟨w1, hrun, hst1, ?_, ?_, hfr.getField, hfr.getMemory, hfr.getLayout,
      by rw [struct_get_pointer_run hself1 hst1], hram, hbrk, htr⟩
    · intro name rbField hlook hne
      apply struct_field_present rb hst1 rfl _ hne
      rw [hfr.struct_layout_aref, hlook]
    · intro name hlook
      apply struct_field_absent_fails rb hst1 rfl
      rw [hfr.struct_layout_aref, hlook]
  · intro hk
    simp [struct_set_layout, hself, hk, rb_raise]

/-- Witness for C19 in the example world: instance 18 over layout 14
(`x`, `y`) gets layout 19 (`x` only, mapped to field 13); afterwards `x`
resolves to field 13 and `y` is no field; the integer 5 is rejected. -/
theorem struct_set_layout_switches_lookup_witness :
    (Data_Get_Struct world0 (.obj 18) = .ok 18 ∧
      world0.getStruct 18 = some ⟨.obj 10, .obj 14, some 10, some 14⟩ ∧
      rb_obj_is_kind_of world0 (.obj 19) rbffi_StructLayoutClass = true ∧
      Data_Get_Struct world0 (.obj 19) = .ok 19 ∧
      struct_layout_aref world0 (.obj 14) (.sym "y") = (.ok (.obj 13), world0)) ∧
    (∃ w1, struct_set_layout world0 (.obj 18) (.obj 19) = (.ok (.obj 18), w1) ∧
      struct_field rb0 w1 18 (.sym "x") = (.ok (.obj 13), w1) ∧
      (∃ e w2, struct_field rb0 w1 18 (.sym "y") = (.error e, w2)) ∧
      struct_get_pointer w1 (.obj 18) = (.ok (.obj 10), w1) ∧ w1.ram = world0.ram) ∧
    struct_set_layout world0 (.obj 18) (.int 5) =
      (.error (.raised .rb_eArgError "Invalid Struct layout"), world0) :=
  ⟨⟨rfl, rfl, rfl, rfl, rfl⟩,
    (let ⟨w1, h1, _, h3, h4, _, _, _, h8, h9, _, _⟩ :=
      (struct_set_layout_switches_lookup rb0 world0 (.obj 18) (.obj 19) 18
        ⟨.obj 10, .obj 14, some 10, some 14⟩ rfl rfl).1 19 rfl rfl
     ⟨w1, h1, h3 (.sym "x") (.obj 13) rfl (by simp), h4 (.sym "y") rfl, h8, h9⟩),
    (struct_set_layout_switches_lookup rb0 world0 (.obj 18) (.int 5) 18
      ⟨.obj 10, .obj 14, some 10, some 14⟩ rfl rfl).2 rfl⟩

/-- C12: round trip through a primitive field.  For a field descriptor with
offset `o` whose type selects the op pair `op` of a buffer (`ptr_get_op`
finds it, so the type is one of the twelve primitive tags), and an op pair
that satisfies get-after-put at `o` on that buffer, a `Field#put(buffer, v)`
that returns is followed by a `Field#get(buffer)` that returns `v`; likewise,
on a struct instance over that buffer whose layout holds the descriptor under
`name`, a `[]=` of `v` that returns is followed by a `[]` that returns `v`:
both apply the same op pair to the same buffer at the same offset. -/
theorem primitive_field_round_trip (rb : Ruby) (w : World)
    (self fieldName pointer field value : VALUE) (s lp fr mr : Ref) (st : Struct)
    (f : StructField) (m : AbstractMemory) (op : MemoryOp)
    (hfield : Data_Get_Struct w field = .ok fr) (hf : w.getField fr = some f)
    (hmem : MEMORY w pointer = .ok mr) (hm : w.getMemory mr = some m)
    (hop : ptr_get_op (some m) f.type = some op)
    (hrt : ∀ ram : Ram, (op.put ram m.region f.offset value).1 = .ok () →
      op.get (op.put ram m.region f.offset value).2 m.region f.offset = .ok value)
    (hself : Data_Get_Struct w self = .ok s) (hst : w.getStruct s = some st)
    (hl : st.layout = some lp)
    (hlook : struct_layout_aref w (.obj lp) fieldName = (.ok field, w))
    (hp : st.pointer = some mr) :
    ((struct_field_put w field pointer value).1 = .ok field →
      (struct_field_get (struct_field_put w field pointer value).2 field pointer).1 =
        .ok value) ∧
    ((struct_put_field rb w self fieldName value).1 = .ok self →
      (struct_get_field rb (struct_put_field rb w self fieldName value).2 self fieldName).1 =
        .ok value) := by
  have hfr := (Data_Get_Struct_ok hfield).1
  subst hfr
  have hputok : ∀ {α : Type} (x : α),
      ((op.put w.ram m.region f.offset value).1.map (fun _ => x)) = .ok x →
      (op.put w.ram m.region f.offset value).1 = .ok () := by
    intro α x hx
    cases hr : (op.put w.ram m.region f.offset value).1 with
    | error e => rw [hr] at hx; simp [Except.map] at hx
    | ok u => rfl
  constructor
  · intro hok
    have hrun := struct_field_put_run w (.obj fr) pointer value hmem hm hfield hf
    simp only [hop] at hrun
    rw [hrun] at hok ⊢
    have hget := struct_field_get_run
      { w.log (.opPut mr f.offset value) with
        ram := (op.put w.ram m.region f.offset value).2 }
      (.obj fr) pointer hmem hm hfield hf
    simp only [hop] at hget
    rw [hget]
    exact hrt w.ram (hputok _ hok)
  · intro hok
    have hrun := struct_put_field_fast rb w self fieldName value hself hst hl hlook hf hp hm hop
    rw [hrun] at hok ⊢
    have hget := struct_get_field_fast rb
      { w.log (.opPut mr f.offset value) with
        ram := (op.put w.ram m.region f.offset value).2 }
      self fieldName hself hst hl
      (by
        rw [heap_eq_layout_aref w { w.log (.opPut mr f.offset value) with
          ram := (op.put w.ram m.region f.offset value).2 } rfl, hlook])
      hf hp hm hop
    rw [hget]
    exact hrt w.ram (hputok _ hok)

/-- Witness for C12 in the example world: the Signed8 field 12 (`x`, offset
0) on memory pointer 10 with the one-byte op pair, value 7, through the
descriptor and through instance 18. -/
theorem primitive_field_round_trip_witness :
    (Data_Get_Struct world0 (.obj 12) = .ok 12 ∧
      world0.getField 12 = some ⟨0, .Qnil, some ⟨.NATIVE_INT8⟩⟩ ∧
      MEMORY world0 (.obj 10) = .ok 10 ∧
      world0.getMemory 10 = some ⟨100, 16, some byteOps⟩ ∧
      ptr_get_op (some ⟨100, 16, some byteOps⟩) (some ⟨.NATIVE_INT8⟩) = some byteOp ∧
      (∀ ram : Ram, (byteOp.put ram ⟨100, 16⟩ 0 (.int 7)).1 = .ok () →
        byteOp.get (byteOp.put ram ⟨100, 16⟩ 0 (.int 7)).2 ⟨100, 16⟩ 0 = .ok (.int 7)) ∧
      struct_layout_aref world0 (.obj 14) (.sym "x") = (.ok (.obj 12), world0)) ∧
    (struct_field_put world0 (.obj 12) (.obj 10) (.int 7)).1 = .ok (.obj 12) ∧
    (struct_field_get (struct_field_put world0 (.obj 12) (.obj 10) (.int 7)).2 (.obj 12)
      (.obj 10)).1 = .ok (.int 7) ∧
    (struct_put_field rb0 world0 (.obj 18) (.sym "x") (.int 7)).1 = .ok (.obj 18) ∧
    (struct_get_field rb0 (struct_put_field rb0 world0 (.obj 18) (.sym "x") (.int 7)).2 (.obj 18)
      (.sym "x")).1 = .ok (.int 7) :=
  ⟨⟨rfl, rfl, rfl, rfl, rfl, fun ram _ => by simp [byteOp], rfl⟩,
    rfl,
    (primitive_field_round_trip rb0 world0 (.obj 18) (.sym "x") (.obj 10) (.obj 12) (.int 7)
      18 14 12 10 ⟨.obj 10, .obj 14, some 10, some 14⟩ ⟨0, .Qnil, some ⟨.NATIVE_INT8⟩⟩
      ⟨100, 16, some byteOps⟩ byteOp rfl rfl rfl rfl rfl (fun ram _ => by simp [byteOp])
      rfl rfl rfl rfl rfl).1 rfl,
    rfl,
    (primitive_field_round_trip rb0 world0 (.obj 18) (.sym "x") (.obj 10) (.obj 12) (.int 7)
      18 14 12 10 ⟨.obj 10, .obj 14, some 10, some 14⟩ ⟨0, .Qnil, some ⟨.NATIVE_INT8⟩⟩
      ⟨100, 16, some byteOps⟩ byteOp rfl rfl rfl rfl rfl (fun ram _ => by simp [byteOp])
      rfl rfl rfl rfl rfl).2 rfl⟩

/-- C13, as stated, fails in the example world under the interpreter `rb3`:
instance 18 has no field `zz` and its buffer is memory 10, the sixteen bytes
from address 100; `[]=` of `zz` raises `rb_eArgError` "No such field 'zz'"
after the `to_s` conversion of the name has run, and that conversion stored
99 in byte 100 of the buffer, which read 0 before the call.  No put op and no
put handler was called: the conversion is the only call traced. -/
theorem failed_put_after_writing_conversion :
    struct_layout_aref world0 (.obj 14) (.sym "zz") = (.ok .Qnil, world0) ∧
    (world0.getStruct 18).map (fun st => st.pointer) = some (some 10) ∧
    (world0.getMemory 10).map (fun m => (m.address, m.size)) = some (100, 16) ∧
    (struct_put_field rb3 world0 (.obj 18) (.sym "zz") (.int 7)).1 =
      .error (.raised .rb_eArgError "No such field 'zz'") ∧
    world0.ram 100 = 0 ∧
    (struct_put_field rb3 world0 (.obj 18) (.sym "zz") (.int 7)).2.ram 100 = 99 ∧
    (struct_put_field rb3 world0 (.obj 18) (.sym "zz") (.int 7)).2.trace =
      [.funcall (.sym "zz") id_to_s []] := by
  exact ⟨rfl, rfl, rfl, rfl, rfl, rfl, rfl⟩

/-- C13, amended: no partial mutation by the failing call itself.  When
`Field#put(buffer, v)` fails because `ptr_get_op` finds no op, it raises with
the state untouched: no put op is called and nothing is written.  When `[]=`
fails because the name is absent from the layout, the state it leaves is
exactly the one left by the `to_s` conversion of the name for the error
message, the only call made: no put op and no put handler is invoked, so raw
memory is what that conversion left; it is identical to before whenever the
conversion writes nothing, and state and log are those of the bare call
whenever the conversion changes nothing. -/
theorem failed_put_writes_nothing (rb : Ruby) (w : World)
    (self fieldName field pointer value : VALUE) (s lp fr mr : Ref) (st : Struct)
    (f : StructField) (m : AbstractMemory) :
    (Data_Get_Struct w field = .ok fr → w.getField fr = some f →
      MEMORY w pointer = .ok mr → w.getMemory mr = some m →
      ptr_get_op (some m) f.type = none →
      ∃ e, struct_field_put w field pointer value = (.error e, w)) ∧
    (Data_Get_Struct w self = .ok s → w.getStruct s = some st → st.layout = some lp →
      struct_layout_aref w (.obj lp) fieldName = (.ok .Qnil, w) →
      (∃ e, struct_put_field rb w self fieldName value =
        (.error e, (rb.funcall (w.log (.funcall fieldName id_to_s [])) fieldName id_to_s []).2)) ∧
      ((rb.funcall (w.log (.funcall fieldName id_to_s [])) fieldName id_to_s []).2.ram = w.ram →
        (struct_put_field rb w self fieldName value).2.ram = w.ram) ∧
      ((rb.funcall (w.log (.funcall fieldName id_to_s [])) fieldName id_to_s []).2 =
          w.log (.funcall fieldName id_to_s []) →
        (struct_put_field rb w self fieldName value).2.ram = w.ram ∧
        (struct_put_field rb w self fieldName value).2.heap = w.heap ∧
        (struct_put_field rb w self fieldName value).2.trace =
          w.trace ++ [.funcall fieldName id_to_s []])) := by
  constructor
  · intro hfield hf hmem hm hop
    rw [struct_field_put_run w field pointer value hmem hm hfield hf]
    simp only [hop]
    exact not_supported_error w "put" field
  · intro hself hst hl hlook
    have hfield := struct_field_absent rb hst hl hlook
    have hex : ∃ e, struct_put_field rb w self fieldName value =
        (.error e, (rb.funcall (w.log (.funcall fieldName id_to_s [])) fieldName
          id_to_s []).2) := by
      rcases hcall : rb.funcall (w.log (.funcall fieldName id_to_s [])) fieldName id_to_s []
        with ⟨r, w2⟩
      rw [hcall] at hfield
      cases r with
      | error e => exact ⟨e, by simp [struct_put_field, hself, hfield]⟩
      | ok v =>
        cases hv : StringValuePtr v with
        | error e =>
          simp only [hv] at hfield
          exact ⟨e, by simp [struct_put_field, hself, hfield]⟩
        | ok nm =>
          simp only [hv, rb_raise] at hfield
          exact ⟨.raised .rb_eArgError ("No such field '" ++ cstr nm ++ "'"),
            by simp [struct_put_field, hself, hfield]⟩
    refine ⟨hex, fun hram => ?_, fun hpure => ?_⟩
    · obtain ⟨e, he⟩ := hex
      rw [he]
      exact hram
    · obtain ⟨e, he⟩ := hex
      rw [he, hpure]
      exact ⟨rfl, rfl, rfl⟩

/-- Witness for the amended C13 in the example world: `put` of the Signed8
field 12 on the table-less memory 11, and `[]=` of the unknown name `zz` on
instance 18 under `rb0`, whose conversion changes nothing. -/
theorem failed_put_writes_nothing_witness :
    (∃ e, struct_field_put world0 (.obj 12) (.obj 11) (.int 7) = (.error e, world0)) ∧
    (struct_put_field rb0 world0 (.obj 18) (.sym "zz") (.int 7)).2.ram = world0.ram ∧
    (struct_put_field rb0 world0 (.obj 18) (.sym "zz") (.int 7)).2.trace =
      world0.trace ++ [.funcall (.sym "zz") id_to_s []] :=
  ⟨(failed_put_writes_nothing rb0 world0 (.obj 18) (.sym "zz") (.obj 12) (.obj 11) (.int 7)
      18 14 12 11 ⟨.obj 10, .obj 14, some 10, some 14⟩ ⟨0, .Qnil, some ⟨.NATIVE_INT8⟩⟩
      ⟨200, 16, none⟩).1 rfl rfl rfl rfl rfl,
    ((failed_put_writes_nothing rb0 world0 (.obj 18) (.sym "zz") (.obj 12) (.obj 11) (.int 7)
      18 14 12 11 ⟨.obj 10, .obj 14, some 10, some 14⟩ ⟨0, .Qnil, some ⟨.NATIVE_INT8⟩⟩
      ⟨200, 16, none⟩).2 rfl rfl rfl rfl).2.1 rfl,
    (((failed_put_writes_nothing rb0 world0 (.obj 18) (.sym "zz") (.obj 12) (.obj 11) (.int 7)
      18 14 12 11 ⟨.obj 10, .obj 14, some 10, some 14⟩ ⟨0, .Qnil, some ⟨.NATIVE_INT8⟩⟩
      ⟨200, 16, none⟩).2 rfl rfl rfl rfl).2.2 rfl).2.2⟩

/-- C20: the fast path of the struct instance refines the built-in field
handler.  For a struct instance whose buffer reference is the memory object
its buffer pointer points into, and a field name present in the layout whose
descriptor answers `get` and `put` with the built-in `Field#get` and
`Field#put`, `[]` yields the result (value or failure) of `Field#get` applied
to the buffer of the instance, and `[]=` yields the failure of `Field#put`
applied to that buffer and the value, or returns the instance where
`Field#put` returns the descriptor; either way raw memory and the heap end
up the same. -/
theorem struct_access_refines_field_handler (rb : Ruby) (w : World)
    (self fieldName value : VALUE) (s lp fr mp : Ref) (st : Struct) (f : StructField)
    (m : AbstractMemory)
    (hself : Data_Get_Struct w self = .ok s) (hst : w.getStruct s = some st)
    (hl : st.layout = some lp)
    (hlook : struct_layout_aref w (.obj lp) fieldName = (.ok (.obj fr), w))
    (hf : w.getField fr = some f)
    (hp : st.pointer = some mp) (hm : w.getMemory mp = some m)
    (hmem : MEMORY w st.rbPointer = .ok mp)
    (hget : ∀ w1 p, rb.funcall w1 (.obj fr) id_get [p] = struct_field_get w1 (.obj fr) p)
    (hput : ∀ w1 p v, rb.funcall w1 (.obj fr) id_put [p, v] = struct_field_put w1 (.obj fr) p v) :
    ((struct_get_field rb w self fieldName).1 = (struct_field_get w (.obj fr) st.rbPointer).1 ∧
      (struct_get_field rb w self fieldName).2.ram =
        (struct_field_get w (.obj fr) st.rbPointer).2.ram ∧
      (struct_get_field rb w self fieldName).2.heap =
        (struct_field_get w (.obj fr) st.rbPointer).2.heap) ∧
    ((struct_put_field rb w self fieldName value).1 =
        (struct_field_put w (.obj fr) st.rbPointer value).1.map (fun _ => self) ∧
      (struct_put_field rb w self fieldName value).2.ram =
        (struct_field_put w (.obj fr) st.rbPointer value).2.ram ∧
      (struct_put_field rb w self fieldName value).2.heap =
        (struct_field_put w (.obj fr) st.rbPointer value).2.heap) := by
  have hfd := getField_data hf
  have hgrun := struct_field_get_run w (.obj fr) st.rbPointer hmem hm hfd hf
  have hprun := struct_field_put_run w (.obj fr) st.rbPointer value hmem hm hfd hf
  cases hop : ptr_get_op (some m) f.type with
  | some op =>
    rw [struct_get_field_fast rb w self fieldName hself hst hl hlook hf hp hm hop,
      struct_put_field_fast rb w self fieldName value hself hst hl hlook hf hp hm hop]
    simp only [hop] at hgrun hprun
    rw [hgrun, hprun]
    refine ⟨⟨rfl, rfl, rfl⟩, ?_, rfl, rfl⟩
    cases (op.put w.ram m.region f.offset value).1 <;> rfl
  | none =>
    rw [struct_get_field_slow rb w self fieldName hself hst hl hlook hf hp hm hop,
      struct_put_field_slow rb w self fieldName value hself hst hl hlook hf hp hm hop, hget, hput]
    simp only [hop] at hgrun hprun
    have hg1 := struct_field_get_run (w.log (.funcall (.obj fr) id_get [st.rbPointer]))
      (.obj fr) st.rbPointer hmem hm hfd hf
    have hp1 := struct_field_put_run
      (w.log (.funcall (.obj fr) id_put [st.rbPointer, value])) (.obj fr) st.rbPointer value
      hmem hm hfd hf
    simp only [hop] at hg1 hp1
    rw [hg1, hp1, hgrun, hprun, not_supported_log, not_supported_log]
    obtain ⟨e, he⟩ := @not_supported_error VALUE w "put" (.obj fr)
    obtain ⟨e1, he1⟩ := @not_supported_error VALUE w "get" (.obj fr)
    rw [he, he1]
    exact ⟨⟨rfl, rfl, rfl⟩, rfl, rfl, rfl⟩

/-- Witness for C20 in the example world with the built-in handlers (`rb1`):
on instance 18 the typed field `x` (fast path) and the untyped field `y`
(handler path, which fails) both agree with `Field#get` on buffer 10. -/
theorem struct_access_refines_field_handler_witness :
    (Data_Get_Struct world0 (.obj 18) = .ok 18 ∧
      world0.getStruct 18 = some ⟨.obj 10, .obj 14, some 10, some 14⟩ ∧
      struct_layout_aref world0 (.obj 14) (.sym "x") = (.ok (.obj 12), world0) ∧
      struct_layout_aref world0 (.obj 14) (.sym "y") = (.ok (.obj 13), world0) ∧
      MEMORY world0 (.obj 10) = .ok 10) ∧
    (struct_get_field rb1 world0 (.obj 18) (.sym "x")).1 =
      (struct_field_get world0 (.obj 12) (.obj 10)).1 ∧
    (struct_get_field rb1 world0 (.obj 18) (.sym "y")).1 =
      (struct_field_get world0 (.obj 13) (.obj 10)).1 ∧
    (struct_put_field rb1 world0 (.obj 18) (.sym "x") (.int 7)).2.ram =
      (struct_field_put world0 (.obj 12) (.obj 10) (.int 7)).2.ram :=
  ⟨⟨rfl, rfl, rfl, rfl, rfl⟩,
    (struct_access_refines_field_handler rb1 world0 (.obj 18) (.sym "x") (.int 7) 18 14 12 10
      ⟨.obj 10, .obj 14, some 10, some 14⟩ ⟨0, .Qnil, some ⟨.NATIVE_INT8⟩⟩
      ⟨100, 16, some byteOps⟩ rfl rfl rfl rfl rfl rfl rfl rfl
      (fun _ _ => rfl) (fun _ _ _ => rfl)).1.1,
    (struct_access_refines_field_handler rb1 world0 (.obj 18) (.sym "y") (.int 7) 18 14 13 10
      ⟨.obj 10, .obj 14, some 10, some 14⟩ ⟨4, .Qnil, none⟩
      ⟨100, 16, some byteOps⟩ rfl rfl rfl rfl rfl rfl rfl rfl
      (fun _ _ => rfl) (fun _ _ _ => rfl)).1.1,
    (struct_access_refines_field_handler rb1 world0 (.obj 18) (.sym "x") (.int 7) 18 14 12 10
      ⟨.obj 10, .obj 14, some 10, some 14⟩ ⟨0, .Qnil, some ⟨.NATIVE_INT8⟩⟩
      ⟨100, 16, some byteOps⟩ rfl rfl rfl rfl rfl rfl rfl rfl
      (fun _ _ => rfl) (fun _ _ _ => rfl)).2.2.1⟩

/-- C14: for a construction call on a struct object whose layout factory, if
used, returns a value (`resolved_layout` answers `Lopt` in the state `wf`),
whose resolved layout, if it is a layout, carries a layout payload, and whose
buffer argument is omitted or a valid memory region, `initialize` fails with
`rb_eRuntimeError` if and only if one of three conditions holds: no layout is
resolved, which is the case exactly when no layout args were given and the
class has no default layout; the resolved layout is not a layout; or the
resolved buffer exposes no operations table.  The three messages are "No
Struct layout configured", "Invalid Struct layout" and "No memory ops set
for" followed by the class name of the buffer. -/
theorem struct_initialize_runtime_error_iff (rb : Ruby) (w wf : World) (argv : List VALUE)
    (self : VALUE) (klass s : Ref) (Lopt : Option VALUE) (st : Struct)
    (hk : CLASS_OF w self = some klass) (hs : Data_Get_Struct w self = .ok s)
    (hres : resolved_layout rb w klass argv = (.ok Lopt, wf))
    (hst : wf.getStruct s = some st)
    (hlay : ∀ L, Lopt = some L → rb_obj_is_kind_of wf L rbffi_StructLayoutClass = true →
      ∃ lp layout, Data_Get_Struct wf L = .ok lp ∧ wf.getLayout lp = some layout)
    (hbuf : argv.headD .Qnil ≠ .Qnil → ∃ mp m name,
      MEMORY wf (argv.headD .Qnil) = .ok mp ∧ wf.getMemory mp = some m ∧
      (CLASS_OF wf (argv.headD .Qnil)).bind (rb_class_name wf) = some name)
    (hmpc : ∃ name, rb_class_name wf rbffi_MemoryPointerClass = some name) :
    ((∃ msg, ( struct_initialize rb w argv self).1 = .error (.raised .rb_eRuntimeError msg)) ↔
      (Lopt = none ∨
        (∃ L, Lopt = some L ∧ rb_obj_is_kind_of wf L rbffi_StructLayoutClass = false) ∨
        (∃ L, Lopt = some L ∧ rb_obj_is_kind_of wf L rbffi_StructLayoutClass = true ∧
          resolved_buffer_no_ops rb wf L (argv.headD .Qnil)))) ∧
    (Lopt = none ↔ argv.length ≤ 1 ∧ rb_cvar_get w klass id_layout_ivar = none) ∧
    (Lopt = none → ( struct_initialize rb w argv self).1 =
      .error (.raised .rb_eRuntimeError "No Struct layout configured")) ∧
    (∀ L, Lopt = some L → rb_obj_is_kind_of wf L rbffi_StructLayoutClass = false →
      ( struct_initialize rb w argv self).1 =
        .error (.raised .rb_eRuntimeError "Invalid Struct layout")) ∧
    (∀ L, Lopt = some L → rb_obj_is_kind_of wf L rbffi_StructLayoutClass = true →
      resolved_buffer_no_ops rb wf L (argv.headD .Qnil) →
      ∃ name, ( struct_initialize rb w argv self).1 =
        .error (.raised .rb_eRuntimeError ("No memory ops set for " ++ name))) := by
  have hnone : Lopt = none ↔ argv.length ≤ 1 ∧ rb_cvar_get w klass id_layout_ivar = none := by
    unfold resolved_layout at hres
    by_cases hn : argv.length > 1
    · simp only [hn, if_true] at hres
      rcases hcall : rb.funcall (w.log (.funcall (.obj klass) id_layout argv.tail)) (.obj klass)
        id_layout argv.tail with ⟨r, w2⟩
      rw [hcall] at hres
      cases r with
      | error e => simp at hres
      | ok l =>
        simp only [Prod.mk.injEq, Except.ok.injEq] at hres
        constructor
        · intro h; rw [h] at hres; simp at hres
        · intro h; omega
    · simp only [hn, if_false, Prod.mk.injEq, Except.ok.injEq] at hres
      rw [← hres.1]
      constructor
      · intro h; exact ⟨by omega, h⟩
      · intro h; exact h.2
  -- the outcome in each case
  have hcase : ∀ L, Lopt = some L → rb_obj_is_kind_of wf L rbffi_StructLayoutClass = true →
      ((∃ msg, ( struct_initialize rb w argv self).1 = .error (.raised .rb_eRuntimeError msg)) ↔
        resolved_buffer_no_ops rb wf L (argv.headD .Qnil)) ∧
      (resolved_buffer_no_ops rb wf L (argv.headD .Qnil) →
        ∃ name, ( struct_initialize rb w argv self).1 =
          .error (.raised .rb_eRuntimeError ("No memory ops set for " ++ name))) := by
    intro L hL hkind
    subst hL
    obtain ⟨lp, layout, hlp, hlayout⟩ := hlay L rfl hkind
    by_cases hp : argv.headD .Qnil = .Qnil
    · obtain ⟨name, hname⟩ := hmpc
      by_cases hsz : 0 ≤ layout.size
      · obtain ⟨w6, _, _, _, _, _, _, _, hrun⟩ :=
          struct_initialize_allocated rb hk hs hres hst hkind hlp hp hlayout hsz hname
        rw [hrun]
        cases hops : rb.memoryPointerOps with
        | none =>
          have hno : resolved_buffer_no_ops rb wf L (argv.headD .Qnil) :=
            Or.inr ⟨hp, hops, lp, layout, hlp, hlayout, hsz⟩
          simp only [Option.isNone_none, if_true, rb_raise]
          exact ⟨⟨fun _ => hno, fun _ => ⟨_, rfl⟩⟩, fun _ => ⟨name, rfl⟩⟩
        | some ops =>
          have hno : ¬ resolved_buffer_no_ops rb wf L (argv.headD .Qnil) := by
            rintro (⟨hne, _⟩ | ⟨_, hnone1, _⟩)
            · exact hne hp
            · rw [hops] at hnone1; simp at hnone1
          simp only [Option.isNone_some, Bool.false_eq_true, if_false]
          refine ⟨⟨?_, fun h => absurd h hno⟩, fun h => absurd h hno⟩
          rintro ⟨msg, hmsg⟩
          simp at hmsg
      · have hfail := struct_initialize_alloc_fail rb hk hs hres hst hkind hlp hp hlayout
          (by omega)
        have hno : ¬ resolved_buffer_no_ops rb wf L (argv.headD .Qnil) := by
          rintro (⟨hne, _⟩ | ⟨_, _, lp1, layout1, hlp1, hlay1, hsz1⟩)
          · exact hne hp
          · rw [hlp] at hlp1
            simp only [Except.ok.injEq] at hlp1
            subst hlp1
            rw [hlayout] at hlay1
            simp only [Option.some.injEq] at hlay1
            subst hlay1
            exact hsz hsz1
        rw [hfail]
        refine ⟨⟨?_, fun h => absurd h hno⟩, fun h => absurd h hno⟩
        rintro ⟨msg, hmsg⟩
        simp at hmsg
    · obtain ⟨mp, m, name, hmem, hm, hname⟩ := hbuf hp
      obtain ⟨w6, _, _, _, _, _, hrun⟩ :=
        struct_initialize_supplied rb hk hs hres hst hkind hlp hp hmem hm
      have hpo := (MEMORY_ok hmem).1
      have hmo : memory_ops wf (argv.headD .Qnil) = m.ops := by
        rw [hpo]; simp [memory_ops, DATA_PTR, hm]
      rw [hrun, hname]
      cases hops : m.ops with
      | none =>
        have hno : resolved_buffer_no_ops rb wf L (argv.headD .Qnil) :=
          Or.inl ⟨hp, by rw [hmo, hops]⟩
        simp only [Option.isNone_none, if_true, rb_raise]
        exact ⟨⟨fun _ => hno, fun _ => ⟨_, rfl⟩⟩, fun _ => ⟨name, rfl⟩⟩
      | some ops =>
        have hno : ¬ resolved_buffer_no_ops rb wf L (argv.headD .Qnil) := by
          rintro (⟨_, hnone1⟩ | ⟨hnil, _⟩)
          · rw [hmo, hops] at hnone1; simp at hnone1
          · exact hp hnil
        simp only [Option.isNone_some, Bool.false_eq_true, if_false]
        refine ⟨⟨?_, fun h => absurd h hno⟩, fun h => absurd h hno⟩
        rintro ⟨msg, hmsg⟩
        simp at hmsg
  have hA : Lopt = none → ( struct_initialize rb w argv self).1 =
      .error (.raised .rb_eRuntimeError "No Struct layout configured") := by
    intro h
    subst h
    rw [struct_initialize_no_layout rb hk hs hres]
  have hB : ∀ L, Lopt = some L → rb_obj_is_kind_of wf L rbffi_StructLayoutClass = false →
      ( struct_initialize rb w argv self).1 =
        .error (.raised .rb_eRuntimeError "Invalid Struct layout") := by
    intro L hL hkind
    subst hL
    rw [struct_initialize_bad_layout rb hk hs hres hst hkind]
  refine ⟨⟨?_, ?_⟩, hnone, hA, hB, fun L hL hkind => (hcase L hL hkind).2⟩
  · intro hfail
    cases hLo : Lopt with
    | none => exact Or.inl rfl
    | some L =>
      by_cases hkind : rb_obj_is_kind_of wf L rbffi_StructLayoutClass = true
      · exact Or.inr (Or.inr ⟨L, rfl, hkind, ((hcase L hLo hkind).1).1 hfail⟩)
      · exact Or.inr (Or.inl ⟨L, rfl, by simpa using hkind⟩)
  · rintro (h | ⟨L, hL, hkind⟩ | ⟨L, hL, hkind, hno⟩)
    · exact ⟨_, hA h⟩
    · exact ⟨_, hB L hL hkind⟩
    · exact ((hcase L hL hkind).1).2 hno

/-- Witness for C14 in the example world, on a `Point` object fresh from
`allocate` (reference 24, default layout 14) with the table-less memory 11 as
buffer: construction fails with a RuntimeError, the third condition being the
one that holds. -/
theorem struct_initialize_runtime_error_iff_witness :
    (CLASS_OF (struct_allocate world0 8).2 (.obj 24) = some 8 ∧
      Data_Get_Struct (struct_allocate world0 8).2 (.obj 24) = .ok 24 ∧
      resolved_layout rb0 (struct_allocate world0 8).2 8 [.obj 11] =
        (.ok (some (.obj 14)), (struct_allocate world0 8).2) ∧
      (struct_allocate world0 8).2.getStruct 24 = some ⟨.Qnil, .Qnil, none, none⟩ ∧
      rb_obj_is_kind_of (struct_allocate world0 8).2 (.obj 14) rbffi_StructLayoutClass = true ∧
      MEMORY (struct_allocate world0 8).2 (.obj 11) = .ok 11 ∧
      memory_ops (struct_allocate world0 8).2 (.obj 11) = none) ∧
    (∃ msg, ( struct_initialize rb0 (struct_allocate world0 8).2 [.obj 11] (.obj 24)).1 =
      .error (.raised .rb_eRuntimeError msg)) :=
  ⟨⟨rfl, rfl, rfl, rfl, rfl, rfl, rfl⟩,
    (struct_initialize_runtime_error_iff rb0 (struct_allocate world0 8).2
      (struct_allocate world0 8).2 [.obj 11] (.obj 24) 8 24 (some (.obj 14))
      ⟨.Qnil, .Qnil, none, none⟩ rfl rfl rfl rfl
      (fun L hL _ => ⟨14, ⟨.obj 15, 8, 1, 2, [some 12, some 13]⟩,
        by cases hL; exact ⟨rfl, rfl⟩⟩)
      (fun _ => ⟨11, ⟨200, 16, none⟩, "FFI::AbstractMemory", rfl, rfl, rfl⟩)
      ⟨"FFI::MemoryPointer", rfl⟩).1.2
      (Or.inr (Or.inr ⟨.obj 14, rfl, rfl, Or.inl ⟨by simp, rfl⟩⟩))⟩

/-- C15: layout resolution at construction.  After a successful
`initialize` the instance holds a layout `L`, which the `layout` accessor
returns and whose payload is the C layout pointer.  When layout args are
supplied (more than one argument), `L` is the answer of the dynamic call
`layout` on the class of the instance with exactly the arguments after the
buffer argument, in order, whatever default the class has; when none are
supplied, `L` is the default layout of the class. -/
theorem struct_initialize_layout_resolution (rb : Ruby) (w w1 : World) (argv : List VALUE)
    (self v : VALUE) (klass : Ref)
    (hk : CLASS_OF w self = some klass)
    (hok : struct_initialize rb w argv self = (.ok v, w1)) :
    ∃ L lp s st wf, self = .obj s ∧ w1.getStruct s = some st ∧ st.rbLayout = L ∧
      st.layout = some lp ∧ L = .obj lp ∧
      struct_get_layout w1 self = (.ok L, w1) ∧
      (argv.length > 1 →
        rb.funcall (w.log (.funcall (.obj klass) id_layout argv.tail)) (.obj klass) id_layout
          argv.tail = (.ok L, wf)) ∧
      (argv.length ≤ 1 → rb_cvar_get w klass id_layout_ivar = some L) := by
  obtain ⟨klass1, s, L, wf, st, lp, hself, _, hk1, hres, hst, hkind, hlp, hcases⟩ :=
    struct_initialize_ok_inv hok
  rw [hk] at hk1
  simp only [Option.some.injEq] at hk1
  subst hk1
  have hL := (Data_Get_Struct_ok hlp).1
  have hst1 : ∃ st1, w1.getStruct s = some st1 ∧ st1.rbLayout = L ∧ st1.layout = some lp := by
    rcases hcases with ⟨_, mp, _, _, h, _⟩ | ⟨_, layout, _, _, h, _⟩
    · exact ⟨_, h, rfl, rfl⟩
    · exact ⟨_, h, rfl, rfl⟩
  obtain ⟨st1, hst1, hrl, hll⟩ := hst1
  subst hself
  refine ⟨L, lp, s, st1, wf, rfl, hst1, hrl, hll, hL, ?_, resolved_layout_args hres,
    fun hn => (resolved_layout_default hres hn).1⟩
  rw [struct_get_layout_run (getStruct_data hst1) hst1, hrl]

/-- Witness for C15 in the example world: a `Point` built without arguments
gets the class default 14; a `Bare` (no default) built with a layout argument
under `rb2` gets the answer 19 of the layout factory. -/
theorem struct_initialize_layout_resolution_witness :
    (CLASS_OF (struct_allocate world0 8).2 (.obj 24) = some 8 ∧
      ( struct_initialize rb0 (struct_allocate world0 8).2 [] (.obj 24)).1 = .ok (.obj 24) ∧
      CLASS_OF (struct_allocate world0 9).2 (.obj 24) = some 9 ∧
      ( struct_initialize rb2 (struct_allocate world0 9).2 [.Qnil, .int 3] (.obj 24)).1 =
        .ok (.obj 24)) ∧
    (struct_get_layout ( struct_initialize rb0 (struct_allocate world0 8).2 [] (.obj 24)).2
      (.obj 24)).1 = .ok (.obj 14) ∧
    (struct_get_layout
      ( struct_initialize rb2 (struct_allocate world0 9).2 [.Qnil, .int 3] (.obj 24)).2
      (.obj 24)).1 = .ok (.obj 19) :=
  ⟨⟨rfl, rfl, rfl, rfl⟩,
    (by
      obtain ⟨L, _, _, _, _, _, _, _, _, _, h6, _, h8⟩ :=
        struct_initialize_layout_resolution rb0 (struct_allocate world0 8).2
          ( struct_initialize rb0 (struct_allocate world0 8).2 [] (.obj 24)).2 [] (.obj 24)
          (.obj 24) 8 rfl (Prod.ext rfl rfl)
      have hL : some (VALUE.obj 14) = some L := h8 (by decide)
      rw [h6]
      exact (congrArg Except.ok (Option.some.inj hL)).symm),
    (by
      obtain ⟨L, _, _, _, wf, _, _, _, _, _, h6, h7, _⟩ :=
        struct_initialize_layout_resolution rb2 (struct_allocate world0 9).2
          ( struct_initialize rb2 (struct_allocate world0 9).2 [.Qnil, .int 3] (.obj 24)).2
          [.Qnil, .int 3] (.obj 24) (.obj 24) 9 rfl (Prod.ext rfl rfl)
      have hL : (Except.ok (VALUE.obj 19) : Except RbError VALUE) = .ok L :=
        congrArg Prod.fst (h7 (by decide))
      rw [h6]
      exact hL.symm)⟩

/-- C16: buffer allocation at construction.  Let `wf` be the state in which
the layout `L` of the instance was resolved.  When the buffer argument is
omitted or nil, a successful `initialize` requests exactly one region, of
`layout.size` elements of one byte, cleared; the buffer of the instance is the
object created for it, which did not exist in `wf`, whose region starts at the
old break, is `layout.size` bytes long and reads zero everywhere, and no other
byte of the memory changes.  When a buffer is supplied, it becomes the buffer
of the instance and nothing is allocated: memory, break, heap size and the
log of requests are those of `wf`. -/
theorem struct_initialize_buffer_allocation (rb : Ruby) (w w1 : World) (argv : List VALUE)
    (self v : VALUE) (klass : Ref)
    (hk : CLASS_OF w self = some klass)
    (hok : struct_initialize rb w argv self = (.ok v, w1)) :
    ∃ s st lp L wf, self = .obj s ∧ resolved_layout rb w klass argv = (.ok (some L), wf) ∧
      w1.getStruct s = some st ∧ st.rbLayout = L ∧ st.layout = some lp ∧
      (argv.headD .Qnil = .Qnil →
        ∃ layout m, w1.getLayout lp = some layout ∧ 0 ≤ layout.size ∧
          st.rbPointer = .obj wf.heap.length ∧ st.pointer = some wf.heap.length ∧
          wf.heap[wf.heap.length]? = none ∧
          w1.getMemory wf.heap.length = some m ∧
          CLASS_OF w1 st.rbPointer = some rbffi_MemoryPointerClass ∧
          m.address = wf.brk ∧ m.size = layout.size ∧
          (∀ a, m.address ≤ a → a < m.address + layout.size.toNat → w1.ram a = 0) ∧
          (∀ a, ¬ (m.address ≤ a ∧ a < m.address + layout.size.toNat) → w1.ram a = wf.ram a) ∧
          w1.brk = wf.brk + layout.size.toNat ∧
          w1.heap.length = wf.heap.length + 1 ∧
          w1.trace = wf.trace ++ [.newMemoryPointer layout.size 1 true]) ∧
      (argv.headD .Qnil ≠ .Qnil →
        st.rbPointer = argv.headD .Qnil ∧ w1.ram = wf.ram ∧ w1.brk = wf.brk ∧
          w1.heap.length = wf.heap.length ∧ w1.trace = wf.trace) := by
  obtain ⟨klass1, s, L, wf, st, lp, hself, _, hk1, hres, hst, hkind, hlp, hcases⟩ :=
    struct_initialize_ok_inv hok
  rw [hk] at hk1
  simp only [Option.some.injEq] at hk1
  subst hk1
  rcases hcases with ⟨hp, mp, hmem, hfr, h1, hram, hbrk, htr⟩ |
      ⟨hp, layout, hlay, hsz, h1, hnew, hold, hlen, hram, hbrk, htr⟩
  · refine ⟨s, _, lp, L, wf, hself, hres, h1, rfl, rfl, fun h => absurd h hp,
      fun _ => ⟨rfl, hram, hbrk, hfr.length, htr⟩⟩
  · refine ⟨s, _, lp, L, wf, hself, hres, h1, rfl, rfl, fun _ => ?_, fun h => absurd hp h⟩
    have hne : lp ≠ s := layout_ne_struct hlay hst
    have hlt : lp < wf.heap.length := getLayout_lt hlay
    have hlay1 : w1.getLayout lp = some layout := by
      rw [← hlay]
      exact getLayout_congr (hold lp hne hlt)
    refine ⟨layout, ⟨wf.brk, layout.size * 1, rb.memoryPointerOps⟩, hlay1, hsz, rfl, rfl,
      List.getElem?_eq_none (Nat.le_refl _), ?_, ?_, rfl, by simp, ?_, ?_, hbrk, hlen, htr⟩
    · simp [World.getMemory, hnew]
    · simp [CLASS_OF, World.deref, hnew]
    · intro a h1 h2
      rw [hram]
      simp only at h1 h2
      simp [h1, h2]
    · intro a h
      rw [hram]
      simp only at h
      simp only [h, if_false]

/-- Witness for C16 in the example world: a `Point` built without a buffer
gets a new buffer whose byte 1003 reads zero and the break moves from 1000 to
1008 (the layout is 8 bytes); built over the existing memory 10 the break
stays at 1000. -/
theorem struct_initialize_buffer_allocation_witness :
    (CLASS_OF (struct_allocate world0 8).2 (.obj 24) = some 8 ∧
      ( struct_initialize rb0 (struct_allocate world0 8).2 [] (.obj 24)).1 = .ok (.obj 24) ∧
      ( struct_initialize rb0 (struct_allocate world0 8).2 [.obj 10] (.obj 24)).1 =
        .ok (.obj 24)) ∧
    (( struct_initialize rb0 (struct_allocate world0 8).2 [] (.obj 24)).2.ram 1003 = 0 ∧
      ( struct_initialize rb0 (struct_allocate world0 8).2 [] (.obj 24)).2.brk = 1008) ∧
    ( struct_initialize rb0 (struct_allocate world0 8).2 [.obj 10] (.obj 24)).2.brk = 1000 :=
  ⟨⟨rfl, rfl, rfl⟩,
    (by
      obtain ⟨s, st, lp, L, wf, hs, hres, hst, _, hl, halloc, _⟩ :=
        struct_initialize_buffer_allocation rb0 (struct_allocate world0 8).2
          ( struct_initialize rb0 (struct_allocate world0 8).2 [] (.obj 24)).2 [] (.obj 24)
          (.obj 24) 8 rfl (Prod.ext rfl rfl)
      cases hs
      have hwf : wf = (struct_allocate world0 8).2 := (congrArg Prod.snd hres).symm
      have hst1 : ( struct_initialize rb0 (struct_allocate world0 8).2 [] (.obj 24)).2.getStruct
          24 = some ⟨.obj 25, .obj 14, some 25, some 14⟩ := rfl
      rw [hst1] at hst
      cases hst
      cases hl
      obtain ⟨layout, m, hlay, _, _, _, _, hm, _, hadr, _, hz, _, hbrk, _⟩ := halloc rfl
      have hlay1 : ( struct_initialize rb0 (struct_allocate world0 8).2 [] (.obj 24)).2.getLayout
          14 = some ⟨.obj 15, 8, 1, 2, [some 12, some 13]⟩ := rfl
      rw [hlay1] at hlay
      cases hlay
      subst hwf
      have hb : (struct_allocate world0 8).2.brk = 1000 := rfl
      rw [hb] at hadr hbrk
      exact ⟨hz 1003 (by rw [hadr]; decide) (by rw [hadr]; decide), hbrk⟩),
    (by
      obtain ⟨s, st, lp, L, wf, _, hres, _, _, _, _, hsup⟩ :=
        struct_initialize_buffer_allocation rb0 (struct_allocate world0 8).2
          ( struct_initialize rb0 (struct_allocate world0 8).2 [.obj 10] (.obj 24)).2 [.obj 10]
          (.obj 24) (.obj 24) 8 rfl (Prod.ext rfl rfl)
      have hwf : wf = (struct_allocate world0 8).2 := (congrArg Prod.snd hres).symm
      rw [(hsup (by decide)).2.2.1, hwf]
      rfl)⟩

/-- C17: an instance stores a reference to its buffer.  Provided the dynamic
calls of the interpreter keep the buffer pointer of the instance equal to the
payload of its buffer reference (they can only change either through the
methods of this file): after a successful `initialize` with an explicit
buffer `b` the `pointer` accessor returns `b`; and in every state reachable
by construction followed by any calls of `pointer=`, `layout=`, `[]` and
`[]=`, the accessor returns an object `mp`, the fast path of `[]` and `[]=`
applies the op to the region of that very object as it is in this state, and
the slow path hands that very object to the handler of the field. -/
theorem struct_buffer_is_accessor_object (rb : Ruby) (self : VALUE)
    (hrb : ∀ w recv mid args, buffer_coherent w self = true →
      buffer_coherent (rb.funcall w recv mid args).2 self = true) :
    (∀ w w1 argv v, struct_initialize rb w argv self = (.ok v, w1) →
      argv.headD .Qnil ≠ .Qnil →
      struct_get_pointer w1 self = (.ok (argv.headD .Qnil), w1)) ∧
    (∀ w, Reachable rb self w →
      ∃ s st mp, Data_Get_Struct w self = .ok s ∧ w.getStruct s = some st ∧
        struct_get_pointer w self = (.ok (.obj mp), w) ∧
        ∀ fieldName lp fr f m, st.layout = some lp →
          struct_layout_aref w (.obj lp) fieldName = (.ok (.obj fr), w) →
          w.getField fr = some f → w.getMemory mp = some m →
          (∀ op, ptr_get_op (some m) f.type = some op →
            struct_get_field rb w self fieldName =
              (op.get w.ram m.region f.offset, w.log (.opGet mp f.offset)) ∧
            ∀ value, struct_put_field rb w self fieldName value =
              ((op.put w.ram m.region f.offset value).1.map (fun _ => self),
                { w.log (.opPut mp f.offset value) with
                  ram := (op.put w.ram m.region f.offset value).2 })) ∧
          (ptr_get_op (some m) f.type = none →
            struct_get_field rb w self fieldName =
              rb.funcall (w.log (.funcall (.obj fr) id_get [.obj mp])) (.obj fr) id_get
                [.obj mp] ∧
            ∀ value, struct_put_field rb w self fieldName value =
              ((rb.funcall (w.log (.funcall (.obj fr) id_put [.obj mp, value])) (.obj fr)
                  id_put [.obj mp, value]).1.map (fun _ => self),
                (rb.funcall (w.log (.funcall (.obj fr) id_put [.obj mp, value])) (.obj fr)
                  id_put [.obj mp, value]).2))) := by
  constructor
  · intro w w1 argv v hok hp
    obtain ⟨klass, s, L, wf, st, lp, hself, _, _, _, _, _, _, hcases⟩ :=
      struct_initialize_ok_inv hok
    rcases hcases with ⟨_, mp, _, _, h1, _⟩ | ⟨hnil, _⟩
    · subst hself
      rw [struct_get_pointer_run (getStruct_data h1) h1]
    · exact absurd hnil hp
  · intro w hreach
    obtain ⟨s, st, mp, hself, hst, hrp, hpp⟩ := buffer_coherent_iff.mp (reachable_coherent hrb hreach)
    subst hself
    have hd := getStruct_data hst
    refine ⟨s, st, mp, hd, hst, by rw [struct_get_pointer_run hd hst, hrp], ?_⟩
    intro fieldName lp fr f m hl hlook hf hm
    constructor
    · intro op hop
      exact ⟨struct_get_field_fast rb w (.obj s) fieldName hd hst hl hlook hf hpp hm hop,
        fun value =>
          struct_put_field_fast rb w (.obj s) fieldName value hd hst hl hlook hf hpp hm hop⟩
    · intro hop
      have hg := struct_get_field_slow rb w (.obj s) fieldName hd hst hl hlook hf hpp hm hop
      rw [hrp] at hg
      refine ⟨hg, fun value => ?_⟩
      have hpt := struct_put_field_slow rb w (.obj s) fieldName value hd hst hl hlook hf hpp hm hop
      rw [hrp] at hpt
      exact hpt

/-- Witness for C17 with the interpreter `rb0`, whose calls never change the
state: a `Point` built over the existing memory 10 answers that object as its
pointer, and after `pointer=` to memory 11 and a put through the first field
the accessor still answers an object of the heap. -/
theorem struct_buffer_is_accessor_object_witness :
    (∀ w recv mid args, buffer_coherent w (.obj 24) = true →
      buffer_coherent (rb0.funcall w recv mid args).2 (.obj 24) = true) ∧
    ( struct_initialize rb0 (struct_allocate world0 8).2 [.obj 10] (.obj 24)).1 = .ok (.obj 24) ∧
    struct_get_pointer ( struct_initialize rb0 (struct_allocate world0 8).2 [.obj 10] (.obj 24)).2
        (.obj 24) =
      (.ok (.obj 10), ( struct_initialize rb0 (struct_allocate world0 8).2 [.obj 10] (.obj 24)).2) ∧
    (∃ mp, (struct_get_pointer
        (struct_put_field rb0
          (struct_set_pointer
            ( struct_initialize rb0 (struct_allocate world0 8).2 [.obj 10] (.obj 24)).2
            (.obj 24) (.obj 11)).2
          (.obj 24) (.sym "x") (.int 5)).2 (.obj 24)).1 = .ok (.obj mp)) :=
  ⟨fun w recv mid args h => by rw [rb0_world]; exact h, rfl,
    (struct_buffer_is_accessor_object rb0 (.obj 24)
      (fun w recv mid args h => by rw [rb0_world]; exact h)).1 (struct_allocate world0 8).2
      ( struct_initialize rb0 (struct_allocate world0 8).2 [.obj 10] (.obj 24)).2 [.obj 10]
      (.obj 24) (Prod.ext rfl rfl) (by decide),
    (by
      obtain ⟨s, st, mp, _, _, h, _⟩ :=
        (struct_buffer_is_accessor_object rb0 (.obj 24)
          (fun w recv mid args h => by rw [rb0_world]; exact h)).2 _
          (Reachable.put _ (.sym "x") (.int 5)
            (Reachable.set_pointer _ (.obj 11)
              (Reachable.construct (struct_allocate world0 8).2
                ( struct_initialize rb0 (struct_allocate world0 8).2 [.obj 10] (.obj 24)).2
                [.obj 10] (.obj 24) (Prod.ext rfl rfl))))
      exact ⟨mp, by rw [h]⟩)⟩

end FFI
